import Mathlib

/-!
# pvAccessCPP client: operation state machines and monitor strategies

A shallow embedding of `pvAccessApp/remoteClient/clientContextImpl.cpp`.

* Machine integers are `Int`/`Nat` with explicit reduction modulo `2^8` / `2^32`.
* An object with mutable fields becomes a structure; a method becomes a
  function from the old state to the new state (and its result).
* A C++ exception (`std::runtime_error` of `checkAndGetTransport`) becomes
  `Except.error`; a call through a null pointer has no result (`none`).
* Requester callbacks, the transport send queue and the bytes written by
  `send` are recorded in explicit lists.
-/

namespace PvAccess

/-! ## Machine integers -/

/-- The 32-bit pattern of a C `int`. -/
def toU32 (x : Int) : Nat := (x % 4294967296).toNat

/-- The C `int` denoted by a 32-bit pattern. -/
def toInt32 (n : Nat) : Int :=
  if n % 4294967296 < 2147483648 then (n % 4294967296 : Nat) else (n % 4294967296 : Nat) - 4294967296

/-- The cast `(int8)x`: the low 8 bits, read as a signed byte. -/
def toInt8 (x : Int) : Int :=
  if (x % 256).toNat < 128 then ((x % 256).toNat : Int) else ((x % 256).toNat : Int) - 256

/-- The byte that `putByte((int8)x)` stores: the low 8 bits of `x`. -/
def toByte (x : Int) : Nat := (x % 256).toNat

/-- The C operator `a & b` on `int` operands (two's complement, 32 bit). -/
def and32 (a b : Int) : Int := toInt32 (toU32 a &&& toU32 b)

/-- The C operator `a | b` on `int` operands (two's complement, 32 bit). -/
def or32 (a b : Int) : Int := toInt32 (toU32 a ||| toU32 b)

/-- A C condition `if (x)`: true when `x` is not zero. -/
def truthy (x : Int) : Bool := x != 0

/-! ## Constants

The QoS bits live in `caConstants.h`, which is not part of the sources at hand. -/

/-- Modelled from the spec: `QOS_DEFAULT` of `caConstants.h` ("DEFAULT=0"). -/
def QOS_DEFAULT : Int := 0x00
/-- Modelled from the spec: `QOS_INIT` of `caConstants.h` ("INIT=0x08"). -/
def QOS_INIT : Int := 0x08
/-- Modelled from the spec: `QOS_DESTROY` of `caConstants.h` ("DESTROY=0x10"). -/
def QOS_DESTROY : Int := 0x10
/-- Modelled from the spec: `QOS_PROCESS` of `caConstants.h` ("PROCESS=0x20"). -/
def QOS_PROCESS : Int := 0x20
/-- Modelled from the spec: `QOS_GET` of `caConstants.h` ("GET=0x40"). -/
def QOS_GET : Int := 0x40
/-- Modelled from the spec: `QOS_GET_PUT` of `caConstants.h` ("GET_PUT=0x80"). -/
def QOS_GET_PUT : Int := 0x80

/-- From `BaseRequestImpl::NULL_REQUEST`. -/
def NULL_REQUEST : Int := -1
/-- From `BaseRequestImpl::PURE_DESTROY_REQUEST`. -/
def PURE_DESTROY_REQUEST : Int := -2

/-- A `pvAccessID` (CID, SID, IOID): a 32-bit pattern. -/
abbrev pvAccessID := Nat

/-! ## Status -/

/-- From `Status::StatusType`. -/
inductive StatusType where
  | OK | WARNING | ERROR | FATAL
  deriving DecidableEq, Repr

/-- From `epics::pvData::Status`: a type and a message. -/
structure Status where
  type : StatusType
  message : String
  deriving DecidableEq, Repr

/-- From `Status::OK`. -/
def Status.OK : Status := ⟨StatusType.OK, ""⟩

/-- From `Status::isSuccess()` of pvData: true for OK and for WARNING. -/
def Status.isSuccess (s : Status) : Bool :=
  s.type = StatusType.OK || s.type = StatusType.WARNING

def notInitializedStatus : Status := ⟨StatusType.ERROR, "request not initialized"⟩
def destroyedStatus : Status := ⟨StatusType.ERROR, "request destroyed"⟩
def channelNotConnected : Status := ⟨StatusType.ERROR, "channel not connected"⟩
def otherRequestPendingStatus : Status := ⟨StatusType.ERROR, "other request pending"⟩
def pvRequestNull : Status := ⟨StatusType.ERROR, "pvRequest == 0"⟩

/-! ## BaseRequestImpl -/

/-- The mutable fields of `BaseRequestImpl`. -/
structure BaseRequestImpl where
  m_ioid : pvAccessID
  m_destroyed : Bool
  m_initialized : Bool
  m_pendingRequest : Int
  m_refCount : Int
  m_status : Status
  deriving DecidableEq, Repr

/-- From `BaseRequestImpl::startRequest(qos)`: the result and the new state. -/
def BaseRequestImpl.startRequest (r : BaseRequestImpl) (qos : Int) : Bool × BaseRequestImpl :=
  -- we allow pure destroy...
  if r.m_pendingRequest ≠ NULL_REQUEST ∧ qos ≠ PURE_DESTROY_REQUEST then
    (false, r)
  else
    (true, { r with m_pendingRequest := qos })

/-- From `BaseRequestImpl::stopRequest()`. -/
def BaseRequestImpl.stopRequest (r : BaseRequestImpl) : BaseRequestImpl :=
  { r with m_pendingRequest := NULL_REQUEST }

/-- From `BaseRequestImpl::getPendingRequest()`. -/
def BaseRequestImpl.getPendingRequest (r : BaseRequestImpl) : Int :=
  r.m_pendingRequest

/-- From `BaseRequestImpl::release()`: the count drops by one (freeing the object
at zero is deallocation and leaves no trace in the fields). -/
def BaseRequestImpl.release (r : BaseRequestImpl) : BaseRequestImpl :=
  { r with m_refCount := r.m_refCount - 1 }

/-! ## The surroundings of an operation: channel, context, transport, requester -/

/-- From `Channel::ConnectionState`. -/
inductive ConnectionState where
  | NEVER_CONNECTED | CONNECTED | DISCONNECTED | DESTROYED
  deriving DecidableEq, Repr

/-- An entry of the transport send queue: a `TransportSender*`, named by the
object it points to (a request by its IOID, a channel by its CID). -/
inductive TransportSender where
  | request (ioid : pvAccessID)
  | channel (cid : pvAccessID)
  deriving DecidableEq, Repr

/-- A call made on the requester of an operation, with the status passed. -/
inductive Callback where
  | channelProcessConnect (status : Status)
  | channelGetConnect (status : Status)
  | channelPutConnect (status : Status)
  | channelPutGetConnect (status : Status)
  | channelRPCConnect (status : Status)
  | channelArrayConnect (status : Status)
  | monitorConnect (status : Status)
  | processDone (status : Status)
  | getDone (status : Status)
  | putDone (status : Status)
  | putGetDone (status : Status)
  | getGetDone (status : Status)
  | getPutDone (status : Status)
  | requestDone (status : Status)
  | getArrayDone (status : Status)
  | putArrayDone (status : Status)
  | setLengthDone (status : Status)
  deriving DecidableEq, Repr

/-- A `PVStructure` object handed in by the user (the pvRequest), named by an
identity; its contents are the business of the pvData library. -/
structure PVStructure where
  id : Nat
  deriving DecidableEq, Repr

/-- The keys of an IOID map (`std::map<pvAccessID, ResponseRequest*>`). -/
abbrev IOIDKeys := List pvAccessID

/-- The key set after `map[k] = v`. -/
def mapInsert (k : pvAccessID) (keys : IOIDKeys) : IOIDKeys :=
  if k ∈ keys then keys else keys ++ [k]

/-- The key set after `map.erase(k)`. -/
def mapErase (k : pvAccessID) (keys : IOIDKeys) : IOIDKeys :=
  keys.filter (fun x => x != k)

/-- What an operation sees of its channel, its context, the channel's
transport and its requester. The transport pointer of a CONNECTED channel is
taken to be valid (`createChannel` stores it before `connectionCompleted`
can run). -/
structure Env where
  /-- From `InternalChannelImpl::m_connectionState` -/
  m_connectionState : ConnectionState
  /-- From `InternalChannelImpl::m_serverChannelID` -/
  m_serverChannelID : pvAccessID
  /-- keys of `InternalChannelImpl::m_responseRequests` -/
  m_responseRequests : IOIDKeys
  /-- keys of `InternalClientContextImpl::m_pendingResponseRequests` -/
  m_pendingResponseRequests : IOIDKeys
  /-- From `InternalClientContextImpl::m_lastIOID` -/
  m_lastIOID : pvAccessID
  /-- the send queue of the channel's transport, oldest entry first -/
  sendQueue : List TransportSender
  /-- the calls made on the requester so far, oldest first -/
  callbacks : List Callback
  deriving DecidableEq, Repr

/-- An operation together with its surroundings. -/
structure World where
  env : Env
  op : BaseRequestImpl
  /-- From `m_pvRequest` (null pointer: `none`) -/
  m_pvRequest : Option PVStructure
  /-- From `ChannelArrayImpl::m_offset` -/
  m_offset : Int
  /-- From `ChannelArrayImpl::m_count` -/
  m_count : Int
  /-- From `ChannelArrayImpl::m_length` -/
  m_length : Int
  /-- From `ChannelArrayImpl::m_capacity` -/
  m_capacity : Int
  deriving DecidableEq, Repr

/-- A requester callback is invoked. -/
def World.callback (w : World) (c : Callback) : World :=
  { w with env := { w.env with callbacks := w.env.callbacks ++ [c] } }

/-- From `InternalChannelImpl::checkAndGetTransport()`: throws unless CONNECTED. -/
def Env.checkAndGetTransport (e : Env) : Except String Unit :=
  if e.m_connectionState = ConnectionState.DESTROYED then
    Except.error "Channel destroyed."
  else if e.m_connectionState ≠ ConnectionState.CONNECTED then
    Except.error "Channel not connected."
  else
    Except.ok ()

/-- From `transport->enqueueSendRequest(this)` for the operation of `w`. -/
def World.enqueueSendRequest (w : World) : World :=
  { w with env := { w.env with sendQueue := w.env.sendQueue ++ [TransportSender.request w.op.m_ioid] } }

/-- From `startRequest(qos)` on the operation of `w`. -/
def World.startRequest (w : World) (qos : Int) : Bool × World :=
  ((w.op.startRequest qos).1, { w with op := (w.op.startRequest qos).2 })

/-- From `stopRequest()` on the operation of `w`. -/
def World.stopRequest (w : World) : World :=
  { w with op := w.op.stopRequest }

/-- From `InternalClientContextImpl::unregisterResponseRequest(request)`. -/
def Env.contextUnregisterResponseRequest (e : Env) (ioid : pvAccessID) : Env :=
  if ioid ∈ e.m_pendingResponseRequests then
    { e with m_pendingResponseRequests := mapErase ioid e.m_pendingResponseRequests }
  else
    e

/-- From `InternalChannelImpl::unregisterResponseRequest(responseRequest)`. -/
def Env.channelUnregisterResponseRequest (e : Env) (ioid : pvAccessID) : Env :=
  { e with m_responseRequests := mapErase ioid e.m_responseRequests }

/-- The loop of `generateIOID`:
`while (m_pendingResponseRequests.find(++m_lastIOID) != end);`
run for at most `fuel` increments; the result is the final `m_lastIOID`. -/
def generateIOIDLoop (keys : IOIDKeys) : Nat → pvAccessID → Option pvAccessID
  | 0, _ => none
  | fuel + 1, last =>
    if (last + 1) % 4294967296 ∈ keys then
      generateIOIDLoop keys fuel ((last + 1) % 4294967296)
    else
      some ((last + 1) % 4294967296)

/-- From `InternalClientContextImpl::generateIOID()`: the id and the new state. -/
def Env.generateIOID (fuel : Nat) (e : Env) : Option (pvAccessID × Env) :=
  match generateIOIDLoop e.m_pendingResponseRequests fuel e.m_lastIOID with
  | none => none
  | some ioid =>
    -- reserve IOID
    some (ioid, { e with m_lastIOID := ioid,
                         m_pendingResponseRequests := mapInsert ioid e.m_pendingResponseRequests })

/-- From `InternalClientContextImpl::registerResponseRequest(request)`. -/
def Env.contextRegisterResponseRequest (fuel : Nat) (e : Env) : Option (pvAccessID × Env) :=
  match e.generateIOID fuel with
  | none => none
  | some (ioid, e1) =>
    some (ioid, { e1 with m_pendingResponseRequests := mapInsert ioid e1.m_pendingResponseRequests })

/-- From `InternalChannelImpl::registerResponseRequest(responseRequest)`. -/
def Env.channelRegisterResponseRequest (e : Env) (ioid : pvAccessID) : Env :=
  { e with m_responseRequests := mapInsert ioid e.m_responseRequests }

/-- The constructor `BaseRequestImpl(channel, requester)`, for an operation
with the given `pvRequest` (the array fields get the initial values of
`ChannelArrayImpl`). -/
def BaseRequestImpl.create (fuel : Nat) (e : Env) (pvRequest : Option PVStructure) :
    Option World :=
  match e.contextRegisterResponseRequest fuel with
  | none => none
  | some (ioid, e1) =>
    some { env := e1.channelRegisterResponseRequest ioid,
           op := { m_ioid := ioid, m_destroyed := false, m_initialized := false,
                   m_pendingRequest := NULL_REQUEST, m_refCount := 1, m_status := Status.OK },
           m_pvRequest := pvRequest,
           m_offset := 0, m_count := 0, m_length := -1, m_capacity := -1 }

/-- From `resubscribeSubscription(transport)` (the same body in every operation class). -/
def World.resubscribeSubscription (w : World) : World :=
  (w.startRequest QOS_INIT).2.enqueueSendRequest

/-- From `BaseRequestImpl::destroy()`. -/
def World.destroy (w : World) : World :=
  if w.op.m_destroyed then
    w
  else
    let w1 : World := { w with op := { w.op with m_destroyed := true } }
    -- unregister response request
    let w2 : World :=
      { w1 with
        env := ((w1.env.contextUnregisterResponseRequest w1.op.m_ioid).channelUnregisterResponseRequest
                  w1.op.m_ioid) }
    -- destroy remote instance
    let w3 : World :=
      if w2.op.m_initialized then
        let w4 := (w2.startRequest PURE_DESTROY_REQUEST).2
        match w4.env.checkAndGetTransport with
        | Except.ok _ => w4.enqueueSendRequest
        | Except.error _ => w4 -- noop (do not complain if fails)
      else
        w2
    { w3 with op := w3.op.release }

/-- From `BaseRequestImpl::cancel()`. -/
def World.cancel (w : World) : World :=
  w.destroy

/-! ## Sending -/

/-- A message handed to the transport: the command of `startMessage` and the
bytes put into the buffer after it. -/
structure Message where
  command : Int
  body : List Nat
  deriving DecidableEq, Repr

/-- Modelled from the spec: `ByteBuffer::putInt` of pvData, which is not among
the sources: the four bytes of a 32-bit value, big-endian ("Integers are
big-endian by default"). -/
def putInt (x : pvAccessID) : List Nat :=
  [x / 16777216 % 256, x / 65536 % 256, x / 256 % 256, x % 256]

/-- The bytes written by the serialization collaborators (introspection
registry, bit sets, data containers, `SerializeHelper`), which are outside
these sources. -/
structure Collaborators where
  /-- From `serializePVRequest(buffer, control, m_pvRequest)` -/
  serializePVRequest : Option PVStructure → List Nat
  /-- From `m_bitSet->serialize(buffer, control)` -/
  bitSet : List Nat
  /-- From `m_data->serialize(buffer, control, m_bitSet)` -/
  data : List Nat
  /-- From `m_putData->serialize(buffer, control)` -/
  putData : List Nat
  /-- From `SerializeHelper::writeSize(n, buffer, control)` -/
  writeSize : Int → List Nat
  /-- From `m_data->serialize(buffer, control, 0, m_count)` of the array -/
  arrayData : Int → List Nat

/-- From `BaseRequestImpl::send(buffer, control)`: the messages written and the new state. -/
def BaseRequestImpl.send (w : World) : List Message × World :=
  let qos : Int := toInt8 w.op.getPendingRequest
  if qos = -1 then
    ([], w)
  else if qos = PURE_DESTROY_REQUEST then
    ([{ command := 15, body := putInt w.env.m_serverChannelID ++ putInt w.op.m_ioid }],
      w.stopRequest)
  else
    ([], w.stopRequest)

/-- From `ChannelProcessRequestImpl::send`. -/
def ChannelProcessRequestImpl.send (ext : Collaborators) (w : World) : List Message × World :=
  let pendingRequest := w.op.getPendingRequest
  if pendingRequest < 0 then
    BaseRequestImpl.send w
  else
    ([{ command := 16,
        body := putInt w.env.m_serverChannelID ++ putInt w.op.m_ioid
          ++ [toByte w.op.m_pendingRequest]
          ++ (if truthy (and32 pendingRequest QOS_INIT) then
                ext.serializePVRequest w.m_pvRequest
              else []) }],
      w.stopRequest)

/-- From `ChannelGetImpl::send`. -/
def ChannelGetImpl.send (ext : Collaborators) (w : World) : List Message × World :=
  let pendingRequest := w.op.getPendingRequest
  if pendingRequest < 0 then
    BaseRequestImpl.send w
  else
    ([{ command := 10,
        body := putInt w.env.m_serverChannelID ++ putInt w.op.m_ioid
          ++ [toByte w.op.m_pendingRequest]
          ++ (if truthy (and32 pendingRequest QOS_INIT) then
                ext.serializePVRequest w.m_pvRequest
              else []) }],
      w.stopRequest)

/-- From `ChannelPutImpl::send`. -/
def ChannelPutImpl.send (ext : Collaborators) (w : World) : List Message × World :=
  let pendingRequest := w.op.getPendingRequest
  if pendingRequest < 0 then
    BaseRequestImpl.send w
  else
    ([{ command := 11,
        body := putInt w.env.m_serverChannelID ++ putInt w.op.m_ioid
          ++ [toByte w.op.m_pendingRequest]
          ++ (if truthy (and32 pendingRequest QOS_INIT) then
                ext.serializePVRequest w.m_pvRequest
              else if !truthy (and32 pendingRequest QOS_GET) then
                -- put: serialize only what has been changed
                ext.bitSet ++ ext.data
              else []) }],
      w.stopRequest)

/-- From `ChannelPutGetImpl::send`. -/
def ChannelPutGetImpl.send (ext : Collaborators) (w : World) : List Message × World :=
  let pendingRequest := w.op.getPendingRequest
  if pendingRequest < 0 then
    BaseRequestImpl.send w
  else
    ([{ command := 12,
        body := putInt w.env.m_serverChannelID ++ putInt w.op.m_ioid
          ++ (if and32 pendingRequest QOS_INIT = 0 then [toByte pendingRequest] else [])
          ++ (if truthy (and32 pendingRequest QOS_INIT) then
                [toByte QOS_INIT] ++ ext.serializePVRequest w.m_pvRequest
              else if truthy (and32 pendingRequest (or32 QOS_GET QOS_GET_PUT)) then
                [] -- noop
              else
                ext.putData) }],
      w.stopRequest)

/-- From `ChannelRPCImpl::send`. -/
def ChannelRPCImpl.send (ext : Collaborators) (w : World) : List Message × World :=
  let pendingRequest := w.op.getPendingRequest
  if pendingRequest < 0 then
    BaseRequestImpl.send w
  else
    ([{ command := 20,
        body := putInt w.env.m_serverChannelID ++ putInt w.op.m_ioid
          ++ (if and32 w.op.m_pendingRequest QOS_INIT = 0 then [toByte w.op.m_pendingRequest] else [])
          ++ (if truthy (and32 pendingRequest QOS_INIT) then
                [toByte QOS_INIT] ++ ext.serializePVRequest w.m_pvRequest
              else
                ext.bitSet ++ ext.data) }],
      w.stopRequest)

/-- From `ChannelArrayImpl::send`. -/
def ChannelArrayImpl.send (ext : Collaborators) (w : World) : List Message × World :=
  let pendingRequest := w.op.getPendingRequest
  if pendingRequest < 0 then
    BaseRequestImpl.send w
  else
    ([{ command := 14,
        body := putInt w.env.m_serverChannelID ++ putInt w.op.m_ioid
          ++ [toByte w.op.m_pendingRequest]
          ++ (if truthy (and32 pendingRequest QOS_INIT) then
                ext.serializePVRequest w.m_pvRequest
              else if truthy (and32 pendingRequest QOS_GET) then
                ext.writeSize w.m_offset ++ ext.writeSize w.m_count
              else if truthy (and32 pendingRequest QOS_GET_PUT) then -- i.e. setLength
                ext.writeSize w.m_length ++ ext.writeSize w.m_capacity
              else -- put
                ext.writeSize w.m_offset ++ ext.arrayData w.m_count) }],
      w.stopRequest)

/-- From `ChannelMonitorImpl::send`. -/
def ChannelMonitorImpl.send (ext : Collaborators) (w : World) : List Message × World :=
  let pendingRequest := w.op.getPendingRequest
  if pendingRequest < 0 then
    BaseRequestImpl.send w
  else
    ([{ command := 13,
        body := putInt w.env.m_serverChannelID ++ putInt w.op.m_ioid
          ++ [toByte w.op.m_pendingRequest]
          ++ (if truthy (and32 pendingRequest QOS_INIT) then
                ext.serializePVRequest w.m_pvRequest
              else []) }],
      w.stopRequest)

/-- The operation classes derived from `BaseRequestImpl`. -/
inductive OpKind where
  | Process | Get | Put | PutGet | Monitor | Array | RPC
  deriving DecidableEq, Repr

/-- The virtual call `send(buffer, control)` on an operation of class `k`. -/
def OpKind.send (k : OpKind) (ext : Collaborators) (w : World) : List Message × World :=
  match k with
  | OpKind.Process => ChannelProcessRequestImpl.send ext w
  | OpKind.Get => ChannelGetImpl.send ext w
  | OpKind.Put => ChannelPutImpl.send ext w
  | OpKind.PutGet => ChannelPutGetImpl.send ext w
  | OpKind.Monitor => ChannelMonitorImpl.send ext w
  | OpKind.Array => ChannelArrayImpl.send ext w
  | OpKind.RPC => ChannelRPCImpl.send ext w

/-- The codes that the methods of class `k` pass to `startRequest`
(`resubscribeSubscription`, the request methods, `start`/`stop`, `destroy`),
and `NULL_REQUEST`, which the constructor and `stopRequest` store. -/
def OpKind.pendingCodes : OpKind → List Int
  | OpKind.Process =>
    [NULL_REQUEST, PURE_DESTROY_REQUEST, QOS_INIT, QOS_DESTROY, QOS_DEFAULT]
  | OpKind.Get =>
    [NULL_REQUEST, PURE_DESTROY_REQUEST, QOS_INIT, or32 QOS_DESTROY QOS_GET, QOS_DEFAULT]
  | OpKind.Put =>
    [NULL_REQUEST, PURE_DESTROY_REQUEST, QOS_INIT, QOS_GET, QOS_DESTROY, QOS_DEFAULT]
  | OpKind.PutGet =>
    [NULL_REQUEST, PURE_DESTROY_REQUEST, QOS_INIT, QOS_DESTROY, QOS_DEFAULT, QOS_GET, QOS_GET_PUT]
  | OpKind.Monitor =>
    [NULL_REQUEST, PURE_DESTROY_REQUEST, QOS_INIT, or32 QOS_PROCESS QOS_GET, QOS_PROCESS]
  | OpKind.Array =>
    [NULL_REQUEST, PURE_DESTROY_REQUEST, QOS_INIT, or32 QOS_DESTROY QOS_GET, QOS_GET,
     QOS_DESTROY, QOS_DEFAULT, or32 QOS_DESTROY QOS_GET_PUT, QOS_GET_PUT]
  | OpKind.RPC =>
    [NULL_REQUEST, PURE_DESTROY_REQUEST, QOS_INIT, QOS_DESTROY, QOS_DEFAULT]

/-- The command codes of the spec's table (section 4.J): Process 16, Get 10,
Put 11, PutGet 12, Monitor 13, Array 14, RPC 20. -/
def OpKind.specCommand : OpKind → Int
  | OpKind.Process => 16
  | OpKind.Get => 10
  | OpKind.Put => 11
  | OpKind.PutGet => 12
  | OpKind.Monitor => 13
  | OpKind.Array => 14
  | OpKind.RPC => 20

/-! ## Request methods -/

/-- From `ChannelProcessRequestImpl::process`. -/
def ChannelProcessRequestImpl.process (lastRequest : Bool) (w : World) : World :=
  if w.op.m_destroyed then
    w.callback (Callback.processDone destroyedStatus)
  else if !w.op.m_initialized then
    w.callback (Callback.processDone notInitializedStatus)
  else if !(w.startRequest (if lastRequest then QOS_DESTROY else QOS_DEFAULT)).1 then
    w.callback (Callback.processDone otherRequestPendingStatus)
  else
    let w1 : World := (w.startRequest (if lastRequest then QOS_DESTROY else QOS_DEFAULT)).2
    match w1.env.checkAndGetTransport with
    | Except.ok _ => w1.enqueueSendRequest
    | Except.error _ => w1.stopRequest.callback (Callback.processDone channelNotConnected)

/-- From `ChannelGetImpl::get`. -/
def ChannelGetImpl.get (lastRequest : Bool) (w : World) : World :=
  if w.op.m_destroyed then
    w.callback (Callback.getDone destroyedStatus)
  else if !w.op.m_initialized then
    w.callback (Callback.getDone notInitializedStatus)
  else if !(w.startRequest (if lastRequest then or32 QOS_DESTROY QOS_GET else QOS_DEFAULT)).1 then
    w.callback (Callback.getDone otherRequestPendingStatus)
  else
    let w1 : World := (w.startRequest (if lastRequest then or32 QOS_DESTROY QOS_GET else QOS_DEFAULT)).2
    match w1.env.checkAndGetTransport with
    | Except.ok _ => w1.enqueueSendRequest
    | Except.error _ => w1.stopRequest.callback (Callback.getDone channelNotConnected)

/-- From `ChannelPutImpl::get`. -/
def ChannelPutImpl.get (w : World) : World :=
  if w.op.m_destroyed then
    w.callback (Callback.getDone destroyedStatus)
  else if !w.op.m_initialized then
    w.callback (Callback.getDone notInitializedStatus)
  else if !(w.startRequest (QOS_GET)).1 then
    w.callback (Callback.getDone otherRequestPendingStatus)
  else
    let w1 : World := (w.startRequest (QOS_GET)).2
    match w1.env.checkAndGetTransport with
    | Except.ok _ => w1.enqueueSendRequest
    | Except.error _ => w1.stopRequest.callback (Callback.getDone channelNotConnected)

/-- From `ChannelPutImpl::put`. -/
def ChannelPutImpl.put (lastRequest : Bool) (w : World) : World :=
  if w.op.m_destroyed then
    w.callback (Callback.putDone destroyedStatus)
  else if !w.op.m_initialized then
    w.callback (Callback.putDone notInitializedStatus)
  else if !(w.startRequest (if lastRequest then QOS_DESTROY else QOS_DEFAULT)).1 then
    w.callback (Callback.putDone otherRequestPendingStatus)
  else
    let w1 : World := (w.startRequest (if lastRequest then QOS_DESTROY else QOS_DEFAULT)).2
    match w1.env.checkAndGetTransport with
    | Except.ok _ => w1.enqueueSendRequest
    | Except.error _ => w1.stopRequest.callback (Callback.putDone channelNotConnected)

/-- From `ChannelPutGetImpl::putGet`. -/
def ChannelPutGetImpl.putGet (lastRequest : Bool) (w : World) : World :=
  if w.op.m_destroyed then
    w.callback (Callback.putGetDone destroyedStatus)
  else if !w.op.m_initialized then
    w.callback (Callback.putGetDone notInitializedStatus)
  else if !(w.startRequest (if lastRequest then QOS_DESTROY else QOS_DEFAULT)).1 then
    w.callback (Callback.putGetDone otherRequestPendingStatus)
  else
    let w1 : World := (w.startRequest (if lastRequest then QOS_DESTROY else QOS_DEFAULT)).2
    match w1.env.checkAndGetTransport with
    | Except.ok _ => w1.enqueueSendRequest
    | Except.error _ => w1.stopRequest.callback (Callback.putGetDone channelNotConnected)

/-- From `ChannelPutGetImpl::getGet`. -/
def ChannelPutGetImpl.getGet (w : World) : World :=
  if w.op.m_destroyed then
    w.callback (Callback.getGetDone destroyedStatus)
  else if !w.op.m_initialized then
    w.callback (Callback.getGetDone notInitializedStatus)
  else if !(w.startRequest (QOS_GET)).1 then
    w.callback (Callback.getGetDone otherRequestPendingStatus)
  else
    let w1 : World := (w.startRequest (QOS_GET)).2
    match w1.env.checkAndGetTransport with
    | Except.ok _ => w1.enqueueSendRequest
    | Except.error _ => w1.stopRequest.callback (Callback.getGetDone channelNotConnected)

/-- From `ChannelPutGetImpl::getPut`. -/
def ChannelPutGetImpl.getPut (w : World) : World :=
  if w.op.m_destroyed then
    w.callback (Callback.getPutDone destroyedStatus)
  else if !w.op.m_initialized then
    w.callback (Callback.getPutDone notInitializedStatus)
  else if !(w.startRequest (QOS_GET_PUT)).1 then
    w.callback (Callback.getPutDone otherRequestPendingStatus)
  else
    let w1 : World := (w.startRequest (QOS_GET_PUT)).2
    match w1.env.checkAndGetTransport with
    | Except.ok _ => w1.enqueueSendRequest
    | Except.error _ => w1.stopRequest.callback (Callback.getPutDone channelNotConnected)

/-- From `ChannelRPCImpl::request`. -/
def ChannelRPCImpl.request (lastRequest : Bool) (w : World) : World :=
  if w.op.m_destroyed then
    w.callback (Callback.requestDone destroyedStatus)
  else if !w.op.m_initialized then
    w.callback (Callback.requestDone notInitializedStatus)
  else if !(w.startRequest (if lastRequest then QOS_DESTROY else QOS_DEFAULT)).1 then
    w.callback (Callback.requestDone otherRequestPendingStatus)
  else
    let w1 : World := (w.startRequest (if lastRequest then QOS_DESTROY else QOS_DEFAULT)).2
    match w1.env.checkAndGetTransport with
    | Except.ok _ => w1.enqueueSendRequest
    | Except.error _ => w1.stopRequest.callback (Callback.requestDone channelNotConnected)

/-- From `ChannelArrayImpl::getArray`. -/
def ChannelArrayImpl.getArray (lastRequest : Bool) (offset : Int) (count : Int) (w : World) : World :=
  if w.op.m_destroyed then
    w.callback (Callback.getArrayDone destroyedStatus)
  else if !w.op.m_initialized then
    w.callback (Callback.getArrayDone notInitializedStatus)
  else if !(w.startRequest (if lastRequest then or32 QOS_DESTROY QOS_GET else QOS_GET)).1 then
    w.callback (Callback.getArrayDone otherRequestPendingStatus)
  else
    let w1 : World :=
      { (w.startRequest (if lastRequest then or32 QOS_DESTROY QOS_GET else QOS_GET)).2 with
        m_offset := offset, m_count := count }
    match w1.env.checkAndGetTransport with
    | Except.ok _ => w1.enqueueSendRequest
    | Except.error _ => w1.stopRequest.callback (Callback.getArrayDone channelNotConnected)

/-- From `ChannelArrayImpl::putArray`. -/
def ChannelArrayImpl.putArray (lastRequest : Bool) (offset : Int) (count : Int) (w : World) : World :=
  if w.op.m_destroyed then
    w.callback (Callback.putArrayDone destroyedStatus)
  else if !w.op.m_initialized then
    w.callback (Callback.putArrayDone notInitializedStatus)
  else if !(w.startRequest (if lastRequest then QOS_DESTROY else QOS_DEFAULT)).1 then
    w.callback (Callback.putArrayDone otherRequestPendingStatus)
  else
    let w1 : World :=
      { (w.startRequest (if lastRequest then QOS_DESTROY else QOS_DEFAULT)).2 with
        m_offset := offset, m_count := count }
    match w1.env.checkAndGetTransport with
    | Except.ok _ => w1.enqueueSendRequest
    | Except.error _ => w1.stopRequest.callback (Callback.putArrayDone channelNotConnected)

/-- From `ChannelArrayImpl::setLength`. -/
def ChannelArrayImpl.setLength (lastRequest : Bool) (length : Int) (capacity : Int) (w : World) : World :=
  if w.op.m_destroyed then
    w.callback (Callback.setLengthDone destroyedStatus)
  else if !w.op.m_initialized then
    w.callback (Callback.setLengthDone notInitializedStatus)
  else if !(w.startRequest (if lastRequest then or32 QOS_DESTROY QOS_GET_PUT else QOS_GET_PUT)).1 then
    w.callback (Callback.setLengthDone otherRequestPendingStatus)
  else
    let w1 : World :=
      { (w.startRequest (if lastRequest then or32 QOS_DESTROY QOS_GET_PUT else QOS_GET_PUT)).2 with
        m_length := length, m_capacity := capacity }
    match w1.env.checkAndGetTransport with
    | Except.ok _ => w1.enqueueSendRequest
    | Except.error _ => w1.stopRequest.callback (Callback.setLengthDone channelNotConnected)

/-- The request methods of ChannelProcess, ChannelGet, ChannelPut,
ChannelPutGet, ChannelRPC and ChannelArray, with their arguments. -/
inductive RequestMethod where
  | process (lastRequest : Bool)
  | get (lastRequest : Bool)
  | getOfPut
  | put (lastRequest : Bool)
  | putGet (lastRequest : Bool)
  | getGet
  | getPut
  | request (lastRequest : Bool)
  | getArray (lastRequest : Bool) (offset count : Int)
  | putArray (lastRequest : Bool) (offset count : Int)
  | setLength (lastRequest : Bool) (length capacity : Int)
  deriving DecidableEq, Repr

/-- The call of a request method. -/
def RequestMethod.run : RequestMethod → World → World
  | RequestMethod.process l => ChannelProcessRequestImpl.process l
  | RequestMethod.get l => ChannelGetImpl.get l
  | RequestMethod.getOfPut => ChannelPutImpl.get
  | RequestMethod.put l => ChannelPutImpl.put l
  | RequestMethod.putGet l => ChannelPutGetImpl.putGet l
  | RequestMethod.getGet => ChannelPutGetImpl.getGet
  | RequestMethod.getPut => ChannelPutGetImpl.getPut
  | RequestMethod.request l => ChannelRPCImpl.request l
  | RequestMethod.getArray l o c => ChannelArrayImpl.getArray l o c
  | RequestMethod.putArray l o c => ChannelArrayImpl.putArray l o c
  | RequestMethod.setLength l n c => ChannelArrayImpl.setLength l n c

/-- The done-callback of the requester interface that belongs to a request
method (`ChannelGetRequester::getDone` for `ChannelGet::get`, and so on). -/
def RequestMethod.done : RequestMethod → Status → Callback
  | RequestMethod.process _ => Callback.processDone
  | RequestMethod.get _ => Callback.getDone
  | RequestMethod.getOfPut => Callback.getDone
  | RequestMethod.put _ => Callback.putDone
  | RequestMethod.putGet _ => Callback.putGetDone
  | RequestMethod.getGet => Callback.getGetDone
  | RequestMethod.getPut => Callback.getPutDone
  | RequestMethod.request _ => Callback.requestDone
  | RequestMethod.getArray _ _ _ => Callback.getArrayDone
  | RequestMethod.putArray _ _ _ => Callback.putArrayDone
  | RequestMethod.setLength _ _ _ => Callback.setLengthDone

/-! ## Constructor of ChannelGetImpl -/

/-- The constructor `ChannelGetImpl(channel, channelGetRequester, pvRequest)`. -/
def ChannelGetImpl.create (fuel : Nat) (e : Env) (pvRequest : Option PVStructure) :
    Option World :=
  match BaseRequestImpl.create fuel e pvRequest with
  | none => none
  | some w =>
    if pvRequest = none then
      some (w.callback (Callback.channelGetConnect pvRequestNull))
    else
      -- subscribe
      match w.env.checkAndGetTransport with
      | Except.ok _ => some w.resubscribeSubscription
      | Except.error _ => some (w.callback (Callback.channelGetConnect channelNotConnected))

/-! ## Response dispatch -/

/-- The three virtual response methods of an operation class, each given the
QoS byte and the status; the result is the returned `bool` and the new state. -/
structure ResponseMethods where
  initResponse : Int → Status → World → Bool × World
  destroyResponse : Int → Status → World → Bool × World
  normalResponse : Int → Status → World → Bool × World

/-- The virtual response method that `response` calls. -/
inductive ResponseCall where
  | initResponse | destroyResponse | normalResponse
  deriving DecidableEq, Repr

/-- From `BaseRequestImpl::response`: `qosByte` is the byte read by `getByte()`,
`status` the status read by `deserializeStatus`. The result lists the virtual
response methods called, in order, and gives the new state. -/
def BaseRequestImpl.response (h : ResponseMethods) (qosByte : Nat) (status : Status) (w : World) :
    List ResponseCall × World :=
  let qos : Int := toInt8 qosByte
  let w0 : World := { w with op := { w.op with m_status := status } }
  if truthy (and32 qos QOS_INIT) then
    let w1 : World :=
      if w0.op.m_status.isSuccess then
        -- once created set destroy flag
        { w0 with op := { w0.op with m_initialized := true } }
      else w0
    ([ResponseCall.initResponse], (h.initResponse qos w1.op.m_status w1).2)
  else if truthy (and32 qos QOS_DESTROY) then
    let w1 : World := { w0 with op := { w0.op with m_initialized := false } }
    let r := h.destroyResponse qos w1.op.m_status w1
    ([ResponseCall.destroyResponse], if !r.1 then r.2.cancel else r.2)
  else
    ([ResponseCall.normalResponse], (h.normalResponse qos w0.op.m_status w0).2)

/-- From `ChannelMonitorImpl::response` (the override): `status` is what
`deserializeStatus` reads in the INIT and DESTROY branches. -/
def ChannelMonitorImpl.response (h : ResponseMethods) (qosByte : Nat) (status : Status) (w : World) :
    List ResponseCall × World :=
  let qos : Int := toInt8 qosByte
  if truthy (and32 qos QOS_INIT) then
    let w1 : World :=
      if status.isSuccess then { w with op := { w.op with m_initialized := true } } else w
    ([ResponseCall.initResponse], (h.initResponse qos status w1).2)
  else if truthy (and32 qos QOS_DESTROY) then
    let w1 : World := { w with op := { w.op with m_initialized := false } }
    let r := h.destroyResponse qos status w1
    ([ResponseCall.destroyResponse], if !r.1 then r.2.cancel else r.2)
  else
    ([ResponseCall.normalResponse], (h.normalResponse qos Status.OK w).2)

/-! ## MonitorStrategySingle -/

/-- A `BitSet` of pvData: the natural number whose binary digit `i` is 1
exactly when bit `i` is set; `|||` and `&&&` are the bitwise OR and AND. -/
abbrev BitSet := Nat

/-- The bit set with exactly the listed bits. -/
def BitSet.ofList (bits : List Nat) : BitSet :=
  bits.foldl (fun acc i => acc ||| 2 ^ i) 0

/-- From `BitSet::or_and(set1, set2)` of pvData on the receiver `a`: `a |= set1 & set2`. -/
def BitSet.or_and (a set1 set2 : BitSet) : BitSet :=
  a ||| (set1 &&& set2)

/-- A `Structure` introspection descriptor, named by an identity; its field
layout is the business of pvData. -/
structure Structure where
  id : Nat
  deriving DecidableEq, Repr

/-- The objects that `MonitorStrategySingle::init` allocates. The values held
in `m_monitorElementStructure` are not tracked, only the descriptor it was
created from. -/
structure MonitorSlots where
  m_monitorElementStructure : Structure
  m_monitorElementChangeBitSet : BitSet
  m_monitorElementOverrunBitSet : BitSet
  m_dataChangeBitSet : BitSet
  m_dataOverrunBitSet : BitSet
  deriving DecidableEq, Repr

/-- The fields of `MonitorStrategySingle`; `slots = none` stands for the five
null pointers left by the constructor. `monitorEvents` counts the calls of
`m_callback->monitorEvent(this)`. -/
structure MonitorStrategySingle where
  m_gotMonitor : Bool
  slots : Option MonitorSlots
  m_needToCompress : Bool
  monitorEvents : Nat
  deriving DecidableEq, Repr

/-- What a caller reads from the `MonitorElement` returned by `poll()`:
`getChangedBitSet()` and `getOverrunBitSet()` (null pointers: `none`). -/
structure MonitorElement where
  changed : Option BitSet
  overrun : Option BitSet
  deriving DecidableEq, Repr

/-- The constructor `MonitorStrategySingle(callback)`. -/
def MonitorStrategySingle.create : MonitorStrategySingle :=
  { m_gotMonitor := false, slots := none, m_needToCompress := false, monitorEvents := 0 }

/-- From `MonitorStrategySingle::init(structure)`, with `st` for `structure`:
`new BitSet(numberFields)` is an empty bit set. -/
def MonitorStrategySingle.init (s : MonitorStrategySingle) (st : Structure) :
    MonitorStrategySingle :=
  { s with slots := some {
        m_monitorElementStructure := st,
        m_monitorElementChangeBitSet := 0,
        m_monitorElementOverrunBitSet := 0,
        m_dataChangeBitSet := 0,
        m_dataOverrunBitSet := 0 } }

/-- From `MonitorStrategySingle::response(transport, payloadBuffer)` for a payload
that carries the changed set `changed`, the data and the overrun set
`overrun` (`BitSet::deserialize` replaces the receiver's bits). Before
`init` the bit-set pointers are null and the call has no defined result:
`none`. -/
def MonitorStrategySingle.response (s : MonitorStrategySingle) (changed overrun : BitSet) :
    Option MonitorStrategySingle :=
  match s.slots with
  | none => none
  | some sl =>
    if !s.m_gotMonitor then
      -- simply deserialize and notify
      some { s with
        slots := some { sl with m_monitorElementChangeBitSet := changed,
                                m_monitorElementOverrunBitSet := overrun },
        m_gotMonitor := true,
        monitorEvents := s.monitorEvents + 1 }
    else
      -- deserialize first
      let sl1 : MonitorSlots := { sl with m_dataChangeBitSet := changed, m_dataOverrunBitSet := overrun }
      -- OR local overrun
      let sl2 : MonitorSlots :=
        { sl1 with m_monitorElementOverrunBitSet :=
            (BitSet.or_and sl1.m_monitorElementOverrunBitSet sl1.m_dataChangeBitSet
              sl1.m_monitorElementChangeBitSet) }
      -- OR new changes
      let sl3 : MonitorSlots :=
        { sl2 with m_monitorElementChangeBitSet :=
            (sl2.m_monitorElementChangeBitSet ||| sl2.m_dataChangeBitSet) }
      -- OR remote overrun
      let sl4 : MonitorSlots :=
        { sl3 with m_monitorElementOverrunBitSet :=
            (sl3.m_monitorElementOverrunBitSet ||| sl3.m_dataOverrunBitSet) }
      some { s with slots := some sl4 }

/-- The element that `this` presents to the caller in state `s`. -/
def MonitorStrategySingle.element (s : MonitorStrategySingle) : MonitorElement :=
  { changed := s.slots.map (fun sl => sl.m_monitorElementChangeBitSet),
    overrun := s.slots.map (fun sl => sl.m_monitorElementOverrunBitSet) }

/-- From `MonitorStrategySingle::poll()`; `compress bitSet structure` stands for
`BitSetUtil::compress(bitSet, pvStructure)` of pvData. The result is the
element returned (null: `none`) and the new state. -/
def MonitorStrategySingle.poll (compress : BitSet → Structure → BitSet)
    (s : MonitorStrategySingle) : Option MonitorElement × MonitorStrategySingle :=
  if !s.m_gotMonitor then
    (none, s)
  else
    -- compress if needed
    let s1 : MonitorStrategySingle :=
      if s.m_needToCompress then
        { s with
          slots := s.slots.map (fun sl =>
            { sl with
              m_monitorElementChangeBitSet :=
                compress sl.m_monitorElementChangeBitSet sl.m_monitorElementStructure,
              m_monitorElementOverrunBitSet :=
                compress sl.m_monitorElementOverrunBitSet sl.m_monitorElementStructure }),
          m_needToCompress := false }
      else s
    (some s1.element, s1)

/-- From `MonitorStrategySingle::release(monitorElement)`. -/
def MonitorStrategySingle.release (s : MonitorStrategySingle) : MonitorStrategySingle :=
  { s with m_gotMonitor := false }

/-- From `MonitorStrategySingle::start()`. -/
def MonitorStrategySingle.start (s : MonitorStrategySingle) : Status × MonitorStrategySingle :=
  match s.slots with
  | none => (⟨StatusType.ERROR, "Monitor not connected."⟩, s)
  | some sl =>
    (Status.OK,
      { s with
        m_gotMonitor := false,
        slots := some { sl with m_monitorElementChangeBitSet := 0,
                                m_monitorElementOverrunBitSet := 0 } })

/-- From `MonitorStrategySingle::stop()`. -/
def MonitorStrategySingle.stop (s : MonitorStrategySingle) : Status × MonitorStrategySingle :=
  (Status.OK, s)

/-- A call on a monitor strategy: an update arriving from the server (with
its changed and overrun sets), or `poll()` or `release()` by the user. -/
inductive MonitorCall where
  | update (changed overrun : BitSet)
  | poll
  | release
  deriving DecidableEq, Repr

/-- One call on the strategy: the element observed (by a `poll()` that
returns one) and the new state. -/
def MonitorStrategySingle.step (compress : BitSet → Structure → BitSet)
    (s : MonitorStrategySingle) : MonitorCall → Option (Option MonitorElement × MonitorStrategySingle)
  | MonitorCall.update changed overrun => (s.response changed overrun).map (fun s1 => (none, s1))
  | MonitorCall.poll => some (s.poll compress)
  | MonitorCall.release => some (none, s.release)

/-- A sequence of calls: the elements observed at the `poll()` calls that
return one, in order, and the final state. -/
def MonitorStrategySingle.run (compress : BitSet → Structure → BitSet) :
    List MonitorCall → MonitorStrategySingle → Option (List MonitorElement × MonitorStrategySingle)
  | [], s => some ([], s)
  | c :: cs, s =>
    match s.step compress c with
    | none => none
    | some (o, s1) =>
      match MonitorStrategySingle.run compress cs s1 with
      | none => none
      | some (os, s2) => some (o.toList ++ os, s2)

/-- The changed sets of the updates of a call sequence, in order. -/
def inputChanged : List MonitorCall → List BitSet
  | [] => []
  | MonitorCall.update changed _ :: cs => changed :: inputChanged cs
  | _ :: cs => inputChanged cs

/-- The bitwise OR of a list of bit sets. -/
def orAll (l : List BitSet) : BitSet :=
  l.foldr (fun a b => a ||| b) 0

/-- The changed sets carried by a list of observed elements. -/
def observedChanged (l : List MonitorElement) : List BitSet :=
  l.filterMap (fun e => e.changed)

/-- Whether, at the end of a call sequence, an update has arrived after the
last `poll()`; `d` is the answer for the calls before the sequence. -/
def unpolledAtEnd (d : Bool) : List MonitorCall → Bool
  | [] => d
  | MonitorCall.update _ _ :: cs => unpolledAtEnd true cs
  | MonitorCall.poll :: cs => unpolledAtEnd false cs
  | MonitorCall.release :: cs => unpolledAtEnd d cs

/-- Whether every `release()` of a call sequence comes when no update has
arrived since the last `poll()`; `d` says whether an update is unpolled
before the sequence. -/
def releasesAfterPoll (d : Bool) : List MonitorCall → Bool
  | [] => true
  | MonitorCall.update _ _ :: cs => releasesAfterPoll true cs
  | MonitorCall.poll :: cs => releasesAfterPoll false cs
  | MonitorCall.release :: cs => !d && releasesAfterPoll d cs

/-- A started strategy: constructed, `init(structure)`, then `start()`. -/
def MonitorStrategySingle.started (st : Structure) : MonitorStrategySingle :=
  ((MonitorStrategySingle.create.init st).start).2

/-- The changed bits buffered and unclaimed in state `s`: the element's
changed set while `m_gotMonitor` holds, the empty set otherwise. -/
def MonitorStrategySingle.buffered (s : MonitorStrategySingle) : BitSet :=
  if s.m_gotMonitor then (s.slots.map (fun sl => sl.m_monitorElementChangeBitSet)).getD 0 else 0

/-! ## Response handler table -/

/-- The response handler objects that `ClientResponseHandler` creates, by
class (a `NoopResponse` with its description). -/
inductive ResponseHandler where
  | BeaconResponseHandler
  | ClientConnectionValidationHandler
  | NoopResponse (description : String)
  | SearchResponseHandler
  | DataResponseHandler
  | CreateChannelHandler
  | MessageHandler
  | BadResponse
  deriving DecidableEq, Repr

/-- From `#define HANDLER_COUNT 28`. -/
def HANDLER_COUNT : Nat := 28

/-- From the constructor `ClientResponseHandler(context)`: the entries
`m_handlerTable[0]` to `m_handlerTable[27]`. -/
def m_handlerTable : List ResponseHandler :=
  [ ResponseHandler.BeaconResponseHandler,             /-  0 -/
    ResponseHandler.ClientConnectionValidationHandler, /-  1 -/
    ResponseHandler.NoopResponse "Echo",               /-  2 -/
    ResponseHandler.NoopResponse "Search",             /-  3 -/
    ResponseHandler.SearchResponseHandler,             /-  4 -/
    ResponseHandler.NoopResponse "Introspection search", /-  5 -/
    ResponseHandler.DataResponseHandler,               /-  6 - introspection search -/
    ResponseHandler.CreateChannelHandler,              /-  7 -/
    ResponseHandler.NoopResponse "Destroy channel",    /-  8 -/
    ResponseHandler.BadResponse,                       /-  9 -/
    ResponseHandler.DataResponseHandler,               /- 10 - get response -/
    ResponseHandler.DataResponseHandler,               /- 11 - put response -/
    ResponseHandler.DataResponseHandler,               /- 12 - put-get response -/
    ResponseHandler.DataResponseHandler,               /- 13 - monitor response -/
    ResponseHandler.DataResponseHandler,               /- 14 - array response -/
    ResponseHandler.BadResponse,                       /- 15 - cancel request -/
    ResponseHandler.DataResponseHandler,               /- 16 - process response -/
    ResponseHandler.DataResponseHandler,               /- 17 - get field response -/
    ResponseHandler.MessageHandler,                    /- 18 - message to Requester -/
    ResponseHandler.BadResponse,                       /- 19 - grouped monitors -/
    ResponseHandler.DataResponseHandler,               /- 20 - RPC response -/
    ResponseHandler.BadResponse,                       /- 21 -/
    ResponseHandler.BadResponse,                       /- 22 -/
    ResponseHandler.BadResponse,                       /- 23 -/
    ResponseHandler.BadResponse,                       /- 24 -/
    ResponseHandler.BadResponse,                       /- 25 -/
    ResponseHandler.BadResponse,                       /- 26 -/
    ResponseHandler.BadResponse ]                      /- 27 -/

/-- From `ClientResponseHandler::handleResponse`, for the `int8` value
`command`: the handler whose `handleResponse` is called; `none` when the
method returns without indexing the table. -/
def ClientResponseHandler.handleResponse (command : Int) : Option ResponseHandler :=
  if command < 0 ∨ command ≥ (HANDLER_COUNT : Int) then
    none
  else
    -- delegate
    m_handlerTable.get? command.toNat

/-- The handler table as the spec's section 4.F and the claim give it: the
fixed assignments, and "Bad response" for all other commands. -/
def specHandlerTable (c : Nat) : ResponseHandler :=
  if c = 0 then ResponseHandler.BeaconResponseHandler
  else if c = 1 then ResponseHandler.ClientConnectionValidationHandler
  else if c = 2 then ResponseHandler.NoopResponse "Echo"
  else if c = 3 then ResponseHandler.NoopResponse "Search"
  else if c = 4 then ResponseHandler.SearchResponseHandler
  else if c = 7 then ResponseHandler.CreateChannelHandler
  else if c = 8 then ResponseHandler.NoopResponse "Destroy channel"
  else if c = 18 then ResponseHandler.MessageHandler
  else if c ∈ [6, 10, 11, 12, 13, 14, 16, 17, 20] then ResponseHandler.DataResponseHandler
  else ResponseHandler.BadResponse

/-- The table of the spec with one more fixed assignment: command 5 goes to
the no-op handler "Introspection search". -/
def amendedHandlerTable (c : Nat) : ResponseHandler :=
  if c = 5 then ResponseHandler.NoopResponse "Introspection search" else specHandlerTable c

/-! ## Search response handler -/

/-- The C `int16` denoted by a 16-bit pattern. -/
def toInt16 (n : Nat) : Int :=
  if n % 65536 < 32768 then (n % 65536 : Nat) else (n % 65536 : Nat) - 65536

/-- The C `int64` denoted by a 64-bit pattern. -/
def toInt64 (n : Nat) : Int :=
  if n % 18446744073709551616 < 9223372036854775808 then (n % 18446744073709551616 : Nat)
  else (n % 18446744073709551616 : Nat) - 18446744073709551616

/-- From `transport->ensureData(size)`: whether `size` more bytes of the
message can be made available; `buf` holds the unread bytes of the message. -/
def ensureData (size : Nat) (buf : List Nat) : Bool :=
  size ≤ buf.length

/-- Modelled from the spec: `ByteBuffer::getByte` of pvData (not among the
sources): the next byte as `int8`, and the unread rest. -/
def getByte : List Nat → Option (Int × List Nat)
  | b :: rest => some (toInt8 (b : Int), rest)
  | _ => none

/-- Modelled from the spec: `ByteBuffer::getShort` of pvData: two bytes,
big-endian ("Integers are big-endian by default"), as `int16`. -/
def getShort : List Nat → Option (Int × List Nat)
  | b0 :: b1 :: rest => some (toInt16 (b0 * 256 + b1), rest)
  | _ => none

/-- Modelled from the spec: `ByteBuffer::getInt` of pvData: four bytes,
big-endian, as `int32`. -/
def getInt : List Nat → Option (Int × List Nat)
  | b0 :: b1 :: b2 :: b3 :: rest =>
    some (toInt32 (b0 * 16777216 + b1 * 65536 + b2 * 256 + b3), rest)
  | _ => none

/-- Modelled from the spec: `ByteBuffer::getLong` of pvData: eight bytes,
big-endian, as `int64`. -/
def getLong : List Nat → Option (Int × List Nat)
  | b0 :: b1 :: b2 :: b3 :: b4 :: b5 :: b6 :: b7 :: rest =>
    some (toInt64 (b0 * 72057594037927936 + b1 * 281474976710656 + b2 * 1099511627776
            + b3 * 4294967296 + b4 * 16777216 + b5 * 65536 + b6 * 256 + b7), rest)
  | _ => none

/-- An `osiSockAddr` (IPv4): the address as a 32-bit number whose most
significant byte is the first byte on the wire, and the port likewise. -/
structure osiSockAddr where
  s_addr : Nat
  sin_port : Nat
  deriving DecidableEq, Repr

/-- A call `csm->searchResponse(cid, searchSequenceId, minorRevision, &serverAddress)`. -/
structure SearchResponseCall where
  cid : pvAccessID
  searchSequenceId : Int
  minorRevision : Int
  serverAddress : osiSockAddr
  deriving DecidableEq, Repr

/-- From the loop `for (int i = 0; i < count; i++)` of
`SearchResponseHandler::handleResponse`, with `n` iterations to go: the calls
made, and whether the loop ran to its end (`false`: an `ensureData` or a read
did not succeed). -/
def SearchResponseHandler.readCIDs (searchSequenceId minorRevision : Int)
    (serverAddress : osiSockAddr) : Nat → List Nat → List SearchResponseCall × Bool
  | 0, _ => ([], true)
  | n + 1, buf =>
    if !ensureData 4 buf then ([], false)
    else
      match getInt buf with
      | none => ([], false)
      | some (cid, buf1) =>
        let r := SearchResponseHandler.readCIDs searchSequenceId minorRevision serverAddress n buf1
        ({ cid := toU32 cid, searchSequenceId := searchSequenceId,
           minorRevision := minorRevision, serverAddress := serverAddress } :: r.1, r.2)

/-- From `SearchResponseHandler::handleResponse` (after the call of the base
class method): `payload` holds the bytes of the message body. The result is
the list of `searchResponse` calls made on the search manager, in order, and
whether the method returned (`false`: an `ensureData` or a read did not
succeed). -/
def SearchResponseHandler.handleResponse (responseFrom : osiSockAddr) (version : Int)
    (payload : List Nat) : List SearchResponseCall × Bool :=
  if !ensureData 5 payload then ([], false) else
  match getInt payload with
  | none => ([], false)
  | some (searchSequenceId, buf1) =>
  match getByte buf1 with
  | none => ([], false)
  | some (foundByte, buf2) =>
  let found : Bool := foundByte != 0
  if !found then ([], true) else
  if !ensureData ((128 + 2 * 16) / 8) buf2 then ([], false) else
  -- IPv4 compatible IPv6 address expected
  -- first 80-bit are 0
  match getLong buf2 with
  | none => ([], false)
  | some (l, buf3) =>
  if l ≠ 0 then ([], true) else
  match getShort buf3 with
  | none => ([], false)
  | some (s1, buf4) =>
  if s1 ≠ 0 then ([], true) else
  match getShort buf4 with
  | none => ([], false)
  | some (s2, buf5) =>
  if s2 ≠ toInt16 0xFFFF then ([], true) else
  -- accept given address if explicitly specified by sender
  match getInt buf5 with
  | none => ([], false)
  | some (a, buf6) =>
  let s_addr : Nat := if toU32 a = 0 then responseFrom.s_addr else toU32 a
  match getShort buf6 with
  | none => ([], false)
  | some (port, buf7) =>
  let serverAddress : osiSockAddr := { s_addr := s_addr, sin_port := (port % 65536).toNat }
  -- reads CIDs
  match getShort buf7 with
  | none => ([], false)
  | some (count, buf8) =>
  SearchResponseHandler.readCIDs searchSequenceId (and32 version 0x0F) serverAddress
    count.toNat buf8

/-- The number denoted by a list of bytes, most significant byte first. -/
def beValue (bytes : List Nat) : Nat :=
  bytes.foldl (fun acc b => acc * 256 + b) 0

/-! ## Client context: registries and id allocation -/

/-- A `std::map` from a `pvAccessID` to an object pointer
(`IOIDResponseRequestMap`, `CIDChannelMap`), as an association list with at
most one entry per key. An object is named by a natural number, 0 being the
null pointer. Entries are listed in the order of their insertion. -/
abbrev RefMap := List (pvAccessID × Nat)

/-- From `m.find(k)`: the mapped pointer, `none` for `m.end()`. -/
def RefMap.lookup : RefMap → pvAccessID → Option Nat
  | [], _ => none
  | (k', v) :: rest, k => if k' = k then some v else RefMap.lookup rest k

/-- From `m[k] = v`. -/
def RefMap.assign : RefMap → pvAccessID → Nat → RefMap
  | [], k, v => [(k, v)]
  | (k', v') :: rest, k, v =>
    if k' = k then (k, v) :: rest else (k', v') :: RefMap.assign rest k v

/-- From `m.erase(k)`. -/
def RefMap.remove (m : RefMap) (k : pvAccessID) : RefMap :=
  m.filter (fun e => e.1 != k)

/-- The keys of a map. -/
def RefMap.keyList (m : RefMap) : List pvAccessID :=
  m.map (fun e => e.1)

/-- The mapped pointers of a map, in the order of iteration. -/
def RefMap.valueList (m : RefMap) : List Nat :=
  m.map (fun e => e.2)

/-- The id maps and id counters of `InternalClientContextImpl`. -/
structure InternalClientContextImpl where
  m_channelsByCID : RefMap
  m_lastCID : pvAccessID
  m_pendingResponseRequests : RefMap
  m_lastIOID : pvAccessID
  deriving DecidableEq, Repr

/-- The loop of `generateCID`:
`while (m_channelsByCID.find(++m_lastCID) != m_channelsByCID.end());`
run for at most `fuel` increments; the result is the final `m_lastCID`. -/
def generateCIDLoop (keys : List pvAccessID) : Nat → pvAccessID → Option pvAccessID
  | 0, _ => none
  | fuel + 1, last =>
    if (last + 1) % 4294967296 ∈ keys then
      generateCIDLoop keys fuel ((last + 1) % 4294967296)
    else
      some ((last + 1) % 4294967296)

/-- From `InternalClientContextImpl::generateCID()`: the id and the new state. -/
def InternalClientContextImpl.generateCID (fuel : Nat) (c : InternalClientContextImpl) :
    Option (pvAccessID × InternalClientContextImpl) :=
  match generateCIDLoop (RefMap.keyList c.m_channelsByCID) fuel c.m_lastCID with
  | none => none
  | some cid =>
    -- reserve CID
    some (cid, { c with m_lastCID := cid,
                        m_channelsByCID := RefMap.assign c.m_channelsByCID cid 0 })

/-- From `InternalClientContextImpl::generateIOID()`: the id and the new state. -/
def InternalClientContextImpl.generateIOID (fuel : Nat) (c : InternalClientContextImpl) :
    Option (pvAccessID × InternalClientContextImpl) :=
  match generateIOIDLoop (RefMap.keyList c.m_pendingResponseRequests) fuel c.m_lastIOID with
  | none => none
  | some ioid =>
    -- reserve IOID
    some (ioid, { c with m_lastIOID := ioid,
                         m_pendingResponseRequests :=
                           RefMap.assign c.m_pendingResponseRequests ioid 0 })

/-- From `InternalClientContextImpl::registerResponseRequest(request)`. -/
def InternalClientContextImpl.registerResponseRequest (fuel : Nat)
    (c : InternalClientContextImpl) (request : Nat) :
    Option (pvAccessID × InternalClientContextImpl) :=
  match c.generateIOID fuel with
  | none => none
  | some (ioid, c1) =>
    some (ioid, { c1 with m_pendingResponseRequests :=
                            RefMap.assign c1.m_pendingResponseRequests ioid request })

/-- From `InternalClientContextImpl::unregisterResponseRequest(request)`, for a
request with IOID `ioid`: the removed pointer (null: 0) and the new state. -/
def InternalClientContextImpl.unregisterResponseRequest (c : InternalClientContextImpl)
    (ioid : pvAccessID) : Nat × InternalClientContextImpl :=
  match RefMap.lookup c.m_pendingResponseRequests ioid with
  | none => (0, c)
  | some retVal =>
    (retVal, { c with m_pendingResponseRequests := RefMap.remove c.m_pendingResponseRequests ioid })

/-- From `InternalClientContextImpl::registerChannel(channel)`. -/
def InternalClientContextImpl.registerChannel (c : InternalClientContextImpl)
    (cid : pvAccessID) (channel : Nat) : InternalClientContextImpl :=
  { c with m_channelsByCID := RefMap.assign c.m_channelsByCID cid channel }

/-- From `InternalClientContextImpl::unregisterChannel(channel)`. -/
def InternalClientContextImpl.unregisterChannel (c : InternalClientContextImpl)
    (cid : pvAccessID) : InternalClientContextImpl :=
  { c with m_channelsByCID := RefMap.remove c.m_channelsByCID cid }

/-- The first free id after `last`: `k` steps on, in cyclically increasing
order modulo 2^32, every id before it being taken. -/
def FirstFreeAfter (free : Nat → Prop) (last k : Nat) : Prop :=
  1 ≤ k ∧ k ≤ 4294967296 ∧
  (∀ j, 1 ≤ j → j < k → ¬ free ((last + j) % 4294967296)) ∧
  free ((last + k) % 4294967296)

/-! ## ChannelMonitorImpl -/

/-- The fields of `MonitorStrategyNotify`. -/
structure MonitorStrategyNotify where
  m_gotMonitor : Bool
  deriving DecidableEq, Repr

/-- The fields of `MonitorStrategyEntire`; the three pointers are null
(`none`) until `init`. -/
structure MonitorStrategyEntire where
  m_gotMonitor : Bool
  m_monitorElementStructure : Option Structure
  m_monitorElementChangeBitSet : Option BitSet
  m_monitorElementOverrunBitSet : Option BitSet
  deriving DecidableEq, Repr

/-- A `MonitorStrategy` object, by class. -/
inductive MonitorStrategy where
  | notify (s : MonitorStrategyNotify)
  | entire (s : MonitorStrategyEntire)
  | single (s : MonitorStrategySingle)
  deriving DecidableEq, Repr

/-- The constructor `MonitorStrategyNotify(callback)`. -/
def MonitorStrategyNotify.create : MonitorStrategyNotify :=
  { m_gotMonitor := false }

/-- The constructor `MonitorStrategyEntire(callback)`. -/
def MonitorStrategyEntire.create : MonitorStrategyEntire :=
  { m_gotMonitor := false, m_monitorElementStructure := none,
    m_monitorElementChangeBitSet := none, m_monitorElementOverrunBitSet := none }

/-- From `MonitorStrategyNotify::start()`. -/
def MonitorStrategyNotify.start (s : MonitorStrategyNotify) : Status × MonitorStrategyNotify :=
  (Status.OK, s)

/-- From `MonitorStrategyEntire::start()`. -/
def MonitorStrategyEntire.start (s : MonitorStrategyEntire) : Status × MonitorStrategyEntire :=
  (Status.OK, { s with m_gotMonitor := false })

/-- The virtual call `start()` on a strategy. -/
def MonitorStrategy.start : MonitorStrategy → Status × MonitorStrategy
  | MonitorStrategy.notify s => (s.start.1, MonitorStrategy.notify s.start.2)
  | MonitorStrategy.entire s => (s.start.1, MonitorStrategy.entire s.start.2)
  | MonitorStrategy.single s => (s.start.1, MonitorStrategy.single s.start.2)

/-- The virtual call `stop()` on a strategy: each class returns `Status::OK`
and changes nothing. -/
def MonitorStrategy.stop (s : MonitorStrategy) : Status × MonitorStrategy :=
  (Status.OK, s)

/-- The fields of `ChannelMonitorImpl`: those of `BaseRequestImpl` with its
surroundings, `m_started`, and `m_monitorStrategy` (null pointer: `none`). -/
structure ChannelMonitorImpl where
  world : World
  m_started : Bool
  m_monitorStrategy : Option MonitorStrategy
  deriving DecidableEq, Repr

/-- What `pvRequest->getSubField("record.queueSize")` and the dynamic cast to
`PVString` find. -/
inductive QueueSizeField where
  /-- `getSubField` returns null -/
  | absent
  /-- the field exists but is no `PVString` -/
  | notString
  /-- the field is a `PVString` with this value -/
  | string (value : String)
  deriving DecidableEq, Repr

/-- The status `failedToConvert` of the `ChannelMonitorImpl` constructor. -/
def failedToConvert : Status :=
  ⟨StatusType.ERROR, "queueSize type is not a valid integer"⟩

/-- The constructor `ChannelMonitorImpl(channel, monitorRequester, pvRequest)`.
`getSubField` stands for the lookup of `record.queueSize` in the pvRequest
(pvData), `extract` for `buffer >> queueSize` on a `std::istringstream`
(`none`: the extraction fails). The null check of `pvRequest` is commented
out in the source, so a null `pvRequest` is dereferenced: no result. -/
def ChannelMonitorImpl.create (getSubField : PVStructure → QueueSizeField)
    (extract : String → Option Int) (fuel : Nat) (e : Env) (pvRequest : Option PVStructure) :
    Option ChannelMonitorImpl :=
  match BaseRequestImpl.create fuel e pvRequest with
  | none => none
  | some w =>
    match pvRequest with
    | none => none
    | some pv =>
      let parsed : Option Int :=
        match getSubField pv with
        | QueueSizeField.absent => some 2
        | QueueSizeField.notString => some 2
        | QueueSizeField.string value => extract value
      match parsed with
      | none =>
        some { world := w.callback (Callback.monitorConnect failedToConvert),
               m_started := false, m_monitorStrategy := none }
      | some queueSize =>
        let strategy : MonitorStrategy :=
          if queueSize = -1 then MonitorStrategy.notify MonitorStrategyNotify.create
          else if queueSize = 0 then MonitorStrategy.entire MonitorStrategyEntire.create
          else MonitorStrategy.single MonitorStrategySingle.create
        -- subscribe
        match w.env.checkAndGetTransport with
        | Except.ok _ =>
          some { world := w.resubscribeSubscription, m_started := false,
                 m_monitorStrategy := some strategy }
        | Except.error _ =>
          some { world := w.callback (Callback.monitorConnect channelNotConnected),
                 m_started := false, m_monitorStrategy := some strategy }

/-- From `ChannelMonitorImpl::start()`: the status returned and the new state;
a call through a null `m_monitorStrategy` has no result. -/
def ChannelMonitorImpl.start (m : ChannelMonitorImpl) : Option (Status × ChannelMonitorImpl) :=
  if m.world.op.m_destroyed then
    some (destroyedStatus, m)
  else if !m.world.op.m_initialized then
    some (notInitializedStatus, m)
  else
    match m.m_monitorStrategy with
    | none => none
    | some strategy =>
      let m1 : ChannelMonitorImpl := { m with m_monitorStrategy := some strategy.start.2 }
      -- start == process + get
      if !(m1.world.startRequest (or32 QOS_PROCESS QOS_GET)).1 then
        some (otherRequestPendingStatus, m1)
      else
        let w1 : World := (m1.world.startRequest (or32 QOS_PROCESS QOS_GET)).2
        match w1.env.checkAndGetTransport with
        | Except.ok _ =>
          some (Status.OK, { m1 with world := w1.enqueueSendRequest, m_started := true })
        | Except.error _ =>
          some (channelNotConnected, { m1 with world := w1.stopRequest })

/-- From `ChannelMonitorImpl::stop()`: the status returned and the new state;
a call through a null `m_monitorStrategy` has no result. -/
def ChannelMonitorImpl.stop (m : ChannelMonitorImpl) : Option (Status × ChannelMonitorImpl) :=
  if m.world.op.m_destroyed then
    some (destroyedStatus, m)
  else if !m.world.op.m_initialized then
    some (notInitializedStatus, m)
  else
    match m.m_monitorStrategy with
    | none => none
    | some strategy =>
      let m1 : ChannelMonitorImpl := { m with m_monitorStrategy := some strategy.stop.2 }
      -- stop == process + no get
      if !(m1.world.startRequest QOS_PROCESS).1 then
        some (otherRequestPendingStatus, m1)
      else
        let w1 : World := (m1.world.startRequest QOS_PROCESS).2
        match w1.env.checkAndGetTransport with
        | Except.ok _ =>
          some (Status.OK, { m1 with world := w1.enqueueSendRequest, m_started := false })
        | Except.error _ =>
          some (channelNotConnected, { m1 with world := w1.stopRequest })

/-! ## Channels, response requests and the context together -/

/-- A `Transport` (virtual circuit), named by an identity, with its remote
address. -/
structure Transport where
  id : Nat
  remoteAddress : osiSockAddr
  deriving DecidableEq, Repr

/-- The fields of `InternalChannelImpl` (pointers to other objects: `none`
is the null pointer). -/
structure InternalChannelImpl where
  m_channelID : pvAccessID
  m_name : String
  m_addresses : Option (List osiSockAddr)
  m_connectionState : ConnectionState
  m_responseRequests : RefMap
  m_needSubscriptionUpdate : Bool
  m_allowCreation : Bool
  m_references : Int
  m_transport : Option Transport
  m_serverChannelID : pvAccessID
  m_issueCreateMessage : Bool
  deriving DecidableEq, Repr

/-- A `ResponseRequest` object: an operation derived from `BaseRequestImpl`
(which is a `SubscriptionRequest`), or a `ChannelGetFieldRequestImpl` (which
is not and uses only `m_ioid`, `m_destroyed` and `m_refCount`). -/
structure ResponseRequest where
  isSubscriptionRequest : Bool
  /-- the channel object that `m_channel` points to -/
  m_channel : Nat
  base : BaseRequestImpl
  deriving DecidableEq, Repr

/-- The object behind a `TransportSender*` in a send queue. -/
inductive Sender where
  | request (object : Nat)
  | channel (channel : Nat)
  deriving DecidableEq, Repr

/-- From `ChannelImpl::channelDestroyed`. -/
def channelDestroyed : Status := ⟨StatusType.WARNING, "channel destroyed"⟩

/-- From `ChannelImpl::channelDisconnected`. -/
def channelDisconnected : Status := ⟨StatusType.WARNING, "channel disconnected"⟩

/-- A call that leaves the channel and request objects: on a requester, on
the channel search manager, on a transport; and the calls of the virtual
methods of a response request, in the order in which they are made. A call
of `enqueueSendRequest` through a null transport pointer is recorded with
transport `none`. -/
inductive Event where
  | channelStateChange (channel : Nat) (state : ConnectionState)
  | message (channel : Nat)
  | searchRegisterChannel (channel : Nat)
  | searchUnregisterChannel (channel : Nat)
  | enqueueSendRequest (transport : Option Nat) (sender : Sender)
  | transportRelease (transport : Nat) (channel : Nat)
  | reportStatus (object : Nat) (status : Status)
  | resubscribeSubscription (object : Nat) (transport : Option Nat)
  | updateSubscription (object : Nat)
  | requesterCallback (object : Nat) (status : Status)
  deriving DecidableEq, Repr

/-- The context, its channel objects and its response request objects.
Objects are named by natural numbers (0: the null pointer); `nextObject` is
the name that the next `new` gives out. -/
structure Sys where
  context : InternalClientContextImpl
  channels : Nat → InternalChannelImpl
  objects : Nat → Option ResponseRequest
  nextObject : Nat
  log : List Event

/-- The state of a channel object that no constructor has run on. -/
def InternalChannelImpl.blank : InternalChannelImpl :=
  { m_channelID := 0, m_name := "", m_addresses := none,
    m_connectionState := ConnectionState.NEVER_CONNECTED, m_responseRequests := [],
    m_needSubscriptionUpdate := false, m_allowCreation := true, m_references := 1,
    m_transport := none, m_serverChannelID := 0xFFFFFFFF, m_issueCreateMessage := true }

/-- The context right after `InternalClientContextImpl()`: empty maps,
`m_lastCID = 0`, `m_lastIOID = 0`. -/
def Sys.initial : Sys :=
  { context := { m_channelsByCID := [], m_lastCID := 0, m_pendingResponseRequests := [],
                 m_lastIOID := 0 },
    channels := fun _ => InternalChannelImpl.blank,
    objects := fun _ => none,
    nextObject := 1,
    log := [] }

/-- A call is recorded. -/
def Sys.emit (s : Sys) (e : Event) : Sys :=
  { s with log := s.log ++ [e] }

/-- The fields of channel `c` are changed. -/
def Sys.setChannel (s : Sys) (c : Nat) (f : InternalChannelImpl → InternalChannelImpl) : Sys :=
  { s with channels := Function.update s.channels c (f (s.channels c)) }

/-- The `BaseRequestImpl` fields of object `o` are changed. -/
def Sys.updateBase (s : Sys) (o : Nat) (f : BaseRequestImpl → BaseRequestImpl) : Sys :=
  match s.objects o with
  | none => s
  | some r => { s with objects := Function.update s.objects o (some { r with base := f r.base }) }

/-- From `InternalChannelImpl::checkAndGetTransport()` on channel `c`. -/
def Sys.checkAndGetTransport (s : Sys) (c : Nat) : Except String (Option Transport) :=
  if (s.channels c).m_connectionState = ConnectionState.DESTROYED then
    Except.error "Channel destroyed."
  else if (s.channels c).m_connectionState ≠ ConnectionState.CONNECTED then
    Except.error "Channel not connected."
  else
    Except.ok (s.channels c).m_transport

/-! ### Response requests -/

/-- From `BaseRequestImpl::destroy()` and `ChannelGetFieldRequestImpl::destroy()`
on object `o`. -/
def Sys.requestDestroy (s : Sys) (o : Nat) : Sys :=
  match s.objects o with
  | none => s
  | some r =>
    if r.base.m_destroyed then s
    else
      let s1 : Sys := s.updateBase o (fun b => { b with m_destroyed := true })
      -- unregister response request
      let s2 : Sys :=
        { s1 with context := (s1.context.unregisterResponseRequest r.base.m_ioid).2 }
      let s3 : Sys :=
        s2.setChannel r.m_channel (fun ch =>
          { ch with m_responseRequests := RefMap.remove ch.m_responseRequests r.base.m_ioid })
      -- destroy remote instance
      let s4 : Sys :=
        if r.isSubscriptionRequest && r.base.m_initialized then
          let s5 : Sys := s3.updateBase o (fun b => (b.startRequest PURE_DESTROY_REQUEST).2)
          match s5.checkAndGetTransport r.m_channel with
          | Except.ok t =>
            s5.emit (Event.enqueueSendRequest (t.map (fun x => x.id)) (Sender.request o))
          | Except.error _ => s5 -- noop (do not complain if fails)
        else s3
      s4.updateBase o (fun b => b.release)

/-- From `BaseRequestImpl::reportStatus(status)` and
`ChannelGetFieldRequestImpl::reportStatus(status)` on object `o`. -/
def Sys.reportStatus (s : Sys) (o : Nat) (status : Status) : Sys :=
  let s0 : Sys := s.emit (Event.reportStatus o status)
  match s0.objects o with
  | none => s0
  | some r =>
    -- destroy, since channel (parent) was destroyed
    if status = channelDestroyed then s0.requestDestroy o
    else if r.isSubscriptionRequest && status = channelDisconnected then
      s0.updateBase o (fun b => b.stopRequest)
    else s0

/-- From `resubscribeSubscription(transport)` of the operation classes, on
object `o`. -/
def Sys.resubscribeSubscription (s : Sys) (o : Nat) (transport : Option Transport) : Sys :=
  ((s.emit (Event.resubscribeSubscription o (transport.map (fun x => x.id)))).updateBase o
      (fun b => (b.startRequest QOS_INIT).2)).emit
    (Event.enqueueSendRequest (transport.map (fun x => x.id)) (Sender.request o))

/-- From `BaseRequestImpl::updateSubscription()` on object `o`: default is noop. -/
def Sys.updateSubscription (s : Sys) (o : Nat) : Sys :=
  s.emit (Event.updateSubscription o)

/-- Whether object `o` can be cast to `SubscriptionRequest*`. -/
def Sys.isSubscriptionRequest (s : Sys) (o : Nat) : Bool :=
  match s.objects o with
  | none => false
  | some r => r.isSubscriptionRequest

/-- The constructors of the response request classes on channel `c`: the
registration of `BaseRequestImpl(channel, requester)` (the same in
`ChannelGetFieldRequestImpl`), then the rest of the constructor. With `early`
a status the constructor reports it to the requester and returns (the
`pvRequestNull` of a null `pvRequest`, the `failedToConvert` of a monitor);
otherwise it tries to subscribe (an operation) or to enqueue itself (a get
field request). -/
def Sys.newRequest (fuel : Nat) (s : Sys) (c : Nat) (isSubscriptionRequest : Bool)
    (early : Option Status) : Option Sys :=
  match s.context.registerResponseRequest fuel s.nextObject with
  | none => none
  | some (ioid, context1) =>
    let o : Nat := s.nextObject
    let r : ResponseRequest :=
      { isSubscriptionRequest := isSubscriptionRequest, m_channel := c,
        base := { m_ioid := ioid, m_destroyed := false, m_initialized := false,
                  m_pendingRequest := NULL_REQUEST, m_refCount := 1, m_status := Status.OK } }
    let s1 : Sys :=
      { s with context := context1, nextObject := s.nextObject + 1,
               objects := Function.update s.objects o (some r) }
    let s2 : Sys :=
      s1.setChannel c (fun ch =>
        { ch with m_responseRequests := RefMap.assign ch.m_responseRequests ioid o })
    match early with
    | some status => some (s2.emit (Event.requesterCallback o status))
    | none =>
      match s2.checkAndGetTransport c with
      | Except.ok t =>
        if isSubscriptionRequest then some (s2.resubscribeSubscription o t)
        else some (s2.emit (Event.enqueueSendRequest (t.map (fun x => x.id)) (Sender.request o)))
      | Except.error _ => some (s2.emit (Event.requesterCallback o channelNotConnected))

/-! ### Channel -/

/-- From `InternalChannelImpl::setConnectionState(connectionState)`. -/
def Sys.setConnectionState (s : Sys) (c : Nat) (connectionState : ConnectionState) : Sys :=
  if (s.channels c).m_connectionState ≠ connectionState then
    (s.setChannel c (fun ch => { ch with m_connectionState := connectionState })).emit
      (Event.channelStateChange c connectionState)
  else s

/-- From `InternalChannelImpl::initiateSearch()`. -/
def Sys.initiateSearch (s : Sys) (c : Nat) : Sys :=
  let s1 : Sys := s.setChannel c (fun ch => { ch with m_allowCreation := true })
  if (s1.channels c).m_addresses = none then s1.emit (Event.searchRegisterChannel c) else s1

/-- From `InternalChannelImpl::cancel()`: noop. -/
def Sys.channelCancel (s : Sys) (_c : Nat) : Sys := s

/-- From `InternalChannelImpl::createChannelFailed()`. -/
def Sys.createChannelFailed (s : Sys) (c : Nat) : Sys :=
  -- ... and search again
  (s.channelCancel c).initiateSearch c

/-- From `InternalChannelImpl::timeout()`. -/
def Sys.channelTimeout (s : Sys) (c : Nat) : Sys :=
  s.createChannelFailed c

/-- From `InternalChannelImpl::disconnectPendingIO(destroy)`. -/
def Sys.disconnectPendingIO (s : Sys) (c : Nat) (destroy : Bool) : Sys :=
  let status : Status := if destroy then channelDestroyed else channelDisconnected
  let s1 : Sys := s.setChannel c (fun ch => { ch with m_needSubscriptionUpdate := true })
  let rrs : List Nat := RefMap.valueList (s1.channels c).m_responseRequests
  rrs.foldl (fun acc o => acc.reportStatus o status) s1

/-- From `InternalChannelImpl::resubscribeSubscriptions()`. -/
def Sys.resubscribeSubscriptions (s : Sys) (c : Nat) : Sys :=
  let transport : Option Transport := (s.channels c).m_transport
  (RefMap.valueList (s.channels c).m_responseRequests).foldl
    (fun acc o => if acc.isSubscriptionRequest o then acc.resubscribeSubscription o transport
                  else acc) s

/-- From `InternalChannelImpl::updateSubscriptions()`. -/
def Sys.updateSubscriptions (s : Sys) (c : Nat) : Sys :=
  if (s.channels c).m_needSubscriptionUpdate then
    let s1 : Sys := s.setChannel c (fun ch => { ch with m_needSubscriptionUpdate := false })
    (RefMap.valueList (s1.channels c).m_responseRequests).foldl
      (fun acc o => if acc.isSubscriptionRequest o then acc.updateSubscription o else acc) s1
  else s -- noop

/-- From `InternalChannelImpl::disconnect(initiateSearch, remoteDestroy)`. -/
def Sys.disconnectWith (s : Sys) (c : Nat) (initiateSearch remoteDestroy : Bool) : Sys :=
  if (s.channels c).m_connectionState ≠ ConnectionState.CONNECTED ∧
      (s.channels c).m_transport = none then s
  else
    let s1 : Sys :=
      if !initiateSearch then
        -- stop searching...
        (s.emit (Event.searchUnregisterChannel c)).channelCancel c
      else s
    let s2 : Sys := s1.setConnectionState c ConnectionState.DISCONNECTED
    let s3 : Sys := s2.disconnectPendingIO c false
    -- release transport
    let s4 : Sys :=
      match (s3.channels c).m_transport with
      | some t =>
        if remoteDestroy then
          (s3.setChannel c (fun ch => { ch with m_issueCreateMessage := false })).emit
            (Event.enqueueSendRequest (some t.id) (Sender.channel c))
        else s3
      | none => s3
    if initiateSearch then s4.initiateSearch c else s4

/-- From `InternalChannelImpl::connect()`. -/
def Sys.connect (s : Sys) (c : Nat) : Except String Sys :=
  -- if not destroyed...
  if (s.channels c).m_connectionState = ConnectionState.DESTROYED then
    Except.error "Channel destroyed."
  else if (s.channels c).m_connectionState ≠ ConnectionState.CONNECTED then
    Except.ok (s.initiateSearch c)
  else Except.ok s

/-- From `InternalChannelImpl::disconnect()`. -/
def Sys.disconnect (s : Sys) (c : Nat) : Except String Sys :=
  -- if not destroyed...
  if (s.channels c).m_connectionState = ConnectionState.DESTROYED then
    Except.error "Channel destroyed."
  else if (s.channels c).m_connectionState = ConnectionState.CONNECTED then
    Except.ok (s.disconnectWith c false true)
  else Except.ok s

/-- From `InternalChannelImpl::createChannel(transport)`. -/
def Sys.createChannel (s : Sys) (c : Nat) (transport : Transport) : Sys :=
  -- do not allow duplicate creation to the same transport
  if !(s.channels c).m_allowCreation then s
  else
    let s1 : Sys := s.setChannel c (fun ch => { ch with m_allowCreation := false })
    -- check existing transport
    match (s1.channels c).m_transport with
    | some old =>
      if old ≠ transport then
        let s2 : Sys := ( s1.disconnectPendingIO c false).emit (Event.transportRelease old.id c)
        (s2.setChannel c (fun ch => { ch with m_transport := some transport })).emit
          (Event.enqueueSendRequest (some transport.id) (Sender.channel c))
      else
        -- request to sent create request to same transport, ignore
        s1
    | none =>
      (s1.setChannel c (fun ch => { ch with m_transport := some transport })).emit
        (Event.enqueueSendRequest (some transport.id) (Sender.channel c))

/-- From `InternalChannelImpl::connectionCompleted(sid)`. -/
def Sys.connectionCompleted (s : Sys) (c : Nat) (sid : pvAccessID) : Sys :=
  -- do this silently
  if (s.channels c).m_connectionState = ConnectionState.DESTROYED then s
  else
    -- store data
    let s1 : Sys := s.setChannel c (fun ch => { ch with m_serverChannelID := sid })
    let s2 : Sys := s1.resubscribeSubscriptions c
    s2.setConnectionState c ConnectionState.CONNECTED

/-- From `InternalChannelImpl::acquire()`. -/
def Sys.channelAcquire (s : Sys) (c : Nat) : Sys :=
  s.setChannel c (fun ch => { ch with m_references := ch.m_references + 1 })

/-- From `InternalChannelImpl::release()`. -/
def Sys.channelRelease (s : Sys) (c : Nat) : Sys :=
  let s1 : Sys := s.setChannel c (fun ch => { ch with m_references := ch.m_references - 1 })
  if (s1.channels c).m_references = 0 then
    match (s1.channels c).m_transport with
    | some t =>
      -- unresponsive state, do not forget to release transport
      (s1.emit (Event.transportRelease t.id c)).setChannel c
        (fun ch => { ch with m_transport := none })
    | none => s1
  else s1

/-- From `InternalChannelImpl::destroyChannel(force)`. -/
def Sys.destroyChannel (s : Sys) (c : Nat) (_force : Bool) : Except String Sys :=
  if (s.channels c).m_connectionState = ConnectionState.DESTROYED then
    Except.error "Channel already destroyed."
  else
    -- stop searching...
    let s1 : Sys := (s.emit (Event.searchUnregisterChannel c)).channelCancel c
    let s2 : Sys := s1.disconnectPendingIO c true
    let s3 : Sys :=
      if (s2.channels c).m_connectionState = ConnectionState.CONNECTED then
        s2.disconnectWith c false true
      else s2
    let s4 : Sys := s3.setConnectionState c ConnectionState.DESTROYED
    -- unregister
    let s5 : Sys :=
      { s4 with context := s4.context.unregisterChannel (s4.channels c).m_channelID }
    -- can be delete this
    Except.ok (s5.channelRelease c)

/-- From `InternalClientContextImpl::destroyChannel(channel, force)`: an
exception of the channel's `destroyChannel` is swallowed. -/
def Sys.contextDestroyChannel (s : Sys) (c : Nat) (force : Bool) : Sys :=
  match s.destroyChannel c force with
  | Except.ok s1 => s1
  | Except.error _ => s

/-- From `InternalChannelImpl::destroy(force)` and `destroy()`. -/
def Sys.channelDestroy (s : Sys) (c : Nat) (force : Bool) : Sys :=
  if (s.channels c).m_connectionState = ConnectionState.DESTROYED then s
  else
    -- do destruction via context
    s.contextDestroyChannel c force

/-- From `InternalChannelImpl::searchResponse(minorRevision, serverAddress)`;
`connected` is what `m_context->getTransport(this, serverAddress, ...)`
returns (null: `none`). -/
def Sys.searchResponse (s : Sys) (c : Nat) (serverAddress : osiSockAddr)
    (connected : Option Transport) : Sys :=
  let proceed (s0 : Sys) : Sys :=
    match connected with
    | none => s0.createChannelFailed c
    | some transport =>
      -- create channel
      s0.createChannel c transport
  match (s.channels c).m_transport with
  | some transport =>
    -- multiple defined PV or reconnect request (same server address)
    if transport.remoteAddress ≠ serverAddress then s.emit (Event.message c)
    else proceed s
  | none => proceed s

/-- From `InternalChannelImpl::transportClosed()`. -/
def Sys.transportClosed (s : Sys) (c : Nat) : Sys :=
  s.disconnectWith c true false

/-- From `InternalChannelImpl::transportChanged()`. -/
def Sys.transportChanged (s : Sys) (c : Nat) : Sys :=
  s.initiateSearch c

/-- From `InternalChannelImpl::transportResponsive(transport)`. -/
def Sys.transportResponsive (s : Sys) (c : Nat) : Sys :=
  if (s.channels c).m_connectionState = ConnectionState.DISCONNECTED then
    let s1 : Sys := s.updateSubscriptions c
    -- reconnect using existing IDs, data
    s1.connectionCompleted c (s1.channels c).m_serverChannelID
  else s

/-- From `InternalChannelImpl::transportUnresponsive()`. -/
def Sys.transportUnresponsive (s : Sys) (c : Nat) : Sys :=
  if (s.channels c).m_connectionState = ConnectionState.CONNECTED then
    -- NOTE: 2 types of disconnected state - distinguish them
    s.setConnectionState c ConnectionState.DISCONNECTED
  else s

/-- The constructor `InternalChannelImpl(context, channelID, name, requester,
priority, addresses)`, for a new channel object: the fields are set, the
channel is registered with the context, then `connect()` is called. -/
def Sys.newChannel (s : Sys) (channelID : pvAccessID) (name : String)
    (addresses : Option (List osiSockAddr)) : Nat × Sys :=
  let c : Nat := s.nextObject
  let s1 : Sys :=
    { s with nextObject := s.nextObject + 1,
             channels := Function.update s.channels c
               { InternalChannelImpl.blank with
                 m_channelID := channelID, m_name := name, m_addresses := addresses },
             -- register before issuing search request
             context := s.context.registerChannel channelID c }
  -- connect
  match s1.connect c with
  | Except.ok s2 => (c, s2)
  | Except.error _ => (c, s1)

/-- Modelled from the spec: `ByteBuffer::putShort` of pvData: the two bytes of
a 16-bit value, big-endian. -/
def putShort (x : Nat) : List Nat :=
  [x / 256 % 256, x % 256]

/-- From `InternalChannelImpl::send(buffer, control)`; `serializeString` stands
for `SerializeHelper::serializeString` (a length-prefixed string). -/
def Sys.channelSend (serializeString : String → List Nat) (s : Sys) (c : Nat) : List Message :=
  if (s.channels c).m_issueCreateMessage then
    [{ command := 7,
       -- count, then array of CIDs and names
       body := putShort 1 ++ putInt (s.channels c).m_channelID
                 ++ serializeString (s.channels c).m_name }]
  else
    [{ command := 8,
       -- SID, then CID
       body := putInt (s.channels c).m_serverChannelID ++ putInt (s.channels c).m_channelID }]

/-- The `reportStatus` calls of a log, in order. -/
def reportsOf (log : List Event) : List (Nat × Status) :=
  log.filterMap (fun e =>
    match e with
    | Event.reportStatus o status => some (o, status)
    | _ => none)

/-- The `resubscribeSubscription` calls of a log, in order. -/
def resubscribesOf (log : List Event) : List Nat :=
  log.filterMap (fun e =>
    match e with
    | Event.resubscribeSubscription o _ => some o
    | _ => none)

/-- The `channelStateChange` callbacks of a log, in order. -/
def stateChangesOf (log : List Event) : List (Nat × ConnectionState) :=
  log.filterMap (fun e =>
    match e with
    | Event.channelStateChange c state => some (c, state)
    | _ => none)

/-- The channels registered with the search manager by a log, in order. -/
def searchRegistrationsOf (log : List Event) : List Nat :=
  log.filterMap (fun e =>
    match e with
    | Event.searchRegisterChannel c => some c
    | _ => none)

/-! ## Runs of operation constructions and destroys -/

/-- A construction of a response request on a channel, or `destroy()` of a
response request object. -/
inductive RequestStep where
  | construct (channel : Nat) (isSubscriptionRequest : Bool) (early : Option Status)
  | destroy (object : Nat)
  deriving DecidableEq, Repr

/-- One step; `none` when the loop of `generateIOID` runs out of fuel. -/
def Sys.requestStep (fuel : Nat) (s : Sys) : RequestStep → Option Sys
  | RequestStep.construct c isSubscriptionRequest early =>
    s.newRequest fuel c isSubscriptionRequest early
  | RequestStep.destroy o => some (s.requestDestroy o)

/-- The steps of a list, one after the other. -/
def Sys.requestRun (fuel : Nat) : Sys → List RequestStep → Option Sys
  | s, [] => some s
  | s, step :: rest =>
    match s.requestStep fuel step with
    | none => none
    | some s1 => Sys.requestRun fuel s1 rest

/-! ## Sequences of responses -/

/-- The virtual call `response(transport, version, payloadBuffer)` on an
operation of class `k`: `ChannelMonitorImpl` overrides the method of
`BaseRequestImpl`. -/
def OpKind.response (k : OpKind) (h : ResponseMethods) (qosByte : Nat) (status : Status)
    (w : World) : List ResponseCall × World :=
  match k with
  | OpKind.Monitor => ChannelMonitorImpl.response h qosByte status w
  | _ => BaseRequestImpl.response h qosByte status w

/-- The responses of a list (each a QoS byte and a status), delivered one
after the other. -/
def OpKind.responses (k : OpKind) (h : ResponseMethods) : List (Nat × Status) → World → World
  | [], w => w
  | r :: rs, w => OpKind.responses k h rs (k.response h r.1 r.2 w).2

/-! ## Response methods of ChannelArrayImpl -/

/-- From `ChannelArrayImpl::initResponse`: the requester is told the status
in either branch (the data container created on success is not tracked). -/
def ChannelArrayImpl.initResponse (_qos : Int) (status : Status) (w : World) : Bool × World :=
  if !status.isSuccess then
    (true, w.callback (Callback.channelArrayConnect status))
  else
    -- create data and its bitSet, then notify
    (true, w.callback (Callback.channelArrayConnect status))

/-- From `ChannelArrayImpl::normalResponse`. -/
def ChannelArrayImpl.normalResponse (qos : Int) (status : Status) (w : World) : Bool × World :=
  if truthy (and32 qos QOS_GET) then
    if !status.isSuccess then
      (true, w.callback (Callback.getArrayDone status))
    else
      -- the data is deserialized, then the requester is told
      (true, w.callback (Callback.getArrayDone status))
  else if truthy (and32 qos QOS_GET_PUT) then
    (true, w.callback (Callback.setLengthDone status))
  else
    (true, w.callback (Callback.putArrayDone status))

/-- From `ChannelArrayImpl::destroyResponse`. -/
def ChannelArrayImpl.destroyResponse (qos : Int) (status : Status) (w : World) : Bool × World :=
  -- data available (get with destroy)
  if truthy (and32 qos QOS_GET) then
    ChannelArrayImpl.normalResponse qos status w
  else
    (true, w)

/-- The three response methods of `ChannelArrayImpl`. -/
def ChannelArrayImpl.responseMethods : ResponseMethods :=
  { initResponse := ChannelArrayImpl.initResponse,
    destroyResponse := ChannelArrayImpl.destroyResponse,
    normalResponse := ChannelArrayImpl.normalResponse }

/-! ## Constructors of the other operation classes -/

/-- The constructor `ChannelProcessRequestImpl(channel, callback, pvRequest)`:
pvRequest can be null. -/
def ChannelProcessRequestImpl.create (fuel : Nat) (e : Env) (pvRequest : Option PVStructure) :
    Option World :=
  match BaseRequestImpl.create fuel e pvRequest with
  | none => none
  | some w =>
    -- subscribe
    match w.env.checkAndGetTransport with
    | Except.ok _ => some w.resubscribeSubscription
    | Except.error _ => some (w.callback (Callback.channelProcessConnect channelNotConnected))

/-- The constructor `ChannelPutImpl(channel, channelPutRequester, pvRequest)`. -/
def ChannelPutImpl.create (fuel : Nat) (e : Env) (pvRequest : Option PVStructure) :
    Option World :=
  match BaseRequestImpl.create fuel e pvRequest with
  | none => none
  | some w =>
    if pvRequest = none then
      some (w.callback (Callback.channelPutConnect pvRequestNull))
    else
      -- subscribe
      match w.env.checkAndGetTransport with
      | Except.ok _ => some w.resubscribeSubscription
      | Except.error _ => some (w.callback (Callback.channelPutConnect channelNotConnected))

/-- The constructor `ChannelPutGetImpl(channel, channelPutGetRequester, pvRequest)`. -/
def ChannelPutGetImpl.create (fuel : Nat) (e : Env) (pvRequest : Option PVStructure) :
    Option World :=
  match BaseRequestImpl.create fuel e pvRequest with
  | none => none
  | some w =>
    if pvRequest = none then
      some (w.callback (Callback.channelPutGetConnect pvRequestNull))
    else
      -- subscribe
      match w.env.checkAndGetTransport with
      | Except.ok _ => some w.resubscribeSubscription
      | Except.error _ => some (w.callback (Callback.channelPutGetConnect channelNotConnected))

/-- The constructor `ChannelRPCImpl(channel, channelRPCRequester, pvRequest)`. -/
def ChannelRPCImpl.create (fuel : Nat) (e : Env) (pvRequest : Option PVStructure) :
    Option World :=
  match BaseRequestImpl.create fuel e pvRequest with
  | none => none
  | some w =>
    if pvRequest = none then
      some (w.callback (Callback.channelRPCConnect pvRequestNull))
    else
      -- subscribe
      match w.env.checkAndGetTransport with
      | Except.ok _ => some w.resubscribeSubscription
      | Except.error _ => some (w.callback (Callback.channelRPCConnect channelNotConnected))

/-- The constructor `ChannelArrayImpl(channel, channelArrayRequester, pvRequest)`. -/
def ChannelArrayImpl.create (fuel : Nat) (e : Env) (pvRequest : Option PVStructure) :
    Option World :=
  match BaseRequestImpl.create fuel e pvRequest with
  | none => none
  | some w =>
    if pvRequest = none then
      some (w.callback (Callback.channelArrayConnect pvRequestNull))
    else
      -- subscribe
      match w.env.checkAndGetTransport with
      | Except.ok _ => some w.resubscribeSubscription
      | Except.error _ => some (w.callback (Callback.channelArrayConnect channelNotConnected))

/-! ## Beacon response handler -/

/-- The argument of `ensureData` in `BeaconResponseHandler::handleResponse`:
`(2*sizeof(int16)+2*sizeof(int32)+128)/sizeof(int8)`, with the sizes 2, 4 and
1 of the integer types of pvData. -/
def BeaconResponseHandler.ensureSize : Nat :=
  (2 * 2 + 2 * 4 + 128) / 1

/-- A call `beaconHandler->beaconNotify(responseFrom, version, &timestamp,
&startupTimestamp, sequentalID, data)`; the reception time is left out and
`data` is named by what the deserializer returns (null: `none`). -/
structure BeaconNotifyCall where
  responseFrom : osiSockAddr
  version : Int
  secondsPastEpoch : Int
  nanoSeconds : Int
  sequentalID : Int
  data : Option Nat
  deriving DecidableEq, Repr

/-- From `BeaconResponseHandler::handleResponse` (after the call of the base
class method): `payload` holds the bytes of the message body, `known` says
whether `getBeaconHandler(responseFrom)` finds a handler, and `extra` stands
for the deserialization of the optional data from the unread bytes
(`IntrospectionRegistry::deserializeFull` and `createPVField`, null: `none`).
The two reads of the startup time stamp are taken in the order in which they
are written. The result is the list of `beaconNotify` calls made and whether
the method returned (`false`: an `ensureData` or a read did not succeed). -/
def BeaconResponseHandler.handleResponse (responseFrom : osiSockAddr) (version : Int)
    (known : Bool) (extra : List Nat → Option Nat) (payload : List Nat) :
    List BeaconNotifyCall × Bool :=
  if !ensureData BeaconResponseHandler.ensureSize payload then ([], false) else
  match getShort payload with
  | none => ([], false)
  | some (sequentalID, buf1) =>
  match getLong buf1 with
  | none => ([], false)
  | some (seconds, buf2) =>
  match getInt buf2 with
  | none => ([], false)
  | some (nanos, buf3) =>
  -- IPv4 compatible IPv6 address expected
  -- first 80-bit are 0
  match getLong buf3 with
  | none => ([], false)
  | some (l, buf4) =>
  if l ≠ 0 then ([], true) else
  match getShort buf4 with
  | none => ([], false)
  | some (s1, buf5) =>
  if s1 ≠ 0 then ([], true) else
  match getShort buf5 with
  | none => ([], false)
  | some (s2, buf6) =>
  if s2 ≠ toInt16 0xFFFF then ([], true) else
  -- accept given address if explicitly specified by sender
  match getInt buf6 with
  | none => ([], false)
  | some (_a, buf7) =>
  match getShort buf7 with
  | none => ([], false)
  | some (_port, buf8) =>
  -- currently we care only for servers used by this context
  if !known then ([], true) else
  -- extra data, then notify beacon handler
  ([{ responseFrom := responseFrom, version := version, secondsPastEpoch := seconds,
      nanoSeconds := nanos, sequentalID := sequentalID, data := extra buf8 }], true)

/-! ## Initialization of the client context -/

/-- From `InternalClientContextImpl::ContextState`. -/
inductive ContextState where
  | CONTEXT_NOT_INITIALIZED | CONTEXT_INITIALIZED | CONTEXT_DESTROYED
  deriving DecidableEq, Repr

/-- The fields of `InternalClientContextImpl` that `initialize()` assigns
(pointers: `false` or `none` for null), and the transports on which `start()`
has been called. -/
structure ContextParts where
  m_contextState : ContextState
  m_timer : Bool
  m_connector : Bool
  m_transportRegistry : Bool
  m_namedLocker : Bool
  m_broadcastTransport : Option Nat
  m_searchTransport : Option Nat
  m_channelSearchManager : Bool
  started : List Nat
  deriving DecidableEq, Repr

/-- What the operating system and the UDP connectors give back during
`initializeUDPTransport()`: whether `epicsSocketCreate` returns a socket
(`false`: `INVALID_SOCKET`), and what the two `connect` calls return: a
transport, a null pointer (`none`), or an exception. -/
structure UDPOutcome where
  socket : Bool
  broadcast : Except String (Option Nat)
  search : Except String (Option Nat)

/-- The state that the constructor of `InternalClientContextImpl` leaves. -/
def ContextParts.create : ContextParts :=
  { m_contextState := ContextState.CONTEXT_NOT_INITIALIZED, m_timer := false,
    m_connector := false, m_transportRegistry := false, m_namedLocker := false,
    m_broadcastTransport := none, m_searchTransport := none,
    m_channelSearchManager := false, started := [] }

/-- From `InternalClientContextImpl::initializeUDPTransport()`: the exception
that leaves the method (if any), the `bool` returned, and the new state. -/
def initializeUDPTransport (io : UDPOutcome) (c : ContextParts) :
    Option String × Bool × ContextParts :=
  -- quary broadcast addresses of all IFs
  if !io.socket then (none, false, c) else
  match io.broadcast with
  | Except.error msg => (some msg, false, c)
  | Except.ok broadcast =>
    let c1 : ContextParts := { c with m_broadcastTransport := broadcast }
    match broadcast with
    | none => (none, false, c1)
    | some b =>
      match io.search with
      | Except.error msg => (some msg, false, c1)
      | Except.ok search =>
        let c2 : ContextParts := { c1 with m_searchTransport := search }
        match search with
        | none => (none, false, c2)
        | some s =>
          -- become active
          (none, true, { c2 with started := c2.started ++ [b, s] })

/-- From `InternalClientContextImpl::internalInitialize()`: the result of
`initializeUDPTransport()` is not looked at. -/
def internalInitialize (io : UDPOutcome) (c : ContextParts) : Option String × ContextParts :=
  let c1 : ContextParts :=
    { c with m_timer := true, m_connector := true, m_transportRegistry := true,
             m_namedLocker := true }
  -- setup UDP transport
  match initializeUDPTransport io c1 with
  | (some msg, _, c2) => (some msg, c2)
  | (none, _, c2) =>
    -- setup search manager
    (none, { c2 with m_channelSearchManager := true })

/-- From `InternalClientContextImpl::initialize()`: the exception thrown to
the caller (if any) and the new state. -/
def InternalClientContextImpl.initialize (io : UDPOutcome) (c : ContextParts) :
    Option String × ContextParts :=
  if c.m_contextState = ContextState.CONTEXT_DESTROYED then
    (some "Context destroyed.", c)
  else if c.m_contextState = ContextState.CONTEXT_INITIALIZED then
    (some "Context already initialized.", c)
  else
    match internalInitialize io c with
    | (some msg, c1) => (some msg, c1)
    | (none, c1) => (none, { c1 with m_contextState := ContextState.CONTEXT_INITIALIZED })

/-! ## The Getter of the pvac client (`clientGet.cpp`) -/

/-- From `Status::isOK()` of pvData: true for OK only. -/
def Status.isOK (s : Status) : Bool :=
  s.type = StatusType.OK

/-- From `pvac::GetEvent::event_t`, as far as the sources use it. -/
inductive GetEvent.event_t where
  | Fail | Cancel | Success
  deriving DecidableEq, Repr

/-- From `pvac::GetEvent`: the fields that the Getter assigns; `value` and
`valid` are shared pointers, named by an identity (null: `none`). -/
structure GetEvent where
  event : GetEvent.event_t
  message : String
  value : Option Nat
  valid : Option Nat
  deriving DecidableEq, Repr

/-- A call that the Getter makes on its operation. -/
inductive GetterOpCall where
  /-- `op->cancel()` -/
  | cancel (op : Nat)
  /-- `channelGet->get()` -/
  | get (channelGet : Nat)
  deriving DecidableEq, Repr

/-- The fields of `GetterCommon` (pointers are named by an identity, null:
`none`), with the calls made so far: `delivered` lists the events passed to
the user's `GetCallback::getDone`, oldest first. A user callback that throws
is caught and logged and leaves no other trace; a callback that calls back
into the Getter is not modelled. -/
structure GetterCommon where
  op : Option Nat
  cb : Option Nat
  event : GetEvent
  delivered : List GetEvent
  opCalls : List GetterOpCall
  deriving DecidableEq, Repr

/-- The constructor `GetterCommon(cb)`; `event` is what the constructor of
`pvac::GetEvent` (not among the sources) leaves in the member. -/
def GetterCommon.create (cb : Option Nat) (event : GetEvent) : GetterCommon :=
  { op := none, cb := cb, event := event, delivered := [], opCalls := [] }

/-- From `GetterCommon::callEvent(G, evt)`. -/
def GetterCommon.callEvent (g : GetterCommon) (evt : GetEvent.event_t) : GetterCommon :=
  match g.cb with
  | none => g
  | some _ =>
    let g1 : GetterCommon := { g with event := { g.event with event := evt } }
    { g1 with cb := none, delivered := g1.delivered ++ [g1.event] }

/-- From `GetterCommon::cancel()`. -/
def GetterCommon.cancel (g : GetterCommon) : GetterCommon :=
  let g1 : GetterCommon :=
    match g.op with
    | some o => { g with opCalls := g.opCalls ++ [GetterOpCall.cancel o] }
    | none => g
  g1.callEvent GetEvent.event_t.Cancel

/-- From `GetterCommon::channelGetConnect(status, channelGet, structure)`. -/
def GetterCommon.channelGetConnect (g : GetterCommon) (status : Status) (channelGet : Nat) :
    GetterCommon :=
  if g.cb = none then g
  else
    let g1 : GetterCommon :=
      { g with event := { g.event with message := if !status.isOK then status.message else "" } }
    if !status.isSuccess then
      g1.callEvent GetEvent.event_t.Fail
    else
      { g1 with opCalls := g1.opCalls ++ [GetterOpCall.get channelGet] }

/-- From `GetterCommon::channelDisconnect(destroy)`. -/
def GetterCommon.channelDisconnect (g : GetterCommon) (_destroy : Bool) : GetterCommon :=
  GetterCommon.callEvent { g with event := { g.event with message := "Disconnect" } }
    GetEvent.event_t.Fail

/-- From `GetterCommon::getDone(status, channelGet, pvStructure, bitSet)`. -/
def GetterCommon.getDone (g : GetterCommon) (status : Status) (pvStructure bitSet : Option Nat) :
    GetterCommon :=
  if g.cb = none then g
  else
    let g1 : GetterCommon :=
      { g with event := { g.event with message := if !status.isOK then status.message else "",
                                       value := pvStructure, valid := bitSet } }
    g1.callEvent (if status.isSuccess then GetEvent.event_t.Success else GetEvent.event_t.Fail)

/-- A call on a Getter: one of the three requester callbacks made by the
operation, or `cancel()`. -/
inductive GetterCall where
  | channelGetConnect (status : Status) (channelGet : Nat)
  | channelDisconnect (destroy : Bool)
  | getDone (status : Status) (pvStructure bitSet : Option Nat)
  | cancel
  deriving DecidableEq, Repr

/-- One call. -/
def GetterCommon.step (g : GetterCommon) : GetterCall → GetterCommon
  | GetterCall.channelGetConnect status channelGet => g.channelGetConnect status channelGet
  | GetterCall.channelDisconnect destroy => g.channelDisconnect destroy
  | GetterCall.getDone status pvStructure bitSet => g.getDone status pvStructure bitSet
  | GetterCall.cancel => g.cancel

/-- The calls of a list, one after the other. -/
def GetterCommon.run (g : GetterCommon) (calls : List GetterCall) : GetterCommon :=
  calls.foldl GetterCommon.step g

/-! ## The Monitor of the pvac client (`clientMonitor.cpp`) -/

/-- From `pvac::MonitorEvent::event_t`, as far as the sources use it. -/
inductive MonitorEvent.event_t where
  | Fail | Cancel | Disconnect | Data
  deriving DecidableEq, Repr

/-- From `pvac::MonitorEvent`: the fields that the monitor assigns. -/
structure MonitorEvent where
  event : MonitorEvent.event_t
  message : String
  deriving DecidableEq, Repr

/-- A call that the monitor makes on its operation. -/
inductive MonitorOpCall where
  /-- `op->stop()` -/
  | stop (op : Nat)
  /-- `temp->destroy()` -/
  | destroy (op : Nat)
  deriving DecidableEq, Repr

/-- The fields of `Monitor::Impl` (pointers and the `std::function` are named
by an identity, null or empty: `none`; `last` names the operation attached),
with the calls made so far: `delivered` lists the events passed to the user's
callback (`cb->monitorEvent(event)` or `cb11(event)`), oldest first. -/
structure Monitor.Impl where
  op : Option Nat
  started : Bool
  done : Bool
  seenEmpty : Bool
  cb : Option Nat
  cb11 : Option Nat
  event : MonitorEvent
  last : Option Nat
  delivered : List MonitorEvent
  opCalls : List MonitorOpCall
  deriving DecidableEq, Repr

/-- The constructors `Impl(cb)` and `Impl(std::function&&)`; `event` is what
the constructor of `pvac::MonitorEvent` (not among the sources) leaves. -/
def Monitor.Impl.create (cb cb11 : Option Nat) (event : MonitorEvent) : Monitor.Impl :=
  { op := none, started := false, done := false, seenEmpty := false, cb := cb, cb11 := cb11,
    event := event, last := none, delivered := [], opCalls := [] }

/-- From `Monitor::Impl::valid()`. -/
def Monitor.Impl.valid (m : Monitor.Impl) : Bool :=
  m.cb.isSome || m.cb11.isSome

/-- From `Monitor::Impl::callEvent(G, evt)`. The user's callback is `user`:
given the event it returns (`none`) or throws a `std::exception` whose
`what()` is the string. -/
def Monitor.Impl.callEvent (user : MonitorEvent → Option String) (m : Monitor.Impl)
    (evt : MonitorEvent.event_t) : Monitor.Impl :=
  if m.cb = none ∧ m.cb11 = none then m
  else
    let m1 : Monitor.Impl := { m with event := { m.event with event := evt } }
    let m2 : Monitor.Impl :=
      if evt = MonitorEvent.event_t.Fail ∨ evt = MonitorEvent.event_t.Cancel then
        -- last event
        { m1 with done := true, cb := none, cb11 := none }
      else m1
    let m3 : Monitor.Impl := { m2 with delivered := m2.delivered ++ [m2.event] }
    match user m2.event with
    | none => m3
    | some what =>
      if m3.cb = none ∨ evt = MonitorEvent.event_t.Fail then
        m3
      else
        let m4 : Monitor.Impl :=
          { m3 with event := { event := MonitorEvent.event_t.Fail, message := what } }
        -- continues error handling
        { m4 with delivered := m4.delivered ++ [m4.event] }

/-- From `Monitor::Impl::cancel()`. -/
def Monitor.Impl.cancel (user : MonitorEvent → Option String) (m : Monitor.Impl) :
    Monitor.Impl :=
  let m1 : Monitor.Impl := { m with last := none }
  let m2 : Monitor.Impl :=
    match m1.op with
    | some o =>
      if m1.started then
        { m1 with opCalls := m1.opCalls ++ [MonitorOpCall.stop o], started := false }
      else m1
    | none => m1
  let temp : Option Nat := m2.op
  let m3 : Monitor.Impl := Monitor.Impl.callEvent user { m2 with op := none }
    MonitorEvent.event_t.Cancel
  match temp with
  | some o => { m3 with opCalls := m3.opCalls ++ [MonitorOpCall.destroy o] }
  | none => m3

/-- From `Monitor::Impl::monitorConnect(status, operation, structure)`; `sts`
is what `operation->start()` returns. -/
def Monitor.Impl.monitorConnect (user : MonitorEvent → Option String) (m : Monitor.Impl)
    (status : Status) (operation : Nat) (sts : Status) : Monitor.Impl :=
  if !m.valid || m.started || m.done then m
  else
    let m1 : Monitor.Impl :=
      { m with event := { m.event with message := if !status.isOK then status.message else "" } }
    if !status.isSuccess then
      m1.callEvent user MonitorEvent.event_t.Fail
    else if sts.isSuccess then
      { m1 with started := true, last := some operation }
    else
      Monitor.Impl.callEvent user { m1 with event := { m1.event with message := sts.message } }
        MonitorEvent.event_t.Fail

/-- From `Monitor::Impl::channelDisconnect(destroy)`. -/
def Monitor.Impl.channelDisconnect (user : MonitorEvent → Option String) (m : Monitor.Impl)
    (_destroy : Bool) : Monitor.Impl :=
  if !m.valid || m.done then m
  else
    Monitor.Impl.callEvent user
      { m with event := { m.event with message := "Disconnect" }, started := false }
      MonitorEvent.event_t.Disconnect

/-- From `Monitor::Impl::monitorEvent(monitor)`. -/
def Monitor.Impl.monitorEvent (user : MonitorEvent → Option String) (m : Monitor.Impl) :
    Monitor.Impl :=
  if !m.valid || m.done then m
  else
    Monitor.Impl.callEvent user { m with event := { m.event with message := "" } }
      MonitorEvent.event_t.Data

/-- From `Monitor::Impl::unlisten(monitor)`. -/
def Monitor.Impl.unlisten (user : MonitorEvent → Option String) (m : Monitor.Impl) :
    Monitor.Impl :=
  if !m.valid || m.done then m
  else
    let m1 : Monitor.Impl := { m with done := true }
    if m1.seenEmpty then m1.callEvent user MonitorEvent.event_t.Data
    else m1 -- wait until final poll()

/-! ## Sample data -/

/-- A connected channel with server channel id 5, no registered operation,
an empty send queue and `m_lastIOID = 0`. -/
def sampleEnv : Env :=
  { m_connectionState := ConnectionState.CONNECTED, m_serverChannelID := 5,
    m_responseRequests := [], m_pendingResponseRequests := [], m_lastIOID := 0,
    sendQueue := [], callbacks := [] }

/-- Collaborators that write one marker byte each: `0xA0` for a pvRequest,
`0xB0` for a bit set, `0xD0` for data, `0xE0` for put data, and the low byte
of a size or count. -/
def sampleCollaborators : Collaborators :=
  { serializePVRequest := fun _ => [0xA0], bitSet := [0xB0], data := [0xD0], putData := [0xE0],
    writeSize := fun n => [toByte n], arrayData := fun n => [toByte n] }

/-- An initialized, idle ChannelPut on `sampleEnv` with IOID 1. -/
def sampleWorld : World :=
  { env := { sampleEnv with m_responseRequests := [1], m_pendingResponseRequests := [1],
                            m_lastIOID := 1 },
    op := { m_ioid := 1, m_destroyed := false, m_initialized := true,
            m_pendingRequest := NULL_REQUEST, m_refCount := 1, m_status := Status.OK },
    m_pvRequest := some ⟨0⟩, m_offset := 0, m_count := 0, m_length := -1, m_capacity := -1 }

/-- The ChannelGet that its constructor leaves on `sampleEnv`: IOID 1, not
initialized, INIT request pending and enqueued. -/
def sampleGetWorld : World :=
  { env := { sampleEnv with m_responseRequests := [1], m_pendingResponseRequests := [1],
                            m_lastIOID := 1, sendQueue := [TransportSender.request 1] },
    op := { m_ioid := 1, m_destroyed := false, m_initialized := false,
            m_pendingRequest := QOS_INIT, m_refCount := 1, m_status := Status.OK },
    m_pvRequest := some ⟨0⟩, m_offset := 0, m_count := 0, m_length := -1, m_capacity := -1 }

/-- Calls that lose a changed bit: the update with changed set `{2}` arrives
between a `poll()` and the `release()` that follows it. -/
def lossyCalls : List MonitorCall :=
  [MonitorCall.update (BitSet.ofList [1]) 0, MonitorCall.poll,
   MonitorCall.update (BitSet.ofList [2]) 0, MonitorCall.release, MonitorCall.poll]

/-- Calls in which each `release()` follows a `poll()` directly. -/
def orderlyCalls : List MonitorCall :=
  [MonitorCall.update (BitSet.ofList [1]) 0, MonitorCall.update (BitSet.ofList [2]) 0,
   MonitorCall.poll, MonitorCall.release, MonitorCall.update (BitSet.ofList [1]) 0,
   MonitorCall.poll]

/-- Response methods that return `true` and change nothing. -/
def sampleResponseMethods : ResponseMethods :=
  { initResponse := fun _ _ w => (true, w),
    destroyResponse := fun _ _ w => (true, w),
    normalResponse := fun _ _ w => (true, w) }

/-- A context whose last IOID is 2^32 - 1 and whose IOIDs 0 and 1 are taken,
and whose last CID is 7 with CID 8 taken. -/
def sampleContext : InternalClientContextImpl :=
  { m_channelsByCID := [(8, 1)], m_lastCID := 7,
    m_pendingResponseRequests := [(0, 11), (1, 12)], m_lastIOID := 4294967295 }

/-- A lookup that finds the string `"0"` in the pvRequest with identity 0,
the string `"many"` in the one with identity 1, and no field in the others. -/
def sampleGetSubField (pv : PVStructure) : QueueSizeField :=
  if pv.id = 0 then QueueSizeField.string "0"
  else if pv.id = 1 then QueueSizeField.string "many"
  else QueueSizeField.absent

/-- An extraction that reads `"-1"`, `"0"` and `"2"` and fails on every
other string. -/
def sampleExtract (value : String) : Option Int :=
  if value = "-1" then some (-1)
  else if value = "0" then some 0
  else if value = "2" then some 2
  else none

/-- A ChannelMonitor on the sample channel, never initialized, destroyed. -/
def sampleDestroyedMonitor : ChannelMonitorImpl :=
  { world := { sampleGetWorld with
      op := { sampleGetWorld.op with m_destroyed := true, m_pendingRequest := NULL_REQUEST } },
    m_started := false,
    m_monitorStrategy := some (MonitorStrategy.single MonitorStrategySingle.create) }

/-- An initialized, idle ChannelMonitor on the sample channel, with a started
coalesced-single strategy. -/
def sampleMonitor : ChannelMonitorImpl :=
  { world := sampleWorld, m_started := false,
    m_monitorStrategy := some (MonitorStrategy.single (MonitorStrategySingle.started ⟨0⟩)) }

/-- The state after a call that may throw: the new state, or the old one when
the exception is caught by the caller. -/
def Sys.orKeep (s : Sys) (r : Except String Sys) : Sys :=
  match r with
  | Except.ok s1 => s1
  | Except.error _ => s

/-- A transport to the server at 10.0.0.1:5075. -/
def sampleTransportA : Transport := ⟨100, ⟨167772161, 5075⟩⟩

/-- Another transport object to the same server address. -/
def sampleTransportB : Transport := ⟨101, ⟨167772161, 5075⟩⟩

/-- A serializer of strings that writes the length and the character codes. -/
def sampleSerializeString (x : String) : List Nat :=
  x.length :: x.toList.map (fun ch => ch.toNat)

/-- A channel `pv` with CID 1 has been created: object 1, searching. -/
def sampleSearching : Sys := (Sys.initial.newChannel 1 "pv" none).2

/-- The search result has arrived and led to `createChannel(A)`. -/
def sampleCreating : Sys :=
  sampleSearching.searchResponse 1 sampleTransportA.remoteAddress (some sampleTransportA)

/-- The server has answered the create request with SID 55. -/
def sampleConnected : Sys := sampleCreating.connectionCompleted 1 55

/-- After `disconnect()`. -/
def sampleDisconnected : Sys := sampleConnected.orKeep (sampleConnected.disconnect 1)

/-- After `disconnect()` and `connect()`. -/
def sampleReconnecting : Sys := sampleDisconnected.orKeep (sampleDisconnected.connect 1)

/-- The next search result has arrived, `getTransport` returning transport B. -/
def sampleRecreating : Sys :=
  sampleReconnecting.searchResponse 1 sampleTransportB.remoteAddress (some sampleTransportB)

/-- The connected channel is held by one more reference (`acquire()`) and
then destroyed. -/
def sampleDestroyedChannel : Sys := (sampleConnected.channelAcquire 1).channelDestroy 1 false

/-- On the channel that waits for the answer to its create request, a
channel get (object 2) and a get field request (object 3) have been
constructed. -/
def sampleRequests : Sys :=
  ((sampleCreating.newRequest 8 1 true none).bind (fun s => s.newRequest 8 1 false none)).getD
    sampleCreating

/-- Two constructions on channel 1 (an operation, a get field request), a
destroy of the first object, a construction on channel 2 that returns early,
and a destroy of an object that does not exist. -/
def sampleSteps : List RequestStep :=
  [RequestStep.construct 1 true none, RequestStep.construct 1 false none,
   RequestStep.destroy 1, RequestStep.construct 2 true (some pvRequestNull),
   RequestStep.destroy 7]

/-- The channel with the channel get (object 2) and the get field request
(object 3) has been connected. -/
def sampleOperating : Sys := sampleRequests.connectionCompleted 1 55

/-- The sample ChannelPut with a put with `lastRequest` started and not yet
sent: `QOS_DESTROY` is pending. -/
def samplePendingWorld : World :=
  { sampleWorld with op := { sampleWorld.op with m_pendingRequest := QOS_DESTROY } }

/-- A successful INIT response followed by a failed INIT response (a
re-INIT after a reconnect that the server refuses). -/
def sampleReinit : List (Nat × Status) :=
  [(0x08, Status.OK), (0x08, ⟨StatusType.ERROR, "no such channel"⟩)]

/-- The strategy of a started monitor that holds an update with changed set
`{1}`, not yet polled. -/
def sampleBufferedStrategy : MonitorStrategySingle :=
  { m_gotMonitor := true,
    slots := some { m_monitorElementStructure := ⟨0⟩,
                    m_monitorElementChangeBitSet := BitSet.ofList [1],
                    m_monitorElementOverrunBitSet := 0,
                    m_dataChangeBitSet := 0, m_dataOverrunBitSet := 0 },
    m_needToCompress := false, monitorEvents := 1 }

/-- A started ChannelMonitor with that strategy, on which `stop()` has been
called and not yet sent: `QOS_PROCESS` is pending. -/
def sampleBufferedMonitor : ChannelMonitorImpl :=
  { world := { sampleWorld with op := { sampleWorld.op with m_pendingRequest := QOS_PROCESS } },
    m_started := true,
    m_monitorStrategy := some (MonitorStrategy.single sampleBufferedStrategy) }

/-- The fixed fields of a beacon, 32 bytes: sequential id 1, startup time
7 s and 9 ns, the IPv4-mapped address of 10.0.0.1, port 5075. -/
def sampleBeacon : List Nat :=
  [0, 1,  0, 0, 0, 0, 0, 0, 0, 7,  0, 0, 0, 9,
   0, 0, 0, 0, 0, 0, 0, 0, 0, 0, 255, 255, 10, 0, 0, 1,  19, 211]

/-- A deserializer of the extra data that reports how many bytes were left
unread. -/
def sampleExtra (buf : List Nat) : Option Nat := some buf.length

/-- A Getter built with a user callback, whose operation has been created. -/
def sampleGetter : GetterCommon :=
  { GetterCommon.create (some 1) ⟨GetEvent.event_t.Fail, "", none, none⟩ with op := some 7 }

/-- A monitor built with a user callback, connected and started on operation 7. -/
def sampleStartedMonitor : Monitor.Impl :=
  { Monitor.Impl.create (some 1) none ⟨MonitorEvent.event_t.Fail, ""⟩ with
    op := some 7, started := true, last := some 7 }

/-- A user callback that returns on every event. -/
def sampleUser (_e : MonitorEvent) : Option String := none

/-! ## Predicates used in the statements -/

/-- The outcome of a rejected request: `w'` differs from `w` by exactly one
requester call `c`, made during the call; nothing was enqueued on the
transport and the operation (so `m_pendingRequest`) is unchanged. -/
def Rejected (w w' : World) (c : Callback) : Prop :=
  w'.env.callbacks = w.env.callbacks ++ [c] ∧
  w'.env.sendQueue = w.env.sendQueue ∧
  w'.op.m_pendingRequest = w.op.m_pendingRequest ∧
  w'.op = w.op

/-- The operation of `w` with pending request `p`. -/
def World.withPending (w : World) (p : Int) : World :=
  { w with op := { w.op with m_pendingRequest := p } }

/-- The registries and the objects agree: an entry of the context map names a
live object with that IOID, registered under it in the map of its channel; an
entry of a channel map is an entry of the context map and names an object of
that channel; a live object is registered under its IOID; no object lies
beyond the next free name. -/
def Consistent (s : Sys) : Prop :=
  (∀ i o, RefMap.lookup s.context.m_pendingResponseRequests i = some o →
    ∃ r, s.objects o = some r ∧ r.base.m_ioid = i ∧ r.base.m_destroyed = false ∧
      RefMap.lookup (s.channels r.m_channel).m_responseRequests i = some o) ∧
  (∀ c i o, RefMap.lookup (s.channels c).m_responseRequests i = some o →
    RefMap.lookup s.context.m_pendingResponseRequests i = some o ∧
      ∃ r, s.objects o = some r ∧ r.m_channel = c) ∧
  (∀ o r, s.objects o = some r → r.base.m_destroyed = false →
    RefMap.lookup s.context.m_pendingResponseRequests r.base.m_ioid = some o) ∧
  (∀ o, s.nextObject ≤ o → s.objects o = none)

/-- The entries of the map of channel `c` are well formed: one entry per
IOID, each naming a live object of this channel that has this IOID. -/
def RequestsValid (s : Sys) (c : Nat) : Prop :=
  (RefMap.keyList (s.channels c).m_responseRequests).Nodup ∧
  ∀ e ∈ (s.channels c).m_responseRequests,
    ∃ r, s.objects e.2 = some r ∧ r.base.m_ioid = e.1 ∧ r.m_channel = c ∧
      r.base.m_destroyed = false

/-- From `x` to `y` the objects, the context map and the map of channel `c`
stay as they are and no `reportStatus` call is made. -/
def KeepsRequests (c : Nat) (x y : Sys) : Prop :=
  y.objects = x.objects ∧
  y.context.m_pendingResponseRequests = x.context.m_pendingResponseRequests ∧
  (y.channels c).m_responseRequests = (x.channels c).m_responseRequests ∧
  reportsOf y.log = reportsOf x.log

/-- The test `qos & QOS_INIT` of `response` on the byte read. -/
def carriesInit (qosByte : Nat) : Bool :=
  truthy (and32 (toInt8 qosByte) QOS_INIT)

/-- The byte takes `response` into its DESTROY branch: `qos & QOS_INIT` is
zero and `qos & QOS_DESTROY` is not. -/
def carriesDestroyOnly (qosByte : Nat) : Bool :=
  !carriesInit qosByte && truthy (and32 (toInt8 qosByte) QOS_DESTROY)

/-- The response methods of the class do not assign `m_initialized` (in the
source only `response` and the constructor do). -/
def KeepsInitialized (h : ResponseMethods) : Prop :=
  ∀ (q : Int) (st : Status) (w : World),
    (h.initResponse q st w).2.op.m_initialized = w.op.m_initialized ∧
    (h.destroyResponse q st w).2.op.m_initialized = w.op.m_initialized ∧
    (h.normalResponse q st w).2.op.m_initialized = w.op.m_initialized

/-! ## Theorems -/

/-! ### Helper lemmas -/

theorem startRequest_fst_false (r : BaseRequestImpl) (q : Int)
    (h : r.m_pendingRequest ≠ NULL_REQUEST) (hq : q ≠ PURE_DESTROY_REQUEST) :
    (r.startRequest q).1 = false := by
  unfold BaseRequestImpl.startRequest
  rw [if_pos ⟨h, hq⟩]

theorem startRequest_of_null (r : BaseRequestImpl) (q : Int)
    (h : r.m_pendingRequest = NULL_REQUEST) :
    r.startRequest q = (true, { r with m_pendingRequest := q }) := by
  unfold BaseRequestImpl.startRequest
  rw [if_neg (by simp [h])]

theorem startRequest_pure_destroy (r : BaseRequestImpl) :
    r.startRequest PURE_DESTROY_REQUEST =
      (true, { r with m_pendingRequest := PURE_DESTROY_REQUEST }) := by
  unfold BaseRequestImpl.startRequest
  rw [if_neg (by simp)]

set_option maxRecDepth 100000 in
theorem qos_bits_of_byte :
    ∀ b : Fin 256,
      truthy (and32 (toInt8 (b.val : Int)) QOS_INIT) = b.val.testBit 3 ∧
      truthy (and32 (toInt8 (b.val : Int)) QOS_DESTROY) = b.val.testBit 4 := by
  decide

theorem destroy_of_destroyed (w : World) (h : w.op.m_destroyed = true) : w.destroy = w := by
  simp [World.destroy, h]

theorem mapErase_not_mem (k : pvAccessID) (keys : IOIDKeys) : k ∉ mapErase k keys := by
  simp [mapErase]

theorem mapErase_of_not_mem (k : pvAccessID) (keys : IOIDKeys) (h : k ∉ keys) :
    mapErase k keys = keys := by
  unfold mapErase
  rw [List.filter_eq_self]
  intro a ha
  have : a ≠ k := fun e => h (e ▸ ha)
  simpa using this

theorem contextUnregister_eq (e : Env) (ioid : pvAccessID) :
    e.contextUnregisterResponseRequest ioid =
      { e with m_pendingResponseRequests := mapErase ioid e.m_pendingResponseRequests } := by
  unfold Env.contextUnregisterResponseRequest
  by_cases h : ioid ∈ e.m_pendingResponseRequests
  · rw [if_pos h]
  · rw [if_neg h, mapErase_of_not_mem _ _ h]

/-- What `destroy()` does to an operation that is not yet destroyed. -/
theorem destroy_eq (w : World) (hd : w.op.m_destroyed = false) :
    w.destroy =
      { w with
        env := { w.env with
          m_pendingResponseRequests := mapErase w.op.m_ioid w.env.m_pendingResponseRequests,
          m_responseRequests := mapErase w.op.m_ioid w.env.m_responseRequests,
          sendQueue :=
            if w.op.m_initialized = true ∧ w.env.m_connectionState = ConnectionState.CONNECTED
            then w.env.sendQueue ++ [TransportSender.request w.op.m_ioid]
            else w.env.sendQueue },
        op := { w.op with
          m_destroyed := true,
          m_pendingRequest :=
            if w.op.m_initialized = true then PURE_DESTROY_REQUEST else w.op.m_pendingRequest,
          m_refCount := w.op.m_refCount - 1 } } := by
  cases hinit : w.op.m_initialized <;> cases hc : w.env.m_connectionState <;>
    simp [World.destroy, hd, hinit, hc, contextUnregister_eq,
      Env.channelUnregisterResponseRequest, Env.checkAndGetTransport, World.startRequest,
      World.enqueueSendRequest, BaseRequestImpl.release, startRequest_pure_destroy]

theorem destroy_destroyed (w : World) : w.destroy.op.m_destroyed = true := by
  cases hd : w.op.m_destroyed
  · rw [destroy_eq w hd]
  · rw [destroy_of_destroyed w hd]; exact hd

theorem send_pure_destroy (k : OpKind) (ext : Collaborators) (w : World)
    (h : w.op.m_pendingRequest = PURE_DESTROY_REQUEST) :
    (k.send ext w).1 =
      [{ command := 15, body := putInt w.env.m_serverChannelID ++ putInt w.op.m_ioid }] := by
  cases k <;>
    simp +decide [OpKind.send, ChannelProcessRequestImpl.send, ChannelGetImpl.send,
      ChannelPutImpl.send, ChannelPutGetImpl.send, ChannelMonitorImpl.send,
      ChannelArrayImpl.send, ChannelRPCImpl.send, BaseRequestImpl.send,
      BaseRequestImpl.getPendingRequest, h, PURE_DESTROY_REQUEST, toInt8]

theorem single_response_not_got (s : MonitorStrategySingle) (sl : MonitorSlots) (c o : BitSet)
    (hs : s.slots = some sl) (hg : s.m_gotMonitor = false) :
    s.response c o = some
      { s with
        slots := some { sl with m_monitorElementChangeBitSet := c,
                                m_monitorElementOverrunBitSet := o },
        m_gotMonitor := true,
        monitorEvents := s.monitorEvents + 1 } := by
  simp [MonitorStrategySingle.response, hs, hg]

theorem single_response_got (s : MonitorStrategySingle) (sl : MonitorSlots) (c o : BitSet)
    (hs : s.slots = some sl) (hg : s.m_gotMonitor = true) :
    s.response c o = some
      { s with
        slots := some
          { sl with
            m_dataChangeBitSet := c, m_dataOverrunBitSet := o,
            m_monitorElementChangeBitSet := (sl.m_monitorElementChangeBitSet ||| c),
            m_monitorElementOverrunBitSet :=
              (sl.m_monitorElementOverrunBitSet ||| (c &&& sl.m_monitorElementChangeBitSet) ||| o) } } := by
  simp [MonitorStrategySingle.response, hs, hg, BitSet.or_and]

theorem single_poll_not_got (compress : BitSet → Structure → BitSet) (s : MonitorStrategySingle)
    (hg : s.m_gotMonitor = false) : s.poll compress = (none, s) := by
  simp [MonitorStrategySingle.poll, hg]

theorem single_poll_got (compress : BitSet → Structure → BitSet) (s : MonitorStrategySingle)
    (hg : s.m_gotMonitor = true) (hn : s.m_needToCompress = false) :
    s.poll compress = (some s.element, s) := by
  simp [MonitorStrategySingle.poll, hg, hn]

theorem single_response_summary (s : MonitorStrategySingle) (sl : MonitorSlots) (c o : BitSet)
    (hs : s.slots = some sl) (hn : s.m_needToCompress = false) :
    ∃ s1 sl1, s.response c o = some s1 ∧ s1.slots = some sl1 ∧ s1.m_needToCompress = false ∧
      s1.buffered = (if s.m_gotMonitor then sl.m_monitorElementChangeBitSet ||| c else c) := by
  cases hg : s.m_gotMonitor with
  | false =>
    exact ⟨_, _, single_response_not_got s sl c o hs hg, rfl, hn,
      by simp [MonitorStrategySingle.buffered]⟩
  | true =>
    exact ⟨_, _, single_response_got s sl c o hs hg, rfl, hn,
      by simp [MonitorStrategySingle.buffered, hg]⟩

theorem lor_step_merge (seen ch c inp : Nat) (h : seen ||| ch = inp) :
    seen ||| (ch ||| c) = inp ||| c := by
  rw [← h, Nat.lor_assoc]

theorem lor_step_seen (seen ch inp : Nat) (h : seen ||| ch = inp) :
    (seen ||| ch) ||| ch = inp := by
  rw [Nat.lor_assoc, Nat.or_self]; exact h

theorem lor_absorb (seen ch : Nat) : ch ||| (seen ||| ch) = seen ||| ch := by
  rw [Nat.lor_comm ch, Nat.lor_assoc, Nat.or_self]

theorem lor_eq_of_absorbed (seen pend inp : Nat) (h1 : seen ||| pend = inp)
    (h2 : pend ||| seen = seen) : seen = inp := by
  rw [Nat.lor_comm] at h2
  rw [h2] at h1
  exact h1

/-- The invariant of `MonitorStrategySingle` along a call sequence in which
`release()` only comes when no update is unpolled: the OR `seen` of the
changed sets observed so far, together with the buffered changed bits, is the
OR `inp` of the input changed sets so far; and while no update is unpolled the
buffered bits have all been observed. -/
theorem single_run_invariant (compress : BitSet → Structure → BitSet) :
    ∀ (calls : List MonitorCall) (s : MonitorStrategySingle) (sl : MonitorSlots) (d : Bool)
      (seen inp : BitSet),
      s.slots = some sl → s.m_needToCompress = false →
      seen ||| s.buffered = inp → (d = false → s.buffered ||| seen = seen) →
      releasesAfterPoll d calls = true →
      ∃ obs s' sl', MonitorStrategySingle.run compress calls s = some (obs, s') ∧
        s'.slots = some sl' ∧ s'.m_needToCompress = false ∧
        (seen ||| orAll (observedChanged obs)) ||| s'.buffered =
          inp ||| orAll (inputChanged calls) ∧
        (unpolledAtEnd d calls = false →
          s'.buffered ||| (seen ||| orAll (observedChanged obs)) =
            seen ||| orAll (observedChanged obs)) := by
  intro calls
  induction calls with
  | nil =>
    intro s sl d seen inp hs hn hinv hd _
    refine ⟨[], s, sl, rfl, hs, hn, ?_, ?_⟩
    · simpa [orAll, observedChanged, inputChanged] using hinv
    · intro hu
      simpa [orAll, observedChanged, unpolledAtEnd] using hd hu
  | cons c cs ih =>
    intro s sl d seen inp hs hn hinv hd hrel
    cases c with
    | update ch ov =>
      have hrel' : releasesAfterPoll true cs = true := by simpa [releasesAfterPoll] using hrel
      obtain ⟨s1, sl1, hr, hs1, hn1, hb1⟩ := single_response_summary s sl ch ov hs hn
      have hinv1 : seen ||| s1.buffered = inp ||| ch := by
        rw [hb1]
        cases hg : s.m_gotMonitor with
        | false =>
          have hb : s.buffered = 0 := by simp [MonitorStrategySingle.buffered, hg]
          have hsi : seen = inp := by simpa [hb] using hinv
          simp [hsi]
        | true =>
          have hb : s.buffered = sl.m_monitorElementChangeBitSet := by
            simp [MonitorStrategySingle.buffered, hg, hs]
          simpa using lor_step_merge _ _ ch _ (hb ▸ hinv)
      obtain ⟨obs, s', sl', hrun, hs', hn', h1, h2⟩ :=
        ih s1 sl1 true seen (inp ||| ch) hs1 hn1 hinv1 (by intro h; cases h) hrel'
      refine ⟨obs, s', sl', ?_, hs', hn', ?_, ?_⟩
      · simp [MonitorStrategySingle.run, MonitorStrategySingle.step, hr, hrun]
      · rw [h1]; simp [inputChanged, orAll, Nat.lor_assoc]
      · intro hu; exact h2 (by simpa [unpolledAtEnd] using hu)
    | poll =>
      have hrel' : releasesAfterPoll false cs = true := by simpa [releasesAfterPoll] using hrel
      cases hg : s.m_gotMonitor with
      | false =>
        have hb : s.buffered = 0 := by simp [MonitorStrategySingle.buffered, hg]
        obtain ⟨obs, s', sl', hrun, hs', hn', h1, h2⟩ :=
          ih s sl false seen inp hs hn hinv (by intro _; simp [hb]) hrel'
        refine ⟨obs, s', sl', ?_, hs', hn', h1, ?_⟩
        · simp [MonitorStrategySingle.run, MonitorStrategySingle.step,
            single_poll_not_got compress s hg, hrun]
        · intro hu; exact h2 (by simpa [unpolledAtEnd] using hu)
      | true =>
        have hb : s.buffered = sl.m_monitorElementChangeBitSet := by
          simp [MonitorStrategySingle.buffered, hg, hs]
        obtain ⟨obs, s', sl', hrun, hs', hn', h1, h2⟩ :=
          ih s sl false (seen ||| sl.m_monitorElementChangeBitSet) inp hs hn
            (by rw [hb]; exact lor_step_seen _ _ _ (hb ▸ hinv))
            (by intro _; rw [hb]; exact lor_absorb _ _) hrel'
        have hobs : orAll (observedChanged (s.element :: obs)) =
            sl.m_monitorElementChangeBitSet ||| orAll (observedChanged obs) := by
          simp [observedChanged, orAll, MonitorStrategySingle.element, hs, List.filterMap_cons]
        refine ⟨s.element :: obs, s', sl', ?_, hs', hn', ?_, ?_⟩
        · simp [MonitorStrategySingle.run, MonitorStrategySingle.step,
            single_poll_got compress s hg hn, hrun]
        · rw [hobs, ← Nat.lor_assoc seen]; exact h1
        · intro hu
          rw [hobs, ← Nat.lor_assoc seen]
          exact h2 (by simpa [unpolledAtEnd] using hu)
    | release =>
      have hrel2 : d = false ∧ releasesAfterPoll d cs = true := by
        simpa [releasesAfterPoll] using hrel
      obtain ⟨hdf, hrel'⟩ := hrel2
      have hsi : seen = inp := lor_eq_of_absorbed _ _ _ hinv (hd hdf)
      have hb : s.release.buffered = 0 := by
        simp [MonitorStrategySingle.buffered, MonitorStrategySingle.release]
      obtain ⟨obs, s', sl', hrun, hs', hn', h1, h2⟩ :=
        ih s.release sl d seen inp (by simpa [MonitorStrategySingle.release] using hs)
          (by simpa [MonitorStrategySingle.release] using hn)
          (by rw [hb]; simpa using hsi) (by intro _; rw [hb]; simp) hrel'
      refine ⟨obs, s', sl', ?_, hs', hn', h1, ?_⟩
      · simp [MonitorStrategySingle.run, MonitorStrategySingle.step, hrun]
      · intro hu; exact h2 (by simpa [unpolledAtEnd] using hu)

theorem testBit_lor_true (a b i : Nat) :
    (a ||| b).testBit i = true ↔ a.testBit i = true ∨ b.testBit i = true := by
  rw [Nat.testBit_lor]; simp

theorem lor_eq_right_of_bits (a b : Nat) (h : ∀ i, a.testBit i = true → b.testBit i = true) :
    a ||| b = b := by
  apply Nat.eq_of_testBit_eq
  intro i
  rw [Nat.testBit_lor]
  cases ha : a.testBit i with
  | false => simp
  | true => simp [h i ha]

/-- Along any call sequence no changed bit is invented: every bit observed
or buffered is a bit of some input changed set. -/
theorem single_run_subset (compress : BitSet → Structure → BitSet) :
    ∀ (calls : List MonitorCall) (s : MonitorStrategySingle) (sl : MonitorSlots)
      (seen inp : BitSet),
      s.slots = some sl → s.m_needToCompress = false →
      (∀ i, seen.testBit i = true → inp.testBit i = true) →
      (∀ i, s.buffered.testBit i = true → inp.testBit i = true) →
      ∃ obs s', MonitorStrategySingle.run compress calls s = some (obs, s') ∧
        (∀ i, (seen ||| orAll (observedChanged obs)).testBit i = true →
          (inp ||| orAll (inputChanged calls)).testBit i = true) := by
  intro calls
  induction calls with
  | nil =>
    intro s sl seen inp _ _ hseen _
    refine ⟨[], s, rfl, ?_⟩
    intro i hi
    have : seen.testBit i = true := by simpa [orAll, observedChanged] using hi
    simpa [orAll, inputChanged] using hseen i this
  | cons c cs ih =>
    intro s sl seen inp hs hn hseen hbuf
    cases c with
    | update ch ov =>
      obtain ⟨s1, sl1, hr, hs1, hn1, hb1⟩ := single_response_summary s sl ch ov hs hn
      have hseen1 : ∀ i, seen.testBit i = true → (inp ||| ch).testBit i = true := by
        intro i hi
        exact (testBit_lor_true _ _ _).2 (Or.inl (hseen i hi))
      have hbuf1 : ∀ i, s1.buffered.testBit i = true → (inp ||| ch).testBit i = true := by
        intro i hi
        rw [hb1] at hi
        cases hg : s.m_gotMonitor with
        | false =>
          rw [hg] at hi
          exact (testBit_lor_true _ _ _).2 (Or.inr (by simpa using hi))
        | true =>
          rw [hg] at hi
          have hb : s.buffered = sl.m_monitorElementChangeBitSet := by
            simp [MonitorStrategySingle.buffered, hg, hs]
          rcases (testBit_lor_true _ _ _).1 (by simpa using hi) with h | h
          · exact (testBit_lor_true _ _ _).2 (Or.inl (hbuf i (hb ▸ h)))
          · exact (testBit_lor_true _ _ _).2 (Or.inr h)
      obtain ⟨obs, s', hrun, h1⟩ := ih s1 sl1 seen (inp ||| ch) hs1 hn1 hseen1 hbuf1
      refine ⟨obs, s', ?_, ?_⟩
      · simp [MonitorStrategySingle.run, MonitorStrategySingle.step, hr, hrun]
      · intro i hi
        have := h1 i hi
        simpa [inputChanged, orAll, Nat.lor_assoc] using this
    | poll =>
      cases hg : s.m_gotMonitor with
      | false =>
        obtain ⟨obs, s', hrun, h1⟩ := ih s sl seen inp hs hn hseen hbuf
        refine ⟨obs, s', ?_, h1⟩
        simp [MonitorStrategySingle.run, MonitorStrategySingle.step,
          single_poll_not_got compress s hg, hrun]
      | true =>
        have hb : s.buffered = sl.m_monitorElementChangeBitSet := by
          simp [MonitorStrategySingle.buffered, hg, hs]
        have hseen1 : ∀ i, (seen ||| sl.m_monitorElementChangeBitSet).testBit i = true →
            inp.testBit i = true := by
          intro i hi
          rcases (testBit_lor_true _ _ _).1 hi with h | h
          · exact hseen i h
          · exact hbuf i (hb ▸ h)
        obtain ⟨obs, s', hrun, h1⟩ :=
          ih s sl (seen ||| sl.m_monitorElementChangeBitSet) inp hs hn hseen1 hbuf
        have hobs : orAll (observedChanged (s.element :: obs)) =
            sl.m_monitorElementChangeBitSet ||| orAll (observedChanged obs) := by
          simp [observedChanged, orAll, MonitorStrategySingle.element, hs, List.filterMap_cons]
        refine ⟨s.element :: obs, s', ?_, ?_⟩
        · simp [MonitorStrategySingle.run, MonitorStrategySingle.step,
            single_poll_got compress s hg hn, hrun]
        · intro i hi
          rw [hobs, ← Nat.lor_assoc seen] at hi
          exact h1 i hi
    | release =>
      have hb : s.release.buffered = 0 := by
        simp [MonitorStrategySingle.buffered, MonitorStrategySingle.release]
      obtain ⟨obs, s', hrun, h1⟩ :=
        ih s.release sl seen inp (by simpa [MonitorStrategySingle.release] using hs)
          (by simpa [MonitorStrategySingle.release] using hn) hseen
          (by intro i hi; rw [hb] at hi; simp at hi)
      refine ⟨obs, s', ?_, h1⟩
      simp [MonitorStrategySingle.run, MonitorStrategySingle.step, hrun]

theorem started_slots (st : Structure) :
    (MonitorStrategySingle.started st).slots =
      some { m_monitorElementStructure := st, m_monitorElementChangeBitSet := 0,
             m_monitorElementOverrunBitSet := 0, m_dataChangeBitSet := 0,
             m_dataOverrunBitSet := 0 } ∧
    (MonitorStrategySingle.started st).m_needToCompress = false ∧
    (MonitorStrategySingle.started st).m_gotMonitor = false ∧
    (MonitorStrategySingle.started st).buffered = 0 := by
  refine ⟨rfl, rfl, rfl, rfl⟩

theorem single_run_compress_irrelevant (compress : BitSet → Structure → BitSet) :
    ∀ (calls : List MonitorCall) (s : MonitorStrategySingle), s.m_needToCompress = false →
      MonitorStrategySingle.run compress calls s =
        MonitorStrategySingle.run (fun b _ => b) calls s := by
  intro calls
  induction calls with
  | nil => intro s _; rfl
  | cons c cs ih =>
    intro s hn
    cases c with
    | update ch ov =>
      cases hr : s.response ch ov with
      | none => simp [MonitorStrategySingle.run, MonitorStrategySingle.step, hr]
      | some s1 =>
        have hn1 : s1.m_needToCompress = false := by
          unfold MonitorStrategySingle.response at hr
          cases hsl : s.slots with
          | none => simp [hsl] at hr
          | some sl =>
            simp only [hsl] at hr
            cases hg : s.m_gotMonitor <;> simp [hg] at hr <;> rw [← hr] <;> exact hn
        simp [MonitorStrategySingle.run, MonitorStrategySingle.step, hr, ih s1 hn1]
    | poll =>
      have hp : s.poll compress = s.poll (fun b _ => b) := by
        simp [MonitorStrategySingle.poll, hn]
      have hn1 : (s.poll (fun b _ => b)).2.m_needToCompress = false := by
        cases hg : s.m_gotMonitor <;> simp [MonitorStrategySingle.poll, hn, hg]
      simp [MonitorStrategySingle.run, MonitorStrategySingle.step, hp, ih _ hn1]
    | release =>
      have hn1 : s.release.m_needToCompress = false := by
        simpa [MonitorStrategySingle.release] using hn
      simp [MonitorStrategySingle.run, MonitorStrategySingle.step, ih _ hn1]

theorem getInt_putInt (x : Nat) (rest : List Nat) :
    getInt (putInt x ++ rest) = some (toInt32 (x % 4294967296), rest) := by
  have h : x / 16777216 % 256 * 16777216 + x / 65536 % 256 * 65536 + x / 256 % 256 * 256
      + x % 256 = x % 4294967296 := by omega
  simp only [putInt, List.cons_append, List.nil_append, getInt, h]

theorem toU32_toInt32 (n : Nat) : toU32 (toInt32 n) = n % 4294967296 := by
  unfold toU32 toInt32
  split <;> omega

theorem list_length_sixteen (a : List Nat) (ha : a.length = 16) :
    ∃ b0 b1 b2 b3 b4 b5 b6 b7 b8 b9 b10 b11 b12 b13 b14 b15 : Nat,
      a = [b0, b1, b2, b3, b4, b5, b6, b7, b8, b9, b10, b11, b12, b13, b14, b15] := by
  match a, ha with
  | [b0, b1, b2, b3, b4, b5, b6, b7, b8, b9, b10, b11, b12, b13, b14, b15], _ => exact ⟨b0, b1, b2, b3, b4, b5, b6, b7, b8, b9, b10, b11, b12, b13, b14, b15, rfl⟩

theorem toInt8_eq_zero_iff (f : Nat) (hf : f < 256) : toInt8 (f : Int) = 0 ↔ f = 0 := by
  unfold toInt8
  split <;> omega

theorem toInt64_eq_zero_iff (b0 b1 b2 b3 b4 b5 b6 b7 : Nat) (h0 : b0 < 256) (h1 : b1 < 256)
    (h2 : b2 < 256) (h3 : b3 < 256) (h4 : b4 < 256) (h5 : b5 < 256) (h6 : b6 < 256)
    (h7 : b7 < 256) :
    toInt64 (b0 * 72057594037927936 + b1 * 281474976710656 + b2 * 1099511627776
      + b3 * 4294967296 + b4 * 16777216 + b5 * 65536 + b6 * 256 + b7) = 0 ↔
    (b0 = 0 ∧ b1 = 0 ∧ b2 = 0 ∧ b3 = 0 ∧ b4 = 0 ∧ b5 = 0 ∧ b6 = 0 ∧ b7 = 0) := by
  unfold toInt64
  split <;> omega

theorem toInt16_eq_zero_iff (b0 b1 : Nat) (h0 : b0 < 256) (h1 : b1 < 256) :
    toInt16 (b0 * 256 + b1) = 0 ↔ (b0 = 0 ∧ b1 = 0) := by
  unfold toInt16
  split <;> omega

theorem toInt16_eq_ffff_iff (b0 b1 : Nat) (h0 : b0 < 256) (h1 : b1 < 256) :
    toInt16 (b0 * 256 + b1) = toInt16 0xFFFF ↔ (b0 = 255 ∧ b1 = 255) := by
  unfold toInt16
  split <;> split <;> omega

theorem readCIDs_of_putInt (searchSequenceId minorRevision : Int) (serverAddress : osiSockAddr)
    (cids rest : List Nat) :
    SearchResponseHandler.readCIDs searchSequenceId minorRevision serverAddress cids.length
        (cids.flatMap putInt ++ rest) =
      (cids.map (fun cid =>
        { cid := cid % 4294967296, searchSequenceId := searchSequenceId,
          minorRevision := minorRevision, serverAddress := serverAddress }), true) := by
  induction cids with
  | nil => rfl
  | cons c cs ih =>
    have hlen : ensureData 4 (putInt c ++ (cs.flatMap putInt ++ rest)) = true := by
      simp [ensureData, putInt]
    simp only [List.length_cons, SearchResponseHandler.readCIDs, List.flatMap_cons,
      List.append_assoc, hlen, getInt_putInt, ih, toU32_toInt32, List.map_cons]
    simp

theorem RefMap.lookup_assign (m : RefMap) (k : pvAccessID) (v : Nat) (k' : pvAccessID) :
    RefMap.lookup (RefMap.assign m k v) k' = if k = k' then some v else RefMap.lookup m k' := by
  induction m with
  | nil => simp [RefMap.assign, RefMap.lookup]
  | cons e rest ih =>
    obtain ⟨k0, v0⟩ := e
    by_cases h : k0 = k
    · subst h
      by_cases h' : k0 = k' <;> simp [RefMap.assign, RefMap.lookup, h']
    · by_cases h' : k0 = k'
      · subst h'
        simp [RefMap.assign, RefMap.lookup, h, Ne.symm h]
      · simp [RefMap.assign, RefMap.lookup, h, h', ih]

theorem RefMap.lookup_remove (m : RefMap) (k k' : pvAccessID) :
    RefMap.lookup (RefMap.remove m k) k' = if k = k' then none else RefMap.lookup m k' := by
  induction m with
  | nil => simp [RefMap.remove, RefMap.lookup]
  | cons e rest ih =>
    obtain ⟨k0, v0⟩ := e
    unfold RefMap.remove at ih ⊢
    by_cases h : k0 = k
    · have hf : List.filter (fun e => e.1 != k) ((k0, v0) :: rest) =
          List.filter (fun e => e.1 != k) rest := by
        simp [List.filter_cons, h]
      rw [hf, ih]
      by_cases h' : k = k'
      · simp [h']
      · have : k0 ≠ k' := by rw [h]; exact h'
        simp [RefMap.lookup, h', this]
    · have hf : List.filter (fun e => e.1 != k) ((k0, v0) :: rest) =
          (k0, v0) :: List.filter (fun e => e.1 != k) rest := by
        simp [List.filter_cons, h]
      rw [hf]
      simp only [RefMap.lookup, ih]
      by_cases h' : k0 = k'
      · have : k ≠ k' := by rw [← h']; exact Ne.symm h
        simp [h', this]
      · simp [h']

theorem RefMap.lookup_eq_none_iff (m : RefMap) (k : pvAccessID) :
    RefMap.lookup m k = none ↔ k ∉ RefMap.keyList m := by
  induction m with
  | nil => simp [RefMap.lookup, RefMap.keyList]
  | cons e rest ih =>
    obtain ⟨k0, v0⟩ := e
    by_cases h : k0 = k
    · simp [RefMap.lookup, RefMap.keyList, h]
    · have ih' : RefMap.lookup rest k = none ↔ ∀ (x : Nat), (k, x) ∉ rest := by
        simpa [RefMap.keyList] using ih
      simp [RefMap.lookup, RefMap.keyList, h, Ne.symm h, ih']

theorem generateCIDLoop_eq : generateCIDLoop = generateIOIDLoop := by
  funext keys fuel
  induction fuel with
  | zero => funext last; rfl
  | succ n ih =>
    funext last
    simp only [generateCIDLoop, generateIOIDLoop, ih]

/-- The loop of `generateIOID` stops at the first free id: `k` increments are
enough, and more fuel changes nothing. -/
theorem generateIOIDLoop_first_free (keys : List pvAccessID) :
    ∀ (fuel last k : Nat), 1 ≤ k → k ≤ fuel →
      (∀ j, 1 ≤ j → j < k → (last + j) % 4294967296 ∈ keys) →
      (last + k) % 4294967296 ∉ keys →
      generateIOIDLoop keys fuel last = some ((last + k) % 4294967296) := by
  intro fuel
  induction fuel with
  | zero => intro last k h1 h2; omega
  | succ n ih =>
    intro last k h1 h2 hbusy hfree
    unfold generateIOIDLoop
    by_cases hk : k = 1
    · subst hk
      rw [if_neg hfree]
    · have hin : (last + 1) % 4294967296 ∈ keys := hbusy 1 (by omega) (by omega)
      rw [if_pos hin]
      have hshift : ∀ j, ((last + 1) % 4294967296 + j) % 4294967296 =
          (last + (j + 1)) % 4294967296 := by
        intro j; omega
      have := ih ((last + 1) % 4294967296) (k - 1) (by omega) (by omega)
        (by
          intro j hj1 hj2
          rw [hshift]
          exact hbusy (j + 1) (by omega) (by omega))
        (by
          rw [hshift]
          have : k - 1 + 1 = k := by omega
          rw [this]; exact hfree)
      rw [this, hshift]
      have : k - 1 + 1 = k := by omega
      rw [this]

/-- When some 32-bit id is free there is a first free id after `last`. -/
theorem exists_firstFreeAfter (free : Nat → Prop) (last : Nat)
    (h : ∃ x : Nat, x < 4294967296 ∧ free x) : ∃ k, FirstFreeAfter free last k := by
  classical
  obtain ⟨x, hx, hfx⟩ := h
  have hex : ∃ j, 1 ≤ j ∧ free ((last + j) % 4294967296) := by
    by_cases hd : (x + 4294967296 - last % 4294967296) % 4294967296 = 0
    · refine ⟨4294967296, by decide, ?_⟩
      have : (last + 4294967296) % 4294967296 = x := by omega
      rw [this]; exact hfx
    · refine ⟨(x + 4294967296 - last % 4294967296) % 4294967296, by omega, ?_⟩
      have : (last + (x + 4294967296 - last % 4294967296) % 4294967296) % 4294967296 = x := by
        omega
      rw [this]; exact hfx
  have hle : Nat.find hex ≤ 4294967296 := by
    by_contra hgt
    have hgt' : 4294967296 < Nat.find hex := by omega
    obtain ⟨h1, hf⟩ := Nat.find_spec hex
    -- the id reached after `Nat.find hex - 2^32` steps is the same id
    have hsame : (last + (Nat.find hex - 4294967296)) % 4294967296 =
        (last + Nat.find hex) % 4294967296 := by omega
    exact Nat.find_min hex (m := Nat.find hex - 4294967296) (by omega)
      ⟨by omega, by rw [hsame]; exact hf⟩
  refine ⟨Nat.find hex, (Nat.find_spec hex).1, hle, ?_, (Nat.find_spec hex).2⟩
  intro j hj1 hj2 hfj
  exact Nat.find_min hex hj2 ⟨hj1, hfj⟩

/-! ### Projections of the state changes -/

@[simp] theorem Sys.emit_channels (s : Sys) (e : Event) : (s.emit e).channels = s.channels := rfl
@[simp] theorem Sys.emit_objects (s : Sys) (e : Event) : (s.emit e).objects = s.objects := rfl
@[simp] theorem Sys.emit_context (s : Sys) (e : Event) : (s.emit e).context = s.context := rfl
@[simp] theorem Sys.emit_nextObject (s : Sys) (e : Event) :
    (s.emit e).nextObject = s.nextObject := rfl
@[simp] theorem Sys.emit_log (s : Sys) (e : Event) : (s.emit e).log = s.log ++ [e] := rfl

@[simp] theorem Sys.setChannel_objects (s : Sys) (c : Nat)
    (f : InternalChannelImpl → InternalChannelImpl) : (s.setChannel c f).objects = s.objects := rfl
@[simp] theorem Sys.setChannel_context (s : Sys) (c : Nat)
    (f : InternalChannelImpl → InternalChannelImpl) : (s.setChannel c f).context = s.context := rfl
@[simp] theorem Sys.setChannel_nextObject (s : Sys) (c : Nat)
    (f : InternalChannelImpl → InternalChannelImpl) :
    (s.setChannel c f).nextObject = s.nextObject := rfl
@[simp] theorem Sys.setChannel_log (s : Sys) (c : Nat)
    (f : InternalChannelImpl → InternalChannelImpl) : (s.setChannel c f).log = s.log := rfl
@[simp] theorem Sys.setChannel_channels_same (s : Sys) (c : Nat)
    (f : InternalChannelImpl → InternalChannelImpl) :
    (s.setChannel c f).channels c = f (s.channels c) := by
  simp [Sys.setChannel]
theorem Sys.setChannel_channels_ne (s : Sys) (c c' : Nat)
    (f : InternalChannelImpl → InternalChannelImpl) (h : c' ≠ c) :
    (s.setChannel c f).channels c' = s.channels c' := by
  simp [Sys.setChannel, Function.update, h]

@[simp] theorem Sys.updateBase_channels (s : Sys) (o : Nat)
    (f : BaseRequestImpl → BaseRequestImpl) : (s.updateBase o f).channels = s.channels := by
  unfold Sys.updateBase; split <;> rfl
@[simp] theorem Sys.updateBase_context (s : Sys) (o : Nat)
    (f : BaseRequestImpl → BaseRequestImpl) : (s.updateBase o f).context = s.context := by
  unfold Sys.updateBase; split <;> rfl
@[simp] theorem Sys.updateBase_nextObject (s : Sys) (o : Nat)
    (f : BaseRequestImpl → BaseRequestImpl) : (s.updateBase o f).nextObject = s.nextObject := by
  unfold Sys.updateBase; split <;> rfl
@[simp] theorem Sys.updateBase_log (s : Sys) (o : Nat)
    (f : BaseRequestImpl → BaseRequestImpl) : (s.updateBase o f).log = s.log := by
  unfold Sys.updateBase; split <;> rfl
theorem Sys.updateBase_objects_of_some (s : Sys) (o : Nat)
    (f : BaseRequestImpl → BaseRequestImpl) (r : ResponseRequest) (h : s.objects o = some r) :
    (s.updateBase o f).objects = Function.update s.objects o (some { r with base := f r.base }) := by
  unfold Sys.updateBase; rw [h]
theorem Sys.updateBase_isSubscriptionRequest (s : Sys) (o : Nat)
    (f : BaseRequestImpl → BaseRequestImpl) (o' : Nat) :
    (s.updateBase o f).isSubscriptionRequest o' = s.isSubscriptionRequest o' := by
  unfold Sys.updateBase Sys.isSubscriptionRequest
  cases h : s.objects o with
  | none => rfl
  | some r =>
    by_cases ho : o' = o
    · subst ho; simp [h]
    · simp [Function.update, ho]

@[simp] theorem stateChangesOf_append (a b : List Event) :
    stateChangesOf (a ++ b) = stateChangesOf a ++ stateChangesOf b := by
  simp [stateChangesOf]
@[simp] theorem resubscribesOf_append (a b : List Event) :
    resubscribesOf (a ++ b) = resubscribesOf a ++ resubscribesOf b := by
  simp [resubscribesOf]
@[simp] theorem reportsOf_append (a b : List Event) :
    reportsOf (a ++ b) = reportsOf a ++ reportsOf b := by
  simp [reportsOf]
@[simp] theorem searchRegistrationsOf_append (a b : List Event) :
    searchRegistrationsOf (a ++ b) = searchRegistrationsOf a ++ searchRegistrationsOf b := by
  simp [searchRegistrationsOf]

/-- What `resubscribeSubscription` changes: the log grows by the call and the
enqueue, channels and context stay, an object stays the kind it is. -/
theorem Sys.resubscribeSubscription_spec (s : Sys) (o : Nat) (t : Option Transport) :
    (s.resubscribeSubscription o t).channels = s.channels ∧
    (s.resubscribeSubscription o t).context = s.context ∧
    (∀ o', (s.resubscribeSubscription o t).isSubscriptionRequest o' =
      s.isSubscriptionRequest o') ∧
    (s.resubscribeSubscription o t).log = s.log ++
      [Event.resubscribeSubscription o (t.map (fun x => x.id)),
       Event.enqueueSendRequest (t.map (fun x => x.id)) (Sender.request o)] := by
  refine ⟨by simp [Sys.resubscribeSubscription], by simp [Sys.resubscribeSubscription], ?_,
    by simp [Sys.resubscribeSubscription]⟩
  intro o'
  unfold Sys.resubscribeSubscription
  have h1 : ∀ (s0 : Sys) (e : Event), (s0.emit e).isSubscriptionRequest o' =
      s0.isSubscriptionRequest o' := fun _ _ => rfl
  rw [h1, Sys.updateBase_isSubscriptionRequest, h1]

/-- The loop of `resubscribeSubscriptions`: every subscription request of the
list is resubscribed, in order, and nothing else is called. -/
theorem resubscribe_fold (t : Option Transport) (l : List Nat) :
    ∀ acc : Sys,
      (l.foldl (fun acc o => if acc.isSubscriptionRequest o then acc.resubscribeSubscription o t
                              else acc) acc).channels = acc.channels ∧
      (l.foldl (fun acc o => if acc.isSubscriptionRequest o then acc.resubscribeSubscription o t
                              else acc) acc).context = acc.context ∧
      ∃ mid, (l.foldl (fun acc o => if acc.isSubscriptionRequest o
                                     then acc.resubscribeSubscription o t else acc) acc).log =
          acc.log ++ mid ∧
        resubscribesOf mid = l.filter (fun o => acc.isSubscriptionRequest o) ∧
        stateChangesOf mid = [] := by
  induction l with
  | nil => intro acc; exact ⟨rfl, rfl, [], by simp, rfl, rfl⟩
  | cons o rest ih =>
    intro acc
    simp only [List.foldl_cons]
    by_cases h : acc.isSubscriptionRequest o = true
    · obtain ⟨hc, hx, hsub, hlog⟩ := Sys.resubscribeSubscription_spec acc o t
      obtain ⟨ic, ix, mid, il, ir, istate⟩ := ih (acc.resubscribeSubscription o t)
      simp only [h, if_true]
      refine ⟨by rw [ic, hc], by rw [ix, hx],
        [Event.resubscribeSubscription o (t.map (fun x => x.id)),
         Event.enqueueSendRequest (t.map (fun x => x.id)) (Sender.request o)] ++ mid,
        by rw [il, hlog, List.append_assoc], ?_, ?_⟩
      · simp only [resubscribesOf_append, ir, List.filter_cons, h, if_true, hsub]
        simp [resubscribesOf]
      · simp only [stateChangesOf_append, istate]
        simp [stateChangesOf]
    · obtain ⟨ic, ix, mid, il, ir, istate⟩ := ih acc
      simp only [h]
      refine ⟨ic, ix, mid, il, ?_, istate⟩
      rw [ir, List.filter_cons]
      simp [h]

/-- What `resubscribeSubscriptions` does: the registered subscription requests
are resubscribed in the order of the map; channels and context stay. -/
theorem Sys.resubscribeSubscriptions_spec (s : Sys) (c : Nat) :
    (s.resubscribeSubscriptions c).channels = s.channels ∧
    (s.resubscribeSubscriptions c).context = s.context ∧
    ∃ mid, (s.resubscribeSubscriptions c).log = s.log ++ mid ∧
      resubscribesOf mid =
        (RefMap.valueList (s.channels c).m_responseRequests).filter
          (fun o => s.isSubscriptionRequest o) ∧
      stateChangesOf mid = [] :=
  resubscribe_fold (s.channels c).m_transport
    (RefMap.valueList (s.channels c).m_responseRequests) s

/-- The body of `connectionCompleted` on a channel that is not DESTROYED. -/
theorem Sys.connectionCompleted_of_not_destroyed (s : Sys) (c : Nat) (sid : pvAccessID)
    (h : (s.channels c).m_connectionState ≠ ConnectionState.DESTROYED) :
    s.connectionCompleted c sid =
      ((s.setChannel c (fun ch => { ch with m_serverChannelID := sid })).resubscribeSubscriptions
        c).setConnectionState c ConnectionState.CONNECTED := by
  unfold Sys.connectionCompleted
  rw [if_neg h]

/-! ### Registries -/

theorem RefMap.remove_of_lookup_none (m : RefMap) (k : pvAccessID)
    (h : RefMap.lookup m k = none) : RefMap.remove m k = m := by
  rw [RefMap.lookup_eq_none_iff] at h
  unfold RefMap.remove
  rw [List.filter_eq_self]
  intro e he
  have : e.1 ≠ k := by
    intro hk
    apply h
    rw [← hk]
    exact List.mem_map_of_mem (fun e => e.1) he
  simpa using this

theorem RefMap.assign_assign (m : RefMap) (k : pvAccessID) (v w : Nat) :
    RefMap.assign (RefMap.assign m k v) k w = RefMap.assign m k w := by
  induction m with
  | nil => simp [RefMap.assign]
  | cons e rest ih =>
    obtain ⟨k0, v0⟩ := e
    by_cases h : k0 = k
    · simp [RefMap.assign, h]
    · simp [RefMap.assign, h, ih]

theorem RefMap.length_assign_le (m : RefMap) (k : pvAccessID) (v : Nat) :
    (RefMap.assign m k v).length ≤ m.length + 1 := by
  induction m with
  | nil => simp [RefMap.assign]
  | cons e rest ih =>
    obtain ⟨k0, v0⟩ := e
    by_cases h : k0 = k
    · simp [RefMap.assign, h]
    · simp [RefMap.assign, h]
      exact ih

theorem RefMap.length_remove_le (m : RefMap) (k : pvAccessID) :
    (RefMap.remove m k).length ≤ m.length :=
  List.length_filter_le _ _

/-- Fewer than 2^32 keys leave a 32-bit id free. -/
theorem exists_free_id (keys : List Nat) (h : keys.length < 4294967296) :
    ∃ x : Nat, x < 4294967296 ∧ x ∉ keys := by
  by_contra hno
  push_neg at hno
  have hsub : Finset.range 4294967296 ⊆ keys.toFinset := by
    intro x hx
    rw [List.mem_toFinset]
    exact hno x (Finset.mem_range.mp hx)
  have h1 := Finset.card_le_card hsub
  rw [Finset.card_range] at h1
  have h2 := List.toFinset_card_le keys
  omega

theorem generateIOIDLoop_not_mem (keys : List pvAccessID) :
    ∀ (fuel : Nat) (last i : Nat), generateIOIDLoop keys fuel last = some i → i ∉ keys := by
  intro fuel
  induction fuel with
  | zero => intro last i h; simp [generateIOIDLoop] at h
  | succ n ih =>
    intro last i h
    unfold generateIOIDLoop at h
    by_cases hin : (last + 1) % 4294967296 ∈ keys
    · rw [if_pos hin] at h
      exact ih _ _ h
    · rw [if_neg hin] at h
      have : (last + 1) % 4294967296 = i := by simpa using h
      rw [← this]; exact hin

/-- With fewer than 2^32 ids taken the loop of `generateIOID` ends within 2^32
increments, at a free id. -/
theorem generateIOIDLoop_total (keys : List pvAccessID) (last : Nat)
    (h : keys.length < 4294967296) :
    ∃ i : Nat, generateIOIDLoop keys 4294967296 last = some i ∧ i ∉ keys := by
  obtain ⟨k, h1, h2, hbusy, hfree⟩ :=
    exists_firstFreeAfter (fun x => x ∉ keys) last (exists_free_id keys h)
  have hrun := generateIOIDLoop_first_free keys 4294967296 last k h1 h2
    (fun j hj1 hj2 => not_not.mp (hbusy j hj1 hj2)) hfree
  exact ⟨_, hrun, hfree⟩

theorem InternalClientContextImpl.registerResponseRequest_total
    (c : InternalClientContextImpl) (request : Nat)
    (h : c.m_pendingResponseRequests.length < 4294967296) :
    ∃ ioid : Nat, ioid ∉ RefMap.keyList c.m_pendingResponseRequests ∧
      c.registerResponseRequest 4294967296 request =
        some (ioid, { c with m_lastIOID := ioid,
                             m_pendingResponseRequests :=
                               RefMap.assign c.m_pendingResponseRequests ioid request }) := by
  have hlen : (RefMap.keyList c.m_pendingResponseRequests).length < 4294967296 := by
    simpa [RefMap.keyList] using h
  obtain ⟨i, hi, hfree⟩ := generateIOIDLoop_total _ c.m_lastIOID hlen
  refine ⟨i, hfree, ?_⟩
  unfold InternalClientContextImpl.registerResponseRequest
    InternalClientContextImpl.generateIOID
  rw [hi]
  simp [RefMap.assign_assign]

theorem InternalClientContextImpl.unregisterResponseRequest_snd
    (c : InternalClientContextImpl) (ioid : pvAccessID) :
    (c.unregisterResponseRequest ioid).2 =
      { c with m_pendingResponseRequests := RefMap.remove c.m_pendingResponseRequests ioid } := by
  unfold InternalClientContextImpl.unregisterResponseRequest
  cases h : RefMap.lookup c.m_pendingResponseRequests ioid with
  | none => simp [RefMap.remove_of_lookup_none _ _ h]
  | some v => rfl

/-! ### Response requests -/

@[simp] theorem BaseRequestImpl.startRequest_ioid (b : BaseRequestImpl) (q : Int) :
    (b.startRequest q).2.m_ioid = b.m_ioid := by
  unfold BaseRequestImpl.startRequest; split <;> rfl
@[simp] theorem BaseRequestImpl.startRequest_destroyed (b : BaseRequestImpl) (q : Int) :
    (b.startRequest q).2.m_destroyed = b.m_destroyed := by
  unfold BaseRequestImpl.startRequest; split <;> rfl
@[simp] theorem BaseRequestImpl.release_ioid (b : BaseRequestImpl) :
    b.release.m_ioid = b.m_ioid := rfl
@[simp] theorem BaseRequestImpl.release_destroyed (b : BaseRequestImpl) :
    b.release.m_destroyed = b.m_destroyed := rfl

theorem Sys.updateBase_objects (s : Sys) (o : Nat) (f : BaseRequestImpl → BaseRequestImpl) :
    (s.updateBase o f).objects =
      Function.update s.objects o ((s.objects o).map (fun r => { r with base := f r.base })) := by
  unfold Sys.updateBase
  cases h : s.objects o with
  | none =>
    funext x
    by_cases hx : x = o
    · subst hx; simp [h]
    · simp [Function.update, hx]
  | some r => rfl

/-- What `destroy()` of a live response request changes: the object is marked
destroyed and keeps its IOID and channel, its IOID leaves the context map and
the map of its channel, and no `reportStatus` or `channelStateChange` call is
made. -/
theorem Sys.requestDestroy_spec (s : Sys) (o : Nat) (r : ResponseRequest)
    (h : s.objects o = some r) (hd : r.base.m_destroyed = false) :
    (∃ b : BaseRequestImpl, b.m_ioid = r.base.m_ioid ∧ b.m_destroyed = true ∧
      (s.requestDestroy o).objects = Function.update s.objects o (some { r with base := b })) ∧
    (s.requestDestroy o).context =
      { s.context with
        m_pendingResponseRequests :=
          RefMap.remove s.context.m_pendingResponseRequests r.base.m_ioid } ∧
    (s.requestDestroy o).channels =
      Function.update s.channels r.m_channel
        { s.channels r.m_channel with
          m_responseRequests :=
            RefMap.remove (s.channels r.m_channel).m_responseRequests r.base.m_ioid } ∧
    (s.requestDestroy o).nextObject = s.nextObject ∧
    ∃ mid, (s.requestDestroy o).log = s.log ++ mid ∧ reportsOf mid = [] ∧
      stateChangesOf mid = [] := by
  unfold Sys.requestDestroy
  rw [h]
  simp only [hd, Bool.false_eq_true, if_false]
  by_cases hsub : (r.isSubscriptionRequest && r.base.m_initialized) = true
  · rw [if_pos hsub]
    split
    · rename_i t _
      refine ⟨⟨((({ r.base with m_destroyed := true } : BaseRequestImpl).startRequest
          PURE_DESTROY_REQUEST).2).release, by simp, by simp, ?_⟩, ?_, ?_, ?_,
        [Event.enqueueSendRequest (t.map (fun x => x.id)) (Sender.request o)], ?_, rfl, rfl⟩
      · simp [Sys.updateBase_objects, h, Sys.setChannel]
      · simp [InternalClientContextImpl.unregisterResponseRequest_snd, Sys.setChannel]
      · simp [Sys.setChannel]
      · simp [Sys.setChannel]
      · simp [Sys.setChannel]
    · refine ⟨⟨((({ r.base with m_destroyed := true } : BaseRequestImpl).startRequest
          PURE_DESTROY_REQUEST).2).release, by simp, by simp, ?_⟩, ?_, ?_, ?_, [], ?_, rfl, rfl⟩
      · simp [Sys.updateBase_objects, h, Sys.setChannel]
      · simp [InternalClientContextImpl.unregisterResponseRequest_snd, Sys.setChannel]
      · simp [Sys.setChannel]
      · simp [Sys.setChannel]
      · simp [Sys.setChannel]
  · rw [if_neg hsub]
    refine ⟨⟨({ r.base with m_destroyed := true } : BaseRequestImpl).release, by simp, by simp,
      ?_⟩, ?_, ?_, ?_, [], ?_, rfl, rfl⟩
    · simp [Sys.updateBase_objects, h, Sys.setChannel]
    · simp [InternalClientContextImpl.unregisterResponseRequest_snd, Sys.setChannel]
    · simp [Sys.setChannel]
    · simp [Sys.setChannel]
    · simp [Sys.setChannel]

/-! ### The registries stay consistent -/

/-- What a constructor of a response request changes, when fewer than 2^32
IOIDs are taken: a new object with a free IOID, registered under it in the
context map and in the map of its channel. -/
theorem Sys.newRequest_spec (s : Sys) (c : Nat) (sub : Bool) (early : Option Status)
    (hlen : s.context.m_pendingResponseRequests.length < 4294967296) :
    ∃ (s1 : Sys) (ioid : Nat) (b : BaseRequestImpl),
      s.newRequest 4294967296 c sub early = some s1 ∧
      ioid ∉ RefMap.keyList s.context.m_pendingResponseRequests ∧
      b.m_ioid = ioid ∧ b.m_destroyed = false ∧
      s1.objects = Function.update s.objects s.nextObject
        (some { isSubscriptionRequest := sub, m_channel := c, base := b }) ∧
      s1.context =
        { s.context with
          m_lastIOID := ioid,
          m_pendingResponseRequests :=
            RefMap.assign s.context.m_pendingResponseRequests ioid s.nextObject } ∧
      s1.channels = Function.update s.channels c
        { s.channels c with
          m_responseRequests :=
            RefMap.assign (s.channels c).m_responseRequests ioid s.nextObject } ∧
      s1.nextObject = s.nextObject + 1 := by
  obtain ⟨ioid, hfree, hreg⟩ :=
    InternalClientContextImpl.registerResponseRequest_total s.context s.nextObject hlen
  unfold Sys.newRequest
  rw [hreg]
  simp only []
  cases early with
  | some status =>
    refine ⟨_, ioid, ⟨ioid, false, false, NULL_REQUEST, 1, Status.OK⟩, rfl, hfree, rfl, rfl,
      ?_, ?_, ?_, ?_⟩
    · simp [Sys.setChannel]
    · simp [Sys.setChannel]
    · simp [Sys.setChannel]
    · simp [Sys.setChannel]
  | none =>
    simp only []
    split
    · by_cases hsub : sub = true
      · rw [if_pos hsub]
        refine ⟨_, ioid, ((⟨ioid, false, false, NULL_REQUEST, 1, Status.OK⟩ :
            BaseRequestImpl).startRequest QOS_INIT).2, rfl, hfree, by simp, by simp,
          ?_, ?_, ?_, ?_⟩
        · simp [Sys.resubscribeSubscription, Sys.updateBase_objects, Sys.setChannel]
        · simp [Sys.resubscribeSubscription, Sys.setChannel]
        · simp [Sys.resubscribeSubscription, Sys.setChannel]
        · simp [Sys.resubscribeSubscription, Sys.setChannel]
      · rw [if_neg hsub]
        refine ⟨_, ioid, ⟨ioid, false, false, NULL_REQUEST, 1, Status.OK⟩, rfl, hfree, rfl, rfl,
          ?_, ?_, ?_, ?_⟩
        · simp [Sys.setChannel]
        · simp [Sys.setChannel]
        · simp [Sys.setChannel]
        · simp [Sys.setChannel]
    · refine ⟨_, ioid, ⟨ioid, false, false, NULL_REQUEST, 1, Status.OK⟩, rfl, hfree, rfl, rfl,
        ?_, ?_, ?_, ?_⟩
      · simp [Sys.setChannel]
      · simp [Sys.setChannel]
      · simp [Sys.setChannel]
      · simp [Sys.setChannel]

theorem consistent_initial : Consistent Sys.initial := by
  refine ⟨?_, ?_, ?_, ?_⟩
  · intro i o h; simp [Sys.initial, RefMap.lookup] at h
  · intro c i o h; simp [Sys.initial, InternalChannelImpl.blank, RefMap.lookup] at h
  · intro o r h; simp [Sys.initial] at h
  · intro o _; rfl

/-- The registries agree after `destroy()` of any response request object. -/
theorem Consistent.requestDestroy (s : Sys) (hs : Consistent s) (o : Nat) :
    Consistent (s.requestDestroy o) := by
  cases h : s.objects o with
  | none => unfold Sys.requestDestroy; rw [h]; exact hs
  | some r =>
    cases hd : r.base.m_destroyed with
    | true => unfold Sys.requestDestroy; rw [h]; simp only [hd, if_true]; exact hs
    | false =>
      obtain ⟨ha, hb, hc, hn⟩ := hs
      obtain ⟨⟨b, hbi, hbd, hobj⟩, hctx, hch, hnext, -⟩ := Sys.requestDestroy_spec s o r h hd
      have hobj1 : ∀ x, (s.requestDestroy o).objects x =
          if x = o then some { r with base := b } else s.objects x := by
        intro x; rw [hobj, Function.update_apply]
      have hctx1 : ∀ i, RefMap.lookup (s.requestDestroy o).context.m_pendingResponseRequests i =
          if r.base.m_ioid = i then none
          else RefMap.lookup s.context.m_pendingResponseRequests i := by
        intro i; rw [hctx]; exact RefMap.lookup_remove _ _ _
      have hch1 : ∀ c i, RefMap.lookup ((s.requestDestroy o).channels c).m_responseRequests i =
          if c = r.m_channel ∧ r.base.m_ioid = i then none
          else RefMap.lookup (s.channels c).m_responseRequests i := by
        intro c i
        rw [hch, Function.update_apply]
        by_cases hcc : c = r.m_channel
        · subst hcc
          rw [if_pos rfl]
          simp only [RefMap.lookup_remove, true_and]
        · rw [if_neg hcc, if_neg (fun hh => hcc hh.1)]
      have hreg : RefMap.lookup s.context.m_pendingResponseRequests r.base.m_ioid = some o :=
        hc o r h hd
      refine ⟨?_, ?_, ?_, ?_⟩
      · intro i o1 hl
        rw [hctx1] at hl
        by_cases hi : r.base.m_ioid = i
        · rw [if_pos hi] at hl; cases hl
        · rw [if_neg hi] at hl
          obtain ⟨r1, hr1, hri, hrd, hrc⟩ := ha i o1 hl
          have ho : o1 ≠ o := by
            intro e; subst e; rw [h] at hr1; cases hr1; exact hi hri
          refine ⟨r1, by rw [hobj1, if_neg ho]; exact hr1, hri, hrd, ?_⟩
          rw [hch1, if_neg (fun hh => hi hh.2)]; exact hrc
      · intro c i o1 hl
        rw [hch1] at hl
        by_cases hci : c = r.m_channel ∧ r.base.m_ioid = i
        · rw [if_pos hci] at hl; cases hl
        · rw [if_neg hci] at hl
          obtain ⟨hx, r1, hr1, hrc⟩ := hb c i o1 hl
          have hi : r.base.m_ioid ≠ i := by
            intro e
            rw [← e, hreg] at hx
            cases hx
            rw [h] at hr1; cases hr1
            exact hci ⟨hrc.symm, e⟩
          refine ⟨by rw [hctx1, if_neg hi]; exact hx, ?_⟩
          by_cases ho : o1 = o
          · subst ho
            rw [h] at hr1; cases hr1
            exact ⟨{ r with base := b }, by rw [hobj1, if_pos rfl], hrc⟩
          · exact ⟨r1, by rw [hobj1, if_neg ho]; exact hr1, hrc⟩
      · intro o1 r1 hr1 hnd
        rw [hobj1] at hr1
        by_cases ho : o1 = o
        · rw [if_pos ho] at hr1
          cases hr1
          simp [hbd] at hnd
        · rw [if_neg ho] at hr1
          have hl := hc o1 r1 hr1 hnd
          have hi : r.base.m_ioid ≠ r1.base.m_ioid := by
            intro e
            rw [← e, hreg] at hl
            cases hl
            exact ho rfl
          rw [hctx1, if_neg hi]; exact hl
      · intro x hx
        rw [hnext] at hx
        have hxo : x ≠ o := by
          intro e; subst e
          rw [hn x hx] at h; cases h
        rw [hobj1, if_neg hxo]; exact hn x hx

/-- A constructor of a response request ends, with fewer than 2^32 IOIDs
taken, and the registries agree after it. -/
theorem Consistent.newRequest (s : Sys) (hs : Consistent s) (c : Nat) (sub : Bool)
    (early : Option Status) (hlen : s.context.m_pendingResponseRequests.length < 4294967296) :
    ∃ s1, s.newRequest 4294967296 c sub early = some s1 ∧ Consistent s1 ∧
      s1.context.m_pendingResponseRequests.length ≤
        s.context.m_pendingResponseRequests.length + 1 := by
  obtain ⟨ha, hb, hc, hn⟩ := hs
  obtain ⟨s1, ioid, b, hrun, hfree, hbi, hbd, hobj, hctx, hch, hnext⟩ :=
    Sys.newRequest_spec s c sub early hlen
  refine ⟨s1, hrun, ?_, ?_⟩
  swap
  · rw [hctx]; exact RefMap.length_assign_le _ _ _
  have hfresh : RefMap.lookup s.context.m_pendingResponseRequests ioid = none :=
    (RefMap.lookup_eq_none_iff _ _).mpr hfree
  have hnone : s.objects s.nextObject = none := hn _ (Nat.le_refl _)
  have hobj1 : ∀ x, s1.objects x =
      if x = s.nextObject then
        some { isSubscriptionRequest := sub, m_channel := c, base := b }
      else s.objects x := by
    intro x; rw [hobj, Function.update_apply]
  have hctx1 : ∀ i, RefMap.lookup s1.context.m_pendingResponseRequests i =
      if ioid = i then some s.nextObject
      else RefMap.lookup s.context.m_pendingResponseRequests i := by
    intro i; rw [hctx]; exact RefMap.lookup_assign _ _ _ _
  have hch1 : ∀ c1 i, RefMap.lookup (s1.channels c1).m_responseRequests i =
      if c1 = c ∧ ioid = i then some s.nextObject
      else RefMap.lookup (s.channels c1).m_responseRequests i := by
    intro c1 i
    rw [hch, Function.update_apply]
    by_cases hcc : c1 = c
    · subst hcc
      rw [if_pos rfl]
      simp only [RefMap.lookup_assign, true_and]
    · rw [if_neg hcc, if_neg (fun hh => hcc hh.1)]
  refine ⟨?_, ?_, ?_, ?_⟩
  · intro i o1 hl
    rw [hctx1] at hl
    by_cases hi : ioid = i
    · rw [if_pos hi] at hl
      cases hl
      refine ⟨_, by rw [hobj1, if_pos rfl], by rw [← hi]; exact hbi, hbd, ?_⟩
      rw [hch1, if_pos ⟨rfl, hi⟩]
    · rw [if_neg hi] at hl
      obtain ⟨r1, hr1, hri, hrd, hrc⟩ := ha i o1 hl
      have ho : o1 ≠ s.nextObject := by
        intro e; subst e; rw [hnone] at hr1; cases hr1
      refine ⟨r1, by rw [hobj1, if_neg ho]; exact hr1, hri, hrd, ?_⟩
      rw [hch1, if_neg (fun hh => hi hh.2)]; exact hrc
  · intro c1 i o1 hl
    rw [hch1] at hl
    by_cases hci : c1 = c ∧ ioid = i
    · rw [if_pos hci] at hl
      cases hl
      refine ⟨by rw [hctx1, if_pos hci.2], _, by rw [hobj1, if_pos rfl], hci.1.symm⟩
    · rw [if_neg hci] at hl
      obtain ⟨hx, r1, hr1, hrc⟩ := hb c1 i o1 hl
      have hi : ioid ≠ i := by
        intro e; rw [← e, hfresh] at hx; cases hx
      have ho : o1 ≠ s.nextObject := by
        intro e; subst e; rw [hnone] at hr1; cases hr1
      exact ⟨by rw [hctx1, if_neg hi]; exact hx, r1, by rw [hobj1, if_neg ho]; exact hr1, hrc⟩
  · intro o1 r1 hr1 hnd
    rw [hobj1] at hr1
    by_cases ho : o1 = s.nextObject
    · rw [if_pos ho] at hr1
      cases hr1
      rw [hctx1, if_pos hbi.symm, ho]
    · rw [if_neg ho] at hr1
      have hl := hc o1 r1 hr1 hnd
      have hi : ioid ≠ r1.base.m_ioid := by
        intro e; rw [← e, hfresh] at hl; cases hl
      rw [hctx1, if_neg hi]; exact hl
  · intro x hx
    rw [hnext] at hx
    have hxo : x ≠ s.nextObject := by omega
    rw [hobj1, if_neg hxo]; exact hn x (by omega)

/-- A run of constructions and destroys ends, and the registries agree after
it, when the IOIDs taken at the start and the steps together are fewer than
2^32. -/
theorem Consistent.requestRun (steps : List RequestStep) :
    ∀ s : Sys, Consistent s →
      s.context.m_pendingResponseRequests.length + steps.length < 4294967296 →
      ∃ s1, s.requestRun 4294967296 steps = some s1 ∧ Consistent s1 := by
  induction steps with
  | nil => intro s hs _; exact ⟨s, rfl, hs⟩
  | cons step rest ih =>
    intro s hs hlen
    simp only [List.length_cons] at hlen
    cases step with
    | construct c sub early =>
      obtain ⟨s1, hrun, hs1, hl1⟩ := Consistent.newRequest s hs c sub early (by omega)
      obtain ⟨s2, hrun2, hs2⟩ := ih s1 hs1 (by omega)
      refine ⟨s2, ?_, hs2⟩
      simp only [Sys.requestRun, Sys.requestStep, hrun]
      exact hrun2
    | destroy o =>
      have hs1 := Consistent.requestDestroy s hs o
      have hl1 : (s.requestDestroy o).context.m_pendingResponseRequests.length ≤
          s.context.m_pendingResponseRequests.length := by
        cases h : s.objects o with
        | none => unfold Sys.requestDestroy; rw [h]
        | some r =>
          cases hd : r.base.m_destroyed with
          | true => unfold Sys.requestDestroy; rw [h]; simp only [hd, if_true]; exact Nat.le_refl _
          | false =>
            rw [(Sys.requestDestroy_spec s o r h hd).2.1]
            exact RefMap.length_remove_le _ _
      obtain ⟨s2, hrun2, hs2⟩ := ih (s.requestDestroy o) hs1 (by omega)
      refine ⟨s2, ?_, hs2⟩
      simp only [Sys.requestRun, Sys.requestStep]
      exact hrun2

/-! ### Destroying a channel -/

theorem RefMap.eq_nil_of_lookup_none (m : RefMap) (h : ∀ i, RefMap.lookup m i = none) :
    m = [] := by
  cases m with
  | nil => rfl
  | cons e rest =>
    have := h e.1
    simp [RefMap.lookup] at this

/-- What `reportStatus(channelDestroyed)` does on a live response request: the
call is recorded, then the request destroys itself. -/
theorem Sys.reportStatus_destroyed_spec (s : Sys) (o : Nat) (r : ResponseRequest)
    (h : s.objects o = some r) (hd : r.base.m_destroyed = false) :
    (∃ b : BaseRequestImpl, b.m_destroyed = true ∧
      (s.reportStatus o channelDestroyed).objects =
        Function.update s.objects o (some { r with base := b })) ∧
    (s.reportStatus o channelDestroyed).context.m_pendingResponseRequests =
      RefMap.remove s.context.m_pendingResponseRequests r.base.m_ioid ∧
    (∀ c, ((s.reportStatus o channelDestroyed).channels c).m_responseRequests =
      if c = r.m_channel then RefMap.remove (s.channels c).m_responseRequests r.base.m_ioid
      else (s.channels c).m_responseRequests) ∧
    reportsOf (s.reportStatus o channelDestroyed).log =
      reportsOf s.log ++ [(o, channelDestroyed)] := by
  have hrun : s.reportStatus o channelDestroyed =
      (s.emit (Event.reportStatus o channelDestroyed)).requestDestroy o := by
    unfold Sys.reportStatus
    simp only [Sys.emit_objects, h, if_true]
  obtain ⟨⟨b, -, hbd, hobj⟩, hctx, hch, -, mid, hlog, hrep, -⟩ :=
    Sys.requestDestroy_spec (s.emit (Event.reportStatus o channelDestroyed)) o r h hd
  rw [hrun]
  refine ⟨⟨b, hbd, hobj⟩, by rw [hctx]; rfl, ?_, ?_⟩
  · intro c
    rw [hch, Function.update_apply]
    by_cases hc : c = r.m_channel
    · subst hc; simp
    · simp [hc]
  · rw [hlog, reportsOf_append, hrep, Sys.emit_log, reportsOf_append]
    simp only [List.append_nil]
    rfl

/-- The loop of `disconnectPendingIO(true)` over the entries `l` of a channel
map: each object is reported to once, in order, and destroys itself. -/
theorem destroy_fold (c : Nat) (l : RefMap) :
    ∀ acc : Sys, (RefMap.keyList l).Nodup →
      (∀ e ∈ l, ∃ r, acc.objects e.2 = some r ∧ r.base.m_ioid = e.1 ∧ r.m_channel = c ∧
        r.base.m_destroyed = false) →
      reportsOf ((RefMap.valueList l).foldl
          (fun acc o => acc.reportStatus o channelDestroyed) acc).log =
        reportsOf acc.log ++ (RefMap.valueList l).map (fun o => (o, channelDestroyed)) ∧
      (∀ e ∈ l, ∃ r, ((RefMap.valueList l).foldl
          (fun acc o => acc.reportStatus o channelDestroyed) acc).objects e.2 = some r ∧
        r.base.m_destroyed = true) ∧
      (∀ x, x ∉ RefMap.valueList l → ((RefMap.valueList l).foldl
          (fun acc o => acc.reportStatus o channelDestroyed) acc).objects x = acc.objects x) ∧
      (∀ k, RefMap.lookup (((RefMap.valueList l).foldl
          (fun acc o => acc.reportStatus o channelDestroyed) acc).channels c).m_responseRequests k =
        if k ∈ RefMap.keyList l then none
        else RefMap.lookup (acc.channels c).m_responseRequests k) ∧
      (∀ k, RefMap.lookup ((RefMap.valueList l).foldl
          (fun acc o => acc.reportStatus o channelDestroyed) acc).context.m_pendingResponseRequests k =
        if k ∈ RefMap.keyList l then none
        else RefMap.lookup acc.context.m_pendingResponseRequests k) := by
  induction l with
  | nil =>
    intro acc _ _
    simp [RefMap.valueList, RefMap.keyList]
  | cons e rest ih =>
    intro acc hnd hv
    obtain ⟨i, o⟩ := e
    have hnd1 : i ∉ RefMap.keyList rest ∧ (RefMap.keyList rest).Nodup := by
      simpa [RefMap.keyList] using hnd
    obtain ⟨r, hr, hri, hrc, hrd⟩ := hv (i, o) (List.mem_cons_self _ _)
    simp only at hr hri
    obtain ⟨⟨b, hbd, hobj⟩, hctx, hch, hrep⟩ := Sys.reportStatus_destroyed_spec acc o r hr hrd
    -- the other entries name other objects
    have hother : ∀ e ∈ rest, e.2 ≠ o := by
      intro e he heq
      obtain ⟨r1, hr1, hri1, -, -⟩ := hv e (List.mem_cons_of_mem _ he)
      rw [heq, hr] at hr1
      cases hr1
      apply hnd1.1
      rw [← hri, hri1]
      exact List.mem_map_of_mem (fun e => e.1) he
    have hnotin : o ∉ RefMap.valueList rest := by
      intro hm
      obtain ⟨e, he, heq⟩ := List.mem_map.mp hm
      exact hother e he heq
    have hv1 : ∀ e ∈ rest, ∃ r1, (acc.reportStatus o channelDestroyed).objects e.2 = some r1 ∧
        r1.base.m_ioid = e.1 ∧ r1.m_channel = c ∧ r1.base.m_destroyed = false := by
      intro e he
      obtain ⟨r1, hr1, hrest⟩ := hv e (List.mem_cons_of_mem _ he)
      refine ⟨r1, ?_, hrest⟩
      rw [hobj, Function.update_apply, if_neg (hother e he)]
      exact hr1
    obtain ⟨irep, idest, isame, ich, ictx⟩ := ih (acc.reportStatus o channelDestroyed) hnd1.2 hv1
    have hfold : (RefMap.valueList ((i, o) :: rest)).foldl
        (fun acc o => acc.reportStatus o channelDestroyed) acc =
        (RefMap.valueList rest).foldl (fun acc o => acc.reportStatus o channelDestroyed)
          (acc.reportStatus o channelDestroyed) := rfl
    rw [hfold]
    refine ⟨?_, ?_, ?_, ?_, ?_⟩
    · rw [irep, hrep]
      simp [RefMap.valueList]
    · intro e he
      rcases List.mem_cons.mp he with heq | hin
      · subst heq
        refine ⟨{ r with base := b }, ?_, hbd⟩
        rw [isame o hnotin, hobj, Function.update_same]
      · exact idest e hin
    · intro x hx
      have hx1 : x ≠ o ∧ x ∉ RefMap.valueList rest := by
        simpa [RefMap.valueList] using hx
      rw [isame x hx1.2, hobj, Function.update_apply, if_neg hx1.1]
    · intro k
      rw [ich k, hch c, if_pos hrc.symm, RefMap.lookup_remove, hri]
      by_cases hk : i = k
      · subst hk; simp [RefMap.keyList]
      · by_cases hk2 : k ∈ RefMap.keyList rest
        · simp [RefMap.keyList] at hk2 ⊢
          simp [hk2]
        · have hk3 : k ∉ RefMap.keyList ((i, o) :: rest) := by
            simp only [RefMap.keyList, List.map_cons, List.mem_cons, not_or]
            exact ⟨Ne.symm hk, hk2⟩
          rw [if_neg hk2, if_neg hk, if_neg hk3]
    · intro k
      rw [ictx k, hctx, RefMap.lookup_remove, hri]
      by_cases hk : i = k
      · subst hk; simp [RefMap.keyList]
      · by_cases hk2 : k ∈ RefMap.keyList rest
        · simp [RefMap.keyList] at hk2 ⊢
          simp [hk2]
        · have hk3 : k ∉ RefMap.keyList ((i, o) :: rest) := by
            simp only [RefMap.keyList, List.map_cons, List.mem_cons, not_or]
            exact ⟨Ne.symm hk, hk2⟩
          rw [if_neg hk2, if_neg hk, if_neg hk3]

theorem KeepsRequests.refl (c : Nat) (x : Sys) : KeepsRequests c x x :=
  ⟨rfl, rfl, rfl, rfl⟩

theorem KeepsRequests.trans (c : Nat) (x y z : Sys) (h1 : KeepsRequests c x y)
    (h2 : KeepsRequests c y z) : KeepsRequests c x z :=
  ⟨h2.1.trans h1.1, h2.2.1.trans h1.2.1, h2.2.2.1.trans h1.2.2.1, h2.2.2.2.trans h1.2.2.2⟩

theorem KeepsRequests.emit (c : Nat) (x : Sys) (e : Event) (h : reportsOf [e] = []) :
    KeepsRequests c x (x.emit e) := by
  refine ⟨rfl, rfl, rfl, ?_⟩
  rw [Sys.emit_log, reportsOf_append, h, List.append_nil]

theorem KeepsRequests.setChannel (c : Nat) (x : Sys) (c1 : Nat)
    (f : InternalChannelImpl → InternalChannelImpl)
    (h : ∀ ch, (f ch).m_responseRequests = ch.m_responseRequests) :
    KeepsRequests c x (x.setChannel c1 f) := by
  refine ⟨rfl, rfl, ?_, rfl⟩
  by_cases hc : c = c1
  · subst hc; rw [Sys.setChannel_channels_same, h]
  · rw [Sys.setChannel_channels_ne _ _ _ _ hc]

theorem KeepsRequests.setChannel_emit (c : Nat) (x : Sys) (c1 : Nat)
    (f : InternalChannelImpl → InternalChannelImpl) (e : Event)
    (h : ∀ ch, (f ch).m_responseRequests = ch.m_responseRequests) (he : reportsOf [e] = []) :
    KeepsRequests c x ((x.setChannel c1 f).emit e) :=
  KeepsRequests.trans c x (x.setChannel c1 f) ((x.setChannel c1 f).emit e)
    (KeepsRequests.setChannel c x c1 f h) (KeepsRequests.emit c (x.setChannel c1 f) e he)

theorem KeepsRequests.emit_setChannel (c : Nat) (x : Sys) (c1 : Nat)
    (f : InternalChannelImpl → InternalChannelImpl) (e : Event)
    (h : ∀ ch, (f ch).m_responseRequests = ch.m_responseRequests) (he : reportsOf [e] = []) :
    KeepsRequests c x ((x.emit e).setChannel c1 f) :=
  KeepsRequests.trans c x (x.emit e) ((x.emit e).setChannel c1 f)
    (KeepsRequests.emit c x e he) (KeepsRequests.setChannel c (x.emit e) c1 f h)

theorem KeepsRequests.setConnectionState (c : Nat) (x : Sys) (c1 : Nat)
    (state : ConnectionState) : KeepsRequests c x (x.setConnectionState c1 state) := by
  unfold Sys.setConnectionState
  split
  · exact KeepsRequests.setChannel_emit c x c1 _ _ (by intro _; rfl) (by rfl)
  · exact KeepsRequests.refl c x

theorem Sys.setConnectionState_state (x : Sys) (c : Nat) (state : ConnectionState) :
    ((x.setConnectionState c state).channels c).m_connectionState = state := by
  unfold Sys.setConnectionState
  split
  · simp
  · rename_i h
    exact not_not.mp h

theorem KeepsRequests.pendingReports (c : Nat) (x : Sys) (destroy : Bool)
    (h : (x.channels c).m_responseRequests = []) :
    KeepsRequests c x ( x.disconnectPendingIO c destroy) := by
  unfold Sys.disconnectPendingIO
  simp only [Sys.setChannel_channels_same, h, RefMap.valueList, List.map_nil, List.foldl_nil]
  exact KeepsRequests.setChannel c x c _ (by intro _; rfl)

theorem KeepsRequests.initiateSearch (c : Nat) (x : Sys) :
    KeepsRequests c x (x.initiateSearch c) := by
  unfold Sys.initiateSearch
  simp only []
  split
  · exact KeepsRequests.setChannel_emit c x c _ _ (by intro _; rfl) (by rfl)
  · exact KeepsRequests.setChannel c x c _ (by intro _; rfl)

theorem KeepsRequests.disconnectWith (c : Nat) (x : Sys) (initiateSearch remoteDestroy : Bool)
    (h : (x.channels c).m_responseRequests = []) :
    KeepsRequests c x (x.disconnectWith c initiateSearch remoteDestroy) := by
  unfold Sys.disconnectWith
  split
  · exact KeepsRequests.refl c x
  · simp only []
    -- stop searching, when asked to
    have k1 : KeepsRequests c x
        (if (!initiateSearch) = true then
          (x.emit (Event.searchUnregisterChannel c)).channelCancel c else x) := by
      split
      · exact KeepsRequests.emit c x _ (by rfl)
      · exact KeepsRequests.refl c x
    have k2 := KeepsRequests.trans c _ _ _ k1
      (KeepsRequests.setConnectionState c _ c ConnectionState.DISCONNECTED)
    have k3 := KeepsRequests.trans c _ _ _ k2
      (KeepsRequests.pendingReports c _ false (by rw [k2.2.2.1, h]))
    -- release transport
    have k4 : ∀ y : Sys, KeepsRequests c y
        (match (y.channels c).m_transport with
          | some t =>
            if remoteDestroy = true then
              (y.setChannel c (fun ch => { ch with m_issueCreateMessage := false })).emit
                (Event.enqueueSendRequest (some t.id) (Sender.channel c))
            else y
          | none => y) := by
      intro y
      split
      · split
        · exact KeepsRequests.setChannel_emit c y c _ _ (by intro _; rfl) (by rfl)
        · exact KeepsRequests.refl c y
      · exact KeepsRequests.refl c y
    have k5 := KeepsRequests.trans c _ _ _ k3 (k4 _)
    split
    · exact KeepsRequests.trans c _ _ _ k5 (KeepsRequests.initiateSearch c _)
    · exact k5

theorem KeepsRequests.channelRelease (c : Nat) (x : Sys) :
    KeepsRequests c x (x.channelRelease c) := by
  unfold Sys.channelRelease
  simp only []
  have k1 := KeepsRequests.setChannel c x c
    (fun ch => { ch with m_references := ch.m_references - 1 }) (fun _ => rfl)
  split
  · split
    · exact KeepsRequests.trans c _ _ _ k1
        (KeepsRequests.emit_setChannel c _ c _ _ (by intro _; rfl) (by rfl))
    · exact k1
  · exact k1

theorem Sys.channelRelease_state (x : Sys) (c : Nat) :
    ((x.channelRelease c).channels c).m_connectionState = (x.channels c).m_connectionState := by
  unfold Sys.channelRelease
  simp only []
  split
  · split <;> simp
  · simp

theorem sampleOperating_valid : RequestsValid sampleOperating 1 := by
  have hm : (sampleOperating.channels 1).m_responseRequests = [(1, 2), (2, 3)] := by decide
  unfold RequestsValid
  rw [hm]
  refine ⟨by decide, ?_⟩
  intro e he
  simp only [List.mem_cons, List.mem_singleton, List.not_mem_nil, or_false] at he
  rcases he with rfl | rfl
  · exact ⟨⟨true, 1, ⟨1, false, false, 8, 1, Status.OK⟩⟩, by decide, rfl, rfl, rfl⟩
  · exact ⟨⟨false, 1, ⟨2, false, false, -1, 1, Status.OK⟩⟩, by decide, rfl, rfl, rfl⟩

theorem toInt8_pure_destroy : toInt8 PURE_DESTROY_REQUEST = PURE_DESTROY_REQUEST := by decide

/-- What `BaseRequestImpl::send` does with a pure destroy request pending. -/
theorem BaseRequestImpl.send_of_pure_destroy (w : World)
    (h : w.op.m_pendingRequest = PURE_DESTROY_REQUEST) :
    BaseRequestImpl.send w =
      ([{ command := 15, body := putInt w.env.m_serverChannelID ++ putInt w.op.m_ioid }],
        w.stopRequest) := by
  unfold BaseRequestImpl.send BaseRequestImpl.getPendingRequest
  simp only [h, toInt8_pure_destroy]
  rw [if_neg (by decide)]
  simp

/-- What `BaseRequestImpl::send` does with nothing pending. -/
theorem BaseRequestImpl.send_of_null (w : World) (h : w.op.m_pendingRequest = NULL_REQUEST) :
    BaseRequestImpl.send w = ([], w) := by
  unfold BaseRequestImpl.send BaseRequestImpl.getPendingRequest
  simp only [h]
  rw [if_pos (by decide)]

/-- With nothing pending `send` of every class writes nothing and changes
nothing. -/
theorem OpKind.send_nothing_pending (k : OpKind) (ext : Collaborators) (w : World)
    (h : w.op.m_pendingRequest = NULL_REQUEST) : k.send ext w = ([], w) := by
  have hneg : w.op.getPendingRequest < 0 := by
    unfold BaseRequestImpl.getPendingRequest; rw [h]; decide
  cases k <;>
    simp only [OpKind.send, ChannelProcessRequestImpl.send, ChannelGetImpl.send,
      ChannelPutImpl.send, ChannelPutGetImpl.send, ChannelMonitorImpl.send,
      ChannelArrayImpl.send, ChannelRPCImpl.send, hneg, if_true] <;>
    exact BaseRequestImpl.send_of_null w h

/-- With a request pending (a pure destroy or a QoS code from 0 to 255) `send`
of every class writes one message and calls `stopRequest`. -/
theorem OpKind.send_of_pending (k : OpKind) (ext : Collaborators) (w : World)
    (hp : w.op.m_pendingRequest = PURE_DESTROY_REQUEST ∨
      (0 ≤ w.op.m_pendingRequest ∧ w.op.m_pendingRequest ≤ 255)) :
    (k.send ext w).1.length = 1 ∧ (k.send ext w).2 = w.stopRequest := by
  rcases hp with hp | hp
  · have hneg : w.op.getPendingRequest < 0 := by
      unfold BaseRequestImpl.getPendingRequest; rw [hp]; decide
    cases k <;>
      simp only [OpKind.send, ChannelProcessRequestImpl.send, ChannelGetImpl.send,
        ChannelPutImpl.send, ChannelPutGetImpl.send, ChannelMonitorImpl.send,
        ChannelArrayImpl.send, ChannelRPCImpl.send, hneg, if_true,
        BaseRequestImpl.send_of_pure_destroy w hp] <;>
      simp
  · have hneg : ¬ w.op.getPendingRequest < 0 := by
      unfold BaseRequestImpl.getPendingRequest; omega
    cases k <;>
      simp only [OpKind.send, ChannelProcessRequestImpl.send, ChannelGetImpl.send,
        ChannelPutImpl.send, ChannelPutGetImpl.send, ChannelMonitorImpl.send,
        ChannelArrayImpl.send, ChannelRPCImpl.send, hneg, if_false] <;>
      simp

theorem World.destroy_initialized (w : World) :
    w.destroy.op.m_initialized = w.op.m_initialized := by
  unfold World.destroy
  split
  · rfl
  · simp only []
    split
    · split <;> simp [World.startRequest, World.enqueueSendRequest, BaseRequestImpl.release,
        startRequest_pure_destroy]
    · rfl

/-- What one response does to `m_initialized`. -/
theorem OpKind.response_initialized (k : OpKind) (h : ResponseMethods) (hk : KeepsInitialized h)
    (q : Nat) (st : Status) (w : World) :
    (k.response h q st w).2.op.m_initialized =
      if carriesInit q then (if st.isSuccess then true else w.op.m_initialized)
      else if carriesDestroyOnly q then false
      else w.op.m_initialized := by
  have hcancel : ∀ w1 : World, w1.cancel.op.m_initialized = w1.op.m_initialized :=
    fun w1 => World.destroy_initialized w1
  cases hi : truthy (and32 (toInt8 q) QOS_INIT) with
  | true =>
    have hci : carriesInit q = true := hi
    rw [if_pos hci]
    cases hs : st.isSuccess <;> cases k <;>
      simp [OpKind.response, BaseRequestImpl.response, ChannelMonitorImpl.response, hi, hs,
        (hk _ _ _).1]
  | false =>
    have hci : carriesInit q = false := hi
    cases hd : truthy (and32 (toInt8 q) QOS_DESTROY) with
    | true =>
      have hcd : carriesDestroyOnly q = true := by
        unfold carriesDestroyOnly
        simp [hci, hd]
      simp only [hci, hcd, if_true, Bool.false_eq_true, if_false]
      cases k <;>
        simp only [OpKind.response, BaseRequestImpl.response, ChannelMonitorImpl.response, hi,
          hd, if_true, Bool.false_eq_true, if_false] <;>
        split <;> simp [hcancel, (hk _ _ _).2.1]
    | false =>
      have hcd : carriesDestroyOnly q = false := by
        unfold carriesDestroyOnly
        simp [hd]
      simp only [hci, hcd, Bool.false_eq_true, if_false]
      cases k <;>
        simp [OpKind.response, BaseRequestImpl.response, ChannelMonitorImpl.response, hi,
          hd, (hk _ _ _).2.2]

set_option maxRecDepth 100000 in
theorem sampleBeacon_padded :
    BeaconResponseHandler.handleResponse ⟨167772161, 5075⟩ 1 true sampleExtra
        (sampleBeacon ++ List.replicate 108 0) =
      ([{ responseFrom := ⟨167772161, 5075⟩, version := 1, secondsPastEpoch := 7,
          nanoSeconds := 9, sequentalID := 1, data := some 108 }], true) := by
  decide

/-! ### The Getter -/

theorem GetterCommon.callEvent_of_none (g : GetterCommon) (evt : GetEvent.event_t)
    (h : g.cb = none) : g.callEvent evt = g := by
  unfold GetterCommon.callEvent; rw [h]

/-- Once the callback pointer is null no call delivers anything. -/
theorem GetterCommon.step_of_none (g : GetterCommon) (c : GetterCall) (h : g.cb = none) :
    (g.step c).cb = none ∧ (g.step c).delivered = g.delivered := by
  cases c with
  | channelGetConnect status channelGet =>
    simp [GetterCommon.step, GetterCommon.channelGetConnect, h]
  | channelDisconnect destroy =>
    simp [GetterCommon.step, GetterCommon.channelDisconnect, GetterCommon.callEvent, h]
  | getDone status pvStructure bitSet =>
    simp [GetterCommon.step, GetterCommon.getDone, h]
  | cancel =>
    cases ho : g.op <;>
      simp [GetterCommon.step, GetterCommon.cancel, GetterCommon.callEvent, h, ho]

theorem GetterCommon.run_of_none (calls : List GetterCall) :
    ∀ g : GetterCommon, g.cb = none →
      (g.run calls).cb = none ∧ (g.run calls).delivered = g.delivered := by
  induction calls with
  | nil => intro g h; exact ⟨h, rfl⟩
  | cons c rest ih =>
    intro g h
    obtain ⟨h1, h2⟩ := GetterCommon.step_of_none g c h
    obtain ⟨h3, h4⟩ := ih (g.step c) h1
    exact ⟨h3, h4.trans h2⟩

theorem GetterCommon.callEvent_of_some (g : GetterCommon) (evt : GetEvent.event_t)
    (h : g.cb ≠ none) :
    (g.callEvent evt).cb = none ∧
    (g.callEvent evt).delivered = g.delivered ++ [{ g.event with event := evt }] := by
  unfold GetterCommon.callEvent
  cases hc : g.cb with
  | none => exact absurd hc h
  | some c => exact ⟨rfl, rfl⟩

/-- What `cancel()` delivers while the callback pointer is set. -/
theorem GetterCommon.cancel_of_some (g : GetterCommon) (h : g.cb ≠ none) :
    g.cancel.cb = none ∧ g.cancel.delivered = g.delivered ++ [{ g.event with
      event := GetEvent.event_t.Cancel }] := by
  cases hc : g.cb with
  | none => exact absurd hc h
  | some c =>
    cases ho : g.op <;>
      simp [GetterCommon.cancel, GetterCommon.callEvent, hc, ho]

/-- While nothing has been delivered and the callback pointer is set, a call
either delivers nothing and keeps the pointer, or delivers one event and
clears it. -/
theorem GetterCommon.step_inv (g : GetterCommon) (c : GetterCall) (h : g.cb ≠ none)
    (hd : g.delivered = []) :
    ((g.step c).cb ≠ none ∧ (g.step c).delivered = []) ∨
    ((g.step c).cb = none ∧ (g.step c).delivered.length = 1) := by
  cases c with
  | channelGetConnect status channelGet =>
    simp only [GetterCommon.step, GetterCommon.channelGetConnect, if_neg h]
    by_cases hs : (!status.isSuccess) = true
    · rw [if_pos hs]
      obtain ⟨h1, h2⟩ := GetterCommon.callEvent_of_some
        { g with event := { g.event with message := if !status.isOK then status.message else "" } }
        GetEvent.event_t.Fail h
      exact Or.inr ⟨h1, by rw [h2]; simp [hd]⟩
    · rw [if_neg hs]
      exact Or.inl ⟨h, hd⟩
  | channelDisconnect destroy =>
    simp only [GetterCommon.step, GetterCommon.channelDisconnect]
    obtain ⟨h1, h2⟩ := GetterCommon.callEvent_of_some
      { g with event := { g.event with message := "Disconnect" } } GetEvent.event_t.Fail h
    exact Or.inr ⟨h1, by rw [h2]; simp [hd]⟩
  | getDone status pvStructure bitSet =>
    simp only [GetterCommon.step, GetterCommon.getDone, if_neg h]
    obtain ⟨h1, h2⟩ := GetterCommon.callEvent_of_some
      { g with event := { g.event with message := if !status.isOK then status.message else "",
                                       value := pvStructure, valid := bitSet } }
      (if status.isSuccess then GetEvent.event_t.Success else GetEvent.event_t.Fail) h
    exact Or.inr ⟨h1, by rw [h2]; simp [hd]⟩
  | cancel =>
    obtain ⟨h1, h2⟩ := GetterCommon.cancel_of_some g h
    exact Or.inr ⟨h1, by show g.cancel.delivered.length = 1; rw [h2]; simp [hd]⟩

theorem GetterCommon.run_inv (calls : List GetterCall) :
    ∀ g : GetterCommon, g.cb ≠ none → g.delivered = [] →
      ((g.run calls).cb ≠ none ∧ (g.run calls).delivered = []) ∨
      ((g.run calls).cb = none ∧ (g.run calls).delivered.length = 1) := by
  induction calls with
  | nil => intro g h hd; exact Or.inl ⟨h, hd⟩
  | cons c rest ih =>
    intro g h hd
    rcases GetterCommon.step_inv g c h hd with ⟨h1, h2⟩ | ⟨h1, h2⟩
    · exact ih (g.step c) h1 h2
    · obtain ⟨h3, h4⟩ := GetterCommon.run_of_none rest (g.step c) h1
      exact Or.inr ⟨h3, by show ((g.step c).run rest).delivered.length = 1; rw [h4]; exact h2⟩

theorem GetterCommon.run_append (g : GetterCommon) (a b : List GetterCall) :
    g.run (a ++ b) = (g.run a).run b := by
  simp [GetterCommon.run, List.foldl_append]


/-! ### The Monitor -/

/-- What `callEvent` does with an event that is neither Fail nor Cancel on a
valid monitor: the user gets the event, and after it only a Fail event (when
the callback has thrown); the callbacks and the flags stay. -/
theorem Monitor.Impl.callEvent_going (user : MonitorEvent → Option String) (m : Monitor.Impl)
    (evt : MonitorEvent.event_t) (hv : m.valid = true)
    (h1 : evt ≠ MonitorEvent.event_t.Fail) (h2 : evt ≠ MonitorEvent.event_t.Cancel) :
    (∃ extra, (m.callEvent user evt).delivered =
        m.delivered ++ { m.event with event := evt } :: extra ∧
      (∀ e ∈ extra, e.event = MonitorEvent.event_t.Fail) ∧
      (user { m.event with event := evt } = none → extra = [])) ∧
    (m.callEvent user evt).cb = m.cb ∧ (m.callEvent user evt).cb11 = m.cb11 ∧
    (m.callEvent user evt).done = m.done ∧ (m.callEvent user evt).started = m.started ∧
    (m.callEvent user evt).op = m.op := by
  have hne : ¬ (m.cb = none ∧ m.cb11 = none) := by
    rintro ⟨a, b⟩
    simp [Monitor.Impl.valid, a, b] at hv
  have key : (m.callEvent user evt).delivered =
        m.delivered ++ { m.event with event := evt } ::
          (match user { m.event with event := evt } with
            | none => []
            | some what =>
              if m.cb = none then [] else [⟨MonitorEvent.event_t.Fail, what⟩]) ∧
      (m.callEvent user evt).cb = m.cb ∧ (m.callEvent user evt).cb11 = m.cb11 ∧
      (m.callEvent user evt).done = m.done ∧ (m.callEvent user evt).started = m.started ∧
      (m.callEvent user evt).op = m.op := by
    unfold Monitor.Impl.callEvent
    rw [if_neg hne]
    cases hu : user { m.event with event := evt } with
    | none => simp [h1, h2, hu]
    | some what =>
      by_cases hcb : m.cb = none <;> simp [h1, h2, hu, hcb]
  obtain ⟨k1, k2⟩ := key
  refine ⟨⟨_, k1, ?_, ?_⟩, k2⟩
  · intro e he
    cases hu : user { m.event with event := evt } with
    | none => rw [hu] at he; cases he
    | some what =>
      rw [hu] at he
      by_cases hcb : m.cb = none
      · simp [hcb] at he
      · simp [hcb] at he
        rw [he]
  · intro hu
    rw [hu]

/-- What `monitorEvent` does on a valid monitor that is not done. -/
theorem Monitor.Impl.monitorEvent_going (user : MonitorEvent → Option String)
    (m : Monitor.Impl) (hv : m.valid = true) (hd : m.done = false) :
    (∃ extra, (m.monitorEvent user).delivered =
        m.delivered ++ ⟨MonitorEvent.event_t.Data, ""⟩ :: extra ∧
      (∀ e ∈ extra, e.event = MonitorEvent.event_t.Fail) ∧
      (user ⟨MonitorEvent.event_t.Data, ""⟩ = none → extra = [])) ∧
    (m.monitorEvent user).cb = m.cb ∧ (m.monitorEvent user).cb11 = m.cb11 ∧
    (m.monitorEvent user).done = false ∧ (m.monitorEvent user).started = m.started := by
  have hrun : m.monitorEvent user =
      Monitor.Impl.callEvent user { m with event := { m.event with message := "" } }
        MonitorEvent.event_t.Data := by
    unfold Monitor.Impl.monitorEvent
    simp [hv, hd]
  obtain ⟨hdel, c1, c2, c3, c4, -⟩ := Monitor.Impl.callEvent_going user
    { m with event := { m.event with message := "" } } MonitorEvent.event_t.Data hv
    (by decide) (by decide)
  rw [hrun]
  exact ⟨hdel, c1, c2, c3.trans hd, c4⟩

/-- Any number of `monitorEvent` calls keep a valid monitor valid, not done,
and with the same callbacks. -/
theorem Monitor.Impl.monitorEvent_iterate (user : MonitorEvent → Option String) (n : Nat) :
    ∀ m : Monitor.Impl, m.valid = true → m.done = false →
      ((fun x => Monitor.Impl.monitorEvent user x)^[n] m).valid = true ∧
      ((fun x => Monitor.Impl.monitorEvent user x)^[n] m).done = false ∧
      ((fun x => Monitor.Impl.monitorEvent user x)^[n] m).cb = m.cb ∧
      ((fun x => Monitor.Impl.monitorEvent user x)^[n] m).cb11 = m.cb11 ∧
      ((fun x => Monitor.Impl.monitorEvent user x)^[n] m).started = m.started := by
  induction n with
  | zero => intro m hv hd; exact ⟨hv, hd, rfl, rfl, rfl⟩
  | succ k ih =>
    intro m hv hd
    obtain ⟨-, c1, c2, c3, c4⟩ := Monitor.Impl.monitorEvent_going user m hv hd
    have hv1 : (m.monitorEvent user).valid = true := by
      unfold Monitor.Impl.valid at hv ⊢
      rw [c1, c2]; exact hv
    obtain ⟨i1, i2, i3, i4, i5⟩ := ih (m.monitorEvent user) hv1 c3
    simp only [Function.iterate_succ_apply]
    exact ⟨i1, i2, i3.trans c1, i4.trans c2, i5.trans c4⟩

/-- What `channelDisconnect` does on a valid monitor that is not done. -/
theorem Monitor.Impl.channelDisconnect_going (user : MonitorEvent → Option String)
    (m : Monitor.Impl) (destroy : Bool) (hv : m.valid = true) (hd : m.done = false) :
    (∃ extra, (m.channelDisconnect user destroy).delivered =
        m.delivered ++ ⟨MonitorEvent.event_t.Disconnect, "Disconnect"⟩ :: extra ∧
      (∀ e ∈ extra, e.event = MonitorEvent.event_t.Fail) ∧
      (user ⟨MonitorEvent.event_t.Disconnect, "Disconnect"⟩ = none → extra = [])) ∧
    (m.channelDisconnect user destroy).cb = m.cb ∧
    (m.channelDisconnect user destroy).cb11 = m.cb11 ∧
    (m.channelDisconnect user destroy).done = false ∧
    (m.channelDisconnect user destroy).started = false := by
  have hrun : m.channelDisconnect user destroy =
      Monitor.Impl.callEvent user
        { m with event := { m.event with message := "Disconnect" }, started := false }
        MonitorEvent.event_t.Disconnect := by
    unfold Monitor.Impl.channelDisconnect
    simp [hv, hd]
  obtain ⟨hdel, c1, c2, c3, c4, -⟩ := Monitor.Impl.callEvent_going user
    { m with event := { m.event with message := "Disconnect" }, started := false }
    MonitorEvent.event_t.Disconnect hv (by decide) (by decide)
  rw [hrun]
  exact ⟨hdel, c1, c2, c3.trans hd, c4⟩

/-- What `monitorConnect` does on a valid monitor that is neither started nor
done, when the status is a success and `operation->start()` succeeds. -/
theorem Monitor.Impl.monitorConnect_started (user : MonitorEvent → Option String)
    (m : Monitor.Impl) (status sts : Status) (operation : Nat) (hv : m.valid = true)
    (hd : m.done = false) (hst : m.started = false) (hs : status.isSuccess = true)
    (hsts : sts.isSuccess = true) :
    m.monitorConnect user status operation sts =
      { m with event := { m.event with message := if !status.isOK then status.message else "" },
               started := true, last := some operation } := by
  unfold Monitor.Impl.monitorConnect
  simp [hv, hd, hst, hs, hsts]

/-! ### The claims -/

/-- C1: `startRequest(q)` returns false exactly when a request is pending
(`m_pendingRequest != NULL_REQUEST`) and `q != PURE_DESTROY_REQUEST`; a false
result leaves the operation (so `m_pendingRequest`) unchanged, a true result
leaves `m_pendingRequest = q`, and `startRequest(PURE_DESTROY_REQUEST)` is
true in every state. -/
theorem startRequest_arbitration (r : BaseRequestImpl) (q : Int) :
    ((r.startRequest q).1 = false ↔
        (r.m_pendingRequest ≠ NULL_REQUEST ∧ q ≠ PURE_DESTROY_REQUEST)) ∧
    ((r.startRequest q).1 = false →
        (r.startRequest q).2.m_pendingRequest = r.m_pendingRequest ∧
        (r.startRequest q).2 = r) ∧
    ((r.startRequest q).1 = true → (r.startRequest q).2.m_pendingRequest = q) ∧
    (r.startRequest PURE_DESTROY_REQUEST).1 = true := by
  unfold BaseRequestImpl.startRequest
  refine ⟨?_, ?_, ?_, ?_⟩
  · by_cases h : r.m_pendingRequest ≠ NULL_REQUEST ∧ q ≠ PURE_DESTROY_REQUEST
    · rw [if_pos h]; simp [h]
    · rw [if_neg h]; simp [h]
  · by_cases h : r.m_pendingRequest ≠ NULL_REQUEST ∧ q ≠ PURE_DESTROY_REQUEST
    · rw [if_pos h]; simp
    · rw [if_neg h]; simp
  · by_cases h : r.m_pendingRequest ≠ NULL_REQUEST ∧ q ≠ PURE_DESTROY_REQUEST
    · rw [if_pos h]; simp
    · rw [if_neg h]; simp
  · simp

/-- C2: every request method (process, get of ChannelGet, get and put of
ChannelPut, putGet, getGet, getPut, request, getArray, putArray, setLength)
reports `destroyedStatus` on a destroyed operation, else
`notInitializedStatus` on an operation that is not initialized, else
`otherRequestPendingStatus` when a request is pending; in each case exactly
one done-callback is made, nothing is enqueued and `m_pendingRequest` is
unchanged. So after `put(lastRequest)` on an idle ChannelPut of a connected
channel, `get()` is rejected and the next `send()` still emits the put
request (command 11, the put's QoS byte, bit set and data). -/
theorem request_rejected (m : RequestMethod) (w : World) :
    (w.op.m_destroyed = true → Rejected w (m.run w) (m.done destroyedStatus)) ∧
    (w.op.m_destroyed = false → w.op.m_initialized = false →
      Rejected w (m.run w) (m.done notInitializedStatus)) ∧
    (w.op.m_destroyed = false → w.op.m_initialized = true →
      w.op.m_pendingRequest ≠ NULL_REQUEST →
      Rejected w (m.run w) (m.done otherRequestPendingStatus)) ∧
    (w.op.m_destroyed = false → w.op.m_initialized = true →
      w.op.m_pendingRequest = NULL_REQUEST →
      w.env.m_connectionState = ConnectionState.CONNECTED →
      ∀ (lastRequest : Bool) (ext : Collaborators),
        (ChannelPutImpl.put lastRequest w).env.sendQueue =
          w.env.sendQueue ++ [TransportSender.request w.op.m_ioid] ∧
        Rejected (ChannelPutImpl.put lastRequest w)
          (ChannelPutImpl.get (ChannelPutImpl.put lastRequest w))
          (Callback.getDone otherRequestPendingStatus) ∧
        (ChannelPutImpl.send ext (ChannelPutImpl.get (ChannelPutImpl.put lastRequest w))).1 =
          [{ command := 11,
             body := putInt w.env.m_serverChannelID ++ putInt w.op.m_ioid
               ++ [if lastRequest then 0x10 else 0x00] ++ (ext.bitSet ++ ext.data) }]) := by
  refine ⟨?_, ?_, ?_, ?_⟩
  · intro hd
    cases m <;>
      simp [RequestMethod.run, RequestMethod.done, Rejected, World.callback, hd,
        ChannelProcessRequestImpl.process, ChannelGetImpl.get, ChannelPutImpl.get,
        ChannelPutImpl.put, ChannelPutGetImpl.putGet, ChannelPutGetImpl.getGet,
        ChannelPutGetImpl.getPut, ChannelRPCImpl.request, ChannelArrayImpl.getArray,
        ChannelArrayImpl.putArray, ChannelArrayImpl.setLength]
  · intro hd hi
    cases m <;>
      simp [RequestMethod.run, RequestMethod.done, Rejected, World.callback, hd, hi,
        ChannelProcessRequestImpl.process, ChannelGetImpl.get, ChannelPutImpl.get,
        ChannelPutImpl.put, ChannelPutGetImpl.putGet, ChannelPutGetImpl.getGet,
        ChannelPutGetImpl.getPut, ChannelRPCImpl.request, ChannelArrayImpl.getArray,
        ChannelArrayImpl.putArray, ChannelArrayImpl.setLength]
  · intro hd hi hp
    have key : ∀ q : Int, q ≠ PURE_DESTROY_REQUEST → (w.startRequest q).1 = false := by
      intro q hq
      simp [World.startRequest, startRequest_fst_false w.op q hp hq]
    have hb : ∀ (l : Bool) (a b : Int), a ≠ PURE_DESTROY_REQUEST → b ≠ PURE_DESTROY_REQUEST →
        (if l = true then a else b) ≠ PURE_DESTROY_REQUEST := by
      intro l a b ha hb
      cases l <;> simp [ha, hb]
    have c0 : QOS_DEFAULT ≠ PURE_DESTROY_REQUEST := by decide
    have c1 : QOS_DESTROY ≠ PURE_DESTROY_REQUEST := by decide
    have c2 : QOS_GET ≠ PURE_DESTROY_REQUEST := by decide
    have c3 : QOS_GET_PUT ≠ PURE_DESTROY_REQUEST := by decide
    have c4 : or32 QOS_DESTROY QOS_GET ≠ PURE_DESTROY_REQUEST := by decide
    have c5 : or32 QOS_DESTROY QOS_GET_PUT ≠ PURE_DESTROY_REQUEST := by decide
    cases m <;>
      simp [RequestMethod.run, RequestMethod.done, Rejected, World.callback, hd, hi,
        ChannelProcessRequestImpl.process, ChannelGetImpl.get, ChannelPutImpl.get,
        ChannelPutImpl.put, ChannelPutGetImpl.putGet, ChannelPutGetImpl.getGet,
        ChannelPutGetImpl.getPut, ChannelRPCImpl.request, ChannelArrayImpl.getArray,
        ChannelArrayImpl.putArray, ChannelArrayImpl.setLength, key, hb, c0, c1, c2, c3, c4, c5]
  · intro hd hi hp hc lastRequest ext
    cases lastRequest <;>
      simp +decide [Rejected, World.callback, hd, hi, hp, hc, ChannelPutImpl.get,
        ChannelPutImpl.put, ChannelPutImpl.send, BaseRequestImpl.send, World.startRequest,
        startRequest_of_null, BaseRequestImpl.startRequest, World.enqueueSendRequest,
        Env.checkAndGetTransport, World.stopRequest, BaseRequestImpl.getPendingRequest,
        NULL_REQUEST, PURE_DESTROY_REQUEST, QOS_INIT, QOS_DESTROY, QOS_DEFAULT, QOS_GET,
        toInt8, toByte, and32, toU32, toInt32, truthy]

/-- C3: for each operation class `k` and each pending code `p` its methods can
set, `send()` emits nothing when `p = NULL_REQUEST`; exactly one command-15
message with the 8-byte body SID, IOID when `p = PURE_DESTROY_REQUEST`; and
otherwise one message with the command code of `k` whose body starts with the
SID, the IOID and one QoS byte equal to the low 8 bits of `p`. -/
theorem send_emits (k : OpKind) (ext : Collaborators) (w : World) (p : Int)
    (hp : p ∈ k.pendingCodes) :
    (p = NULL_REQUEST → (k.send ext (w.withPending p)).1 = []) ∧
    (p = PURE_DESTROY_REQUEST →
      (k.send ext (w.withPending p)).1 =
        [{ command := 15, body := putInt w.env.m_serverChannelID ++ putInt w.op.m_ioid }] ∧
      (putInt w.env.m_serverChannelID).length = 4 ∧ (putInt w.op.m_ioid).length = 4 ∧
      (putInt w.env.m_serverChannelID ++ putInt w.op.m_ioid).length = 8) ∧
    (p ≠ NULL_REQUEST → p ≠ PURE_DESTROY_REQUEST →
      ∃ rest, (k.send ext (w.withPending p)).1 =
        [{ command := k.specCommand,
           body := putInt w.env.m_serverChannelID ++ putInt w.op.m_ioid
                    ++ [(p % 256).toNat] ++ rest }]) := by
  cases k <;> fin_cases hp <;>
    simp +decide [OpKind.send, ChannelProcessRequestImpl.send, ChannelGetImpl.send, ChannelPutImpl.send,
      ChannelPutGetImpl.send, ChannelMonitorImpl.send, ChannelArrayImpl.send, ChannelRPCImpl.send,
      BaseRequestImpl.send, World.withPending, BaseRequestImpl.getPendingRequest,
      World.stopRequest, OpKind.specCommand, NULL_REQUEST, PURE_DESTROY_REQUEST, QOS_INIT,
      QOS_DESTROY, QOS_DEFAULT, QOS_GET, QOS_GET_PUT, QOS_PROCESS, toInt8, toByte, and32, or32,
      toU32, toInt32, truthy, putInt]

/-- C4: for every QoS echo byte, `BaseRequestImpl::response` and the
`ChannelMonitorImpl` override call exactly one of `initResponse`,
`destroyResponse`, `normalResponse`: `initResponse` iff bit 0x08 (INIT) is
set; else `destroyResponse` iff bit 0x10 (DESTROY) is set; else
`normalResponse`. A byte with both bits is handled as INIT. -/
theorem response_dispatch (h : ResponseMethods) (b : Nat) (hb : b < 256) (status : Status)
    (w : World) :
    ((BaseRequestImpl.response h b status w).1 =
      (if b.testBit 3 then [ResponseCall.initResponse]
       else if b.testBit 4 then [ResponseCall.destroyResponse]
       else [ResponseCall.normalResponse])) ∧
    ((ChannelMonitorImpl.response h b status w).1 =
      (if b.testBit 3 then [ResponseCall.initResponse]
       else if b.testBit 4 then [ResponseCall.destroyResponse]
       else [ResponseCall.normalResponse])) ∧
    (b.testBit 3 = true → b.testBit 4 = true →
      (BaseRequestImpl.response h b status w).1 = [ResponseCall.initResponse] ∧
      (ChannelMonitorImpl.response h b status w).1 = [ResponseCall.initResponse]) := by
  have hq := qos_bits_of_byte ⟨b, hb⟩
  simp only at hq
  obtain ⟨h3, h4⟩ := hq
  have e1 : (BaseRequestImpl.response h b status w).1 =
      (if b.testBit 3 then [ResponseCall.initResponse]
       else if b.testBit 4 then [ResponseCall.destroyResponse]
       else [ResponseCall.normalResponse]) := by
    unfold BaseRequestImpl.response
    simp only [h3, h4]
    cases b.testBit 3 <;> cases b.testBit 4 <;> simp
  have e2 : (ChannelMonitorImpl.response h b status w).1 =
      (if b.testBit 3 then [ResponseCall.initResponse]
       else if b.testBit 4 then [ResponseCall.destroyResponse]
       else [ResponseCall.normalResponse]) := by
    unfold ChannelMonitorImpl.response
    simp only [h3, h4]
    cases b.testBit 3 <;> cases b.testBit 4 <;> simp
  refine ⟨e1, e2, ?_⟩
  intro t3 t4
  rw [e1, e2, t3]
  simp

/-- C5: `cancel()` is idempotent, `cancel(cancel(s)) = cancel(s)`. On an
operation not yet destroyed the first call sets `m_destroyed`, removes the
IOID from the context map and from the channel map, enqueues at most one
request (the destroy request) and drops one reference; a call on a destroyed
operation returns with nothing changed: no map, queue, pending-request or
reference-count change. -/
theorem cancel_idempotent (w : World) :
    w.cancel.cancel = w.cancel ∧
    (w.op.m_destroyed = false →
      w.cancel.op.m_destroyed = true ∧
      w.op.m_ioid ∉ w.cancel.env.m_pendingResponseRequests ∧
      w.op.m_ioid ∉ w.cancel.env.m_responseRequests ∧
      (w.cancel.env.sendQueue = w.env.sendQueue ∨
        w.cancel.env.sendQueue = w.env.sendQueue ++ [TransportSender.request w.op.m_ioid]) ∧
      w.cancel.op.m_refCount = w.op.m_refCount - 1) ∧
    w.cancel.cancel.env.m_pendingResponseRequests = w.cancel.env.m_pendingResponseRequests ∧
    w.cancel.cancel.env.m_responseRequests = w.cancel.env.m_responseRequests ∧
    w.cancel.cancel.env.sendQueue = w.cancel.env.sendQueue ∧
    w.cancel.cancel.op.m_pendingRequest = w.cancel.op.m_pendingRequest ∧
    w.cancel.cancel.op.m_refCount = w.cancel.op.m_refCount := by
  have hd : w.cancel.op.m_destroyed = true := destroy_destroyed w
  have hi : w.cancel.cancel = w.cancel := destroy_of_destroyed w.cancel hd
  refine ⟨hi, ?_, by rw [hi], by rw [hi], by rw [hi], by rw [hi], by rw [hi]⟩
  intro hnd
  simp only [World.cancel] at *
  rw [destroy_eq w hnd]
  refine ⟨rfl, mapErase_not_mem _ _, mapErase_not_mem _ _, ?_, rfl⟩
  by_cases hq : w.op.m_initialized = true ∧ w.env.m_connectionState = ConnectionState.CONNECTED
  · right; simp only [hq, and_self, if_true]
  · left; simp only [hq, if_false]

/-- Witness of C1 (`startRequest_arbitration`): with `QOS_DEFAULT` pending,
`startRequest(QOS_GET)` returns false and changes nothing. -/
theorem startRequest_arbitration_witness :
    (sampleWorld.op.stopRequest.startRequest QOS_DEFAULT).2.m_pendingRequest ≠ NULL_REQUEST ∧
    QOS_GET ≠ PURE_DESTROY_REQUEST ∧
    ((sampleWorld.op.stopRequest.startRequest QOS_DEFAULT).2.startRequest QOS_GET).1 = false :=
  ⟨by decide, by decide,
    (startRequest_arbitration (sampleWorld.op.stopRequest.startRequest QOS_DEFAULT).2 QOS_GET).1.2
      ⟨by decide, by decide⟩⟩

/-- Witness of C2 (`request_rejected`): on the sample ChannelPut, `get()`
after `put(false)` is rejected with `otherRequestPendingStatus`. -/
theorem request_rejected_witness :
    sampleWorld.op.m_destroyed = false ∧ sampleWorld.op.m_initialized = true ∧
    sampleWorld.op.m_pendingRequest = NULL_REQUEST ∧
    sampleWorld.env.m_connectionState = ConnectionState.CONNECTED ∧
    Rejected (ChannelPutImpl.put false sampleWorld)
      (ChannelPutImpl.get (ChannelPutImpl.put false sampleWorld))
      (Callback.getDone otherRequestPendingStatus) :=
  ⟨rfl, rfl, rfl, rfl,
    ((request_rejected RequestMethod.getOfPut sampleWorld).2.2.2 rfl rfl rfl rfl false
      sampleCollaborators).2.1⟩

/-- Witness of C5 (`cancel_idempotent`): the first `cancel()` of the sample
operation marks it destroyed and drops one reference. -/
theorem cancel_idempotent_witness :
    sampleWorld.op.m_destroyed = false ∧
    sampleWorld.cancel.op.m_destroyed = true ∧
    sampleWorld.cancel.op.m_refCount = sampleWorld.op.m_refCount - 1 :=
  ⟨rfl, ((cancel_idempotent sampleWorld).2.1 rfl).1,
    ((cancel_idempotent sampleWorld).2.1 rfl).2.2.2.2⟩

/-- Witness of C3 (`send_emits`): a ChannelPut with pending `QOS_GET`. -/
theorem send_emits_witness :
    QOS_GET ∈ OpKind.Put.pendingCodes ∧
    ∃ rest, (OpKind.Put.send sampleCollaborators (sampleWorld.withPending QOS_GET)).1 =
      [{ command := 11, body := [0, 0, 0, 5] ++ [0, 0, 0, 1] ++ [0x40] ++ rest }] :=
  ⟨by decide,
    ((send_emits OpKind.Put sampleCollaborators sampleWorld QOS_GET (by decide)).2.2
      (by decide) (by decide))⟩

/-- Witness of C4 (`response_dispatch`): the byte `0x18` (INIT and DESTROY)
is handled as INIT. -/
theorem response_dispatch_witness :
    (0x18 : Nat) < 256 ∧
    (BaseRequestImpl.response sampleResponseMethods 0x18 Status.OK sampleWorld).1 =
      [ResponseCall.initResponse] :=
  ⟨by decide,
    ((response_dispatch sampleResponseMethods 0x18 (by decide) Status.OK sampleWorld).2.2
      (by decide) (by decide)).1⟩

/-- C6: for an operation not yet destroyed on a connected channel, `destroy()`
of an initialized operation sets the pending request to
`PURE_DESTROY_REQUEST` and enqueues the operation exactly once, and the next
`send()` of any operation class emits the command-15 frame (SID, IOID);
`destroy()` of an operation that is not initialized enqueues nothing and
leaves the pending request unchanged. -/
theorem destroy_enqueues (w : World) (hd : w.op.m_destroyed = false)
    (hc : w.env.m_connectionState = ConnectionState.CONNECTED) :
    (w.op.m_initialized = true →
      w.destroy.op.m_pendingRequest = PURE_DESTROY_REQUEST ∧
      w.destroy.env.sendQueue = w.env.sendQueue ++ [TransportSender.request w.op.m_ioid] ∧
      w.destroy.env.sendQueue.count (TransportSender.request w.op.m_ioid) =
        w.env.sendQueue.count (TransportSender.request w.op.m_ioid) + 1 ∧
      ∀ (k : OpKind) (ext : Collaborators),
        (k.send ext w.destroy).1 =
          [{ command := 15, body := putInt w.env.m_serverChannelID ++ putInt w.op.m_ioid }]) ∧
    (w.op.m_initialized = false →
      w.destroy.env.sendQueue = w.env.sendQueue ∧
      w.destroy.op.m_pendingRequest = w.op.m_pendingRequest) := by
  constructor
  · intro hi
    have hp : w.destroy.op.m_pendingRequest = PURE_DESTROY_REQUEST := by
      rw [destroy_eq w hd]; simp [hi]
    have hq : w.destroy.env.sendQueue =
        w.env.sendQueue ++ [TransportSender.request w.op.m_ioid] := by
      rw [destroy_eq w hd]; simp [hi, hc]
    have hs : w.destroy.env.m_serverChannelID = w.env.m_serverChannelID := by
      rw [destroy_eq w hd]
    have hio : w.destroy.op.m_ioid = w.op.m_ioid := by
      rw [destroy_eq w hd]
    refine ⟨hp, hq, ?_, ?_⟩
    · rw [hq]; simp
    · intro k ext
      rw [send_pure_destroy k ext w.destroy hp, hs, hio]
  · intro hi
    rw [destroy_eq w hd]
    simp [hi]

/-- Witness of C6 (`destroy_enqueues`): destroying the initialized sample
operation enqueues it once with `PURE_DESTROY_REQUEST` pending. -/
theorem destroy_enqueues_witness :
    sampleWorld.op.m_destroyed = false ∧
    sampleWorld.env.m_connectionState = ConnectionState.CONNECTED ∧
    sampleWorld.destroy.op.m_pendingRequest = PURE_DESTROY_REQUEST ∧
    sampleWorld.destroy.env.sendQueue = [TransportSender.request 1] :=
  ⟨by decide, by decide,
    ((destroy_enqueues sampleWorld (by decide) (by decide)).1 (by decide)).1,
    ((destroy_enqueues sampleWorld (by decide) (by decide)).1 (by decide)).2.1⟩

/-- C7, as stated, fails: a ChannelGet is created on the connected sample
channel (IOID 1, INIT request pending and enqueued, not initialized);
`destroy()` leaves the send queue as it was, and the next `send()` emits the
INIT request (command 10, QoS byte 0x08), not a command-15 frame. -/
theorem get_destroy_before_init_response_counterexample :
    (ChannelGetImpl.create 1 sampleEnv (some ⟨0⟩)).map
        (fun w => (w.op.m_initialized, w.op.m_pendingRequest, w.env.sendQueue,
          w.destroy.env.sendQueue, w.destroy.op.m_pendingRequest,
          (ChannelGetImpl.send sampleCollaborators w.destroy).1)) =
      some (false, QOS_INIT, [TransportSender.request 1], [TransportSender.request 1], QOS_INIT,
        [{ command := 10, body := [0, 0, 0, 5, 0, 0, 0, 1, 0x08, 0xA0] }]) := by
  rfl

/-- C7, amended: for a ChannelGet created on a connected channel (INIT
request issued, INIT response not yet arrived, so not initialized),
`destroy()` enqueues nothing and leaves the pending request unchanged, so no
command-15 frame is sent: the next `send()` emits the pending INIT request
(command 10) if that was not yet sent, and nothing if it was. -/
theorem get_destroy_before_init_response (fuel : Nat) (e : Env) (pv : PVStructure)
    (ext : Collaborators) (w : World)
    (hc : e.m_connectionState = ConnectionState.CONNECTED)
    (hw : ChannelGetImpl.create fuel e (some pv) = some w) :
    (w.op.m_initialized = false ∧ w.op.m_destroyed = false ∧
      w.op.m_pendingRequest = QOS_INIT ∧
      w.env.sendQueue = e.sendQueue ++ [TransportSender.request w.op.m_ioid]) ∧
    (w.destroy.env.sendQueue = w.env.sendQueue ∧
      w.destroy.op.m_pendingRequest = w.op.m_pendingRequest ∧
      (ChannelGetImpl.send ext w.destroy).1 =
        [{ command := 10,
           body := putInt w.env.m_serverChannelID ++ putInt w.op.m_ioid ++ [0x08]
             ++ ext.serializePVRequest (some pv) }]) ∧
    ((ChannelGetImpl.send ext w).2.destroy.env.sendQueue = w.env.sendQueue ∧
      (ChannelGetImpl.send ext w).2.destroy.op.m_pendingRequest = NULL_REQUEST ∧
      (ChannelGetImpl.send ext (ChannelGetImpl.send ext w).2.destroy).1 = []) := by
  unfold ChannelGetImpl.create BaseRequestImpl.create Env.contextRegisterResponseRequest
    Env.generateIOID at hw
  cases hl : generateIOIDLoop e.m_pendingResponseRequests fuel e.m_lastIOID with
  | none => simp [hl] at hw
  | some ioid =>
    simp only [hl] at hw
    simp [Env.checkAndGetTransport, Env.channelRegisterResponseRequest, hc] at hw
    subst hw
    have hres : (World.resubscribeSubscription
          { env := { e with m_responseRequests := mapInsert ioid e.m_responseRequests,
                            m_pendingResponseRequests :=
                              mapInsert ioid (mapInsert ioid e.m_pendingResponseRequests),
                            m_lastIOID := ioid },
            op := { m_ioid := ioid, m_destroyed := false, m_initialized := false,
                    m_pendingRequest := NULL_REQUEST, m_refCount := 1, m_status := Status.OK },
            m_pvRequest := some pv, m_offset := 0, m_count := 0, m_length := -1,
            m_capacity := -1 }) =
        { env := { e with m_responseRequests := mapInsert ioid e.m_responseRequests,
                          m_pendingResponseRequests :=
                            mapInsert ioid (mapInsert ioid e.m_pendingResponseRequests),
                          m_lastIOID := ioid,
                          sendQueue := e.sendQueue ++ [TransportSender.request ioid] },
          op := { m_ioid := ioid, m_destroyed := false, m_initialized := false,
                  m_pendingRequest := QOS_INIT, m_refCount := 1, m_status := Status.OK },
          m_pvRequest := some pv, m_offset := 0, m_count := 0, m_length := -1,
          m_capacity := -1 } := by
      simp [World.resubscribeSubscription, World.startRequest, startRequest_of_null,
        World.enqueueSendRequest]
    simp only [hc] at hres
    rw [hres]
    refine ⟨?_, ?_, ?_⟩
    · simp
    · rw [destroy_eq _ (by simp)]
      simp +decide [ChannelGetImpl.send, BaseRequestImpl.getPendingRequest, QOS_INIT, toByte,
        truthy, and32, toU32, toInt32]
    · have hsend : ∀ w0 : World, w0.op.m_pendingRequest = QOS_INIT →
          (ChannelGetImpl.send ext w0).2 = w0.stopRequest := by
        intro w0 h0
        simp +decide [ChannelGetImpl.send, BaseRequestImpl.getPendingRequest, h0, QOS_INIT]
      rw [hsend _ rfl]
      rw [destroy_eq _ (by simp [World.stopRequest, BaseRequestImpl.stopRequest])]
      simp +decide [ChannelGetImpl.send, BaseRequestImpl.getPendingRequest, World.stopRequest,
        BaseRequestImpl.stopRequest, BaseRequestImpl.send, NULL_REQUEST, toInt8]

/-- Witness of C7 amended (`get_destroy_before_init_response`): the ChannelGet
created on the sample channel. -/
theorem get_destroy_before_init_response_witness :
    sampleEnv.m_connectionState = ConnectionState.CONNECTED ∧
    ChannelGetImpl.create 1 sampleEnv (some ⟨0⟩) = some sampleGetWorld ∧
    sampleGetWorld.destroy.env.sendQueue = sampleGetWorld.env.sendQueue ∧
    sampleGetWorld.destroy.op.m_pendingRequest = sampleGetWorld.op.m_pendingRequest :=
  ⟨rfl, rfl,
    (get_destroy_before_init_response 1 sampleEnv ⟨0⟩ sampleCollaborators sampleGetWorld
      rfl rfl).2.1.1,
    (get_destroy_before_init_response 1 sampleEnv ⟨0⟩ sampleCollaborators sampleGetWorld
      rfl rfl).2.1.2.1⟩

/-- C8: in `MonitorStrategySingle::response`, an update with changed set `c`
and overrun set `o` that arrives while an element is buffered and unclaimed
(`m_gotMonitor`) leaves `changed | c` and `overrun | o | (c & changed)`; with
no element buffered it leaves exactly `c` and `o`. So the updates `{1}`,
`{2}`, `{1}` with empty overrun sets on a started strategy, with no poll in
between, leave `changed = {1,2}` and `overrun = {1}`, which the next `poll()`
returns. -/
theorem single_response_merge (s : MonitorStrategySingle) (sl : MonitorSlots) (c o : BitSet)
    (hs : s.slots = some sl) :
    (s.m_gotMonitor = true →
      ∃ s', s.response c o = some s' ∧ s'.m_gotMonitor = true ∧
        s'.element.changed = some (sl.m_monitorElementChangeBitSet ||| c) ∧
        s'.element.overrun =
          some (sl.m_monitorElementOverrunBitSet ||| o ||| (c &&& sl.m_monitorElementChangeBitSet))) ∧
    (s.m_gotMonitor = false →
      ∃ s', s.response c o = some s' ∧ s'.m_gotMonitor = true ∧
        s'.element.changed = some c ∧ s'.element.overrun = some o) ∧
    (∀ (compress : BitSet → Structure → BitSet) (st : Structure),
      (MonitorStrategySingle.run compress
          [MonitorCall.update (BitSet.ofList [1]) 0, MonitorCall.update (BitSet.ofList [2]) 0,
           MonitorCall.update (BitSet.ofList [1]) 0, MonitorCall.poll]
          (MonitorStrategySingle.started st)).map (fun r => r.1) =
        some [{ changed := some (BitSet.ofList [1, 2]), overrun := some (BitSet.ofList [1]) }]) := by
  refine ⟨?_, ?_, ?_⟩
  · intro hg
    refine ⟨_, by simp only [MonitorStrategySingle.response, hs, hg]; rfl, ?_, ?_, ?_⟩
    · simp [hg]
    · simp [MonitorStrategySingle.element]
    · simp only [MonitorStrategySingle.element, BitSet.or_and, Option.map_some']
      congr 1
      rw [Nat.lor_assoc, Nat.lor_assoc, Nat.lor_comm (c &&& sl.m_monitorElementChangeBitSet) o]
  · intro hg
    refine ⟨_, by simp only [MonitorStrategySingle.response, hs, hg]; rfl, ?_, ?_, ?_⟩
    · simp
    · simp [MonitorStrategySingle.element]
    · simp [MonitorStrategySingle.element]
  · intro compress st
    have h1 : (4 : Nat) &&& 2 = 0 := by decide
    have h2 : (2 : Nat) &&& 6 = 2 := by decide
    simp [MonitorStrategySingle.run, MonitorStrategySingle.step, MonitorStrategySingle.response,
      MonitorStrategySingle.poll, MonitorStrategySingle.started, MonitorStrategySingle.start,
      MonitorStrategySingle.init, MonitorStrategySingle.create, MonitorStrategySingle.element,
      BitSet.or_and, BitSet.ofList, h1, h2]

/-- Witness of C8 (`single_response_merge`): the second update `{2}` after `{1}`. -/
theorem single_response_merge_witness :
    ∃ s', ((MonitorStrategySingle.started ⟨0⟩).response (BitSet.ofList [1]) 0).bind
        (fun s => s.response (BitSet.ofList [2]) 0) = some s' ∧
      s'.element.changed = some (BitSet.ofList [1, 2]) :=
  match (single_response_merge
      { m_gotMonitor := true,
        slots := some { m_monitorElementStructure := ⟨0⟩, m_monitorElementChangeBitSet := 2,
                        m_monitorElementOverrunBitSet := 0, m_dataChangeBitSet := 0,
                        m_dataOverrunBitSet := 0 },
        m_needToCompress := false, monitorEvents := 1 }
      _ (BitSet.ofList [2]) 0 rfl).1 rfl with
  | ⟨s', h1, _, h3, _⟩ => ⟨s', h1, h3⟩

/-- C9, as stated, fails: on a started strategy the calls update `{1}`,
poll, update `{2}`, release, poll end with a poll after the last update; the
only element observed has changed set `{1}` (the last poll returns none),
while the OR of the input changed sets is `{1,2}`: bit 2 is lost. -/
theorem single_changed_or_counterexample :
    lossyCalls.getLast? = some MonitorCall.poll ∧
    (MonitorStrategySingle.run (fun b _ => b) lossyCalls
        (MonitorStrategySingle.started ⟨0⟩)).map (fun r => orAll (observedChanged r.1)) =
      some (BitSet.ofList [1]) ∧
    orAll (inputChanged lossyCalls) = BitSet.ofList [1, 2] ∧
    BitSet.ofList [1] ≠ BitSet.ofList [1, 2] := by
  refine ⟨rfl, rfl, rfl, by decide⟩

/-- C9, amended: for every interleaving of updates with `poll()` and
`release()` calls on a started `MonitorStrategySingle` the calls all return
and no changed bit is invented (the OR of the changed sets observed at the
`poll()` calls that return an element lies within the OR of the input changed
sets); and when `release()` is only called while no update has arrived since
the last `poll()`, and a `poll()` comes after the last update, the two ORs
are equal. -/
theorem single_changed_or (compress : BitSet → Structure → BitSet) (st : Structure)
    (calls : List MonitorCall) :
    ∃ obs s', MonitorStrategySingle.run compress calls (MonitorStrategySingle.started st) =
        some (obs, s') ∧
      orAll (observedChanged obs) ||| orAll (inputChanged calls) = orAll (inputChanged calls) ∧
      (releasesAfterPoll false calls = true → unpolledAtEnd false calls = false →
        orAll (observedChanged obs) = orAll (inputChanged calls)) := by
  obtain ⟨hs, hn, _, hb⟩ := started_slots st
  obtain ⟨obs, s', hrun, hsub⟩ :=
    single_run_subset compress calls (MonitorStrategySingle.started st) _ 0 0 hs hn
      (by intro i hi; simp at hi) (by intro i hi; rw [hb] at hi; simp at hi)
  refine ⟨obs, s', hrun, ?_, ?_⟩
  · apply lor_eq_right_of_bits
    intro i hi
    have := hsub i (by simpa using hi)
    simpa using this
  · intro hrel hend
    obtain ⟨obs2, s2, sl2, hrun2, _, _, h1, h2⟩ :=
      single_run_invariant compress calls (MonitorStrategySingle.started st) _ false 0 0 hs hn
        (by rw [hb]; rfl) (by intro _; rw [hb]; rfl) hrel
    rw [hrun] at hrun2
    obtain ⟨rfl, rfl⟩ : obs = obs2 ∧ s' = s2 := by simpa using hrun2
    have h2' := h2 hend
    simp only [Nat.zero_or] at h1 h2'
    exact lor_eq_of_absorbed _ _ _ h1 h2'

/-- Witness of C9 amended (`single_changed_or`): updates `{1}`, `{2}`, poll,
release, update `{1}`, poll. -/
theorem single_changed_or_witness :
    releasesAfterPoll false orderlyCalls = true ∧ unpolledAtEnd false orderlyCalls = false ∧
    ∃ obs s', MonitorStrategySingle.run (fun b _ => b) orderlyCalls
        (MonitorStrategySingle.started ⟨0⟩) = some (obs, s') ∧
      orAll (observedChanged obs) = orAll (inputChanged orderlyCalls) :=
  ⟨rfl, rfl,
    match single_changed_or (fun b _ => b) ⟨0⟩ orderlyCalls with
    | ⟨obs, s', h, _, h2⟩ => ⟨obs, s', h, h2 rfl rfl⟩⟩

/-- C10, the code at the failing input: `m_needToCompress` is false from the
constructor on and never set, so `poll()` never calls `BitSetUtil::compress`:
whatever `compress` is, after the updates `{1}` and `{2}` on a started
strategy `poll()` returns the accumulated sets `{1,2}` and `{}` themselves,
and every call sequence gives the same result as with a `compress` that
changes nothing. After `release()`, `poll()` returns no element until the
next update. -/
theorem single_poll_never_compresses (compress : BitSet → Structure → BitSet) (st : Structure) :
    (MonitorStrategySingle.run compress
        [MonitorCall.update (BitSet.ofList [1]) 0, MonitorCall.update (BitSet.ofList [2]) 0,
         MonitorCall.poll] (MonitorStrategySingle.started st)).map (fun r => r.1) =
      some [{ changed := some (BitSet.ofList [1, 2]), overrun := some 0 }] ∧
    (∀ calls : List MonitorCall,
      MonitorStrategySingle.run compress calls (MonitorStrategySingle.started st) =
        MonitorStrategySingle.run (fun b _ => b) calls (MonitorStrategySingle.started st)) ∧
    (∀ s : MonitorStrategySingle, (s.release.poll compress).1 = none ∧
      (s.release.poll compress).2.m_gotMonitor = false) := by
  refine ⟨?_, ?_, ?_⟩
  · have h1 : (4 : Nat) &&& 2 = 0 := by decide
    simp [MonitorStrategySingle.run, MonitorStrategySingle.step, MonitorStrategySingle.response,
      MonitorStrategySingle.poll, MonitorStrategySingle.started, MonitorStrategySingle.start,
      MonitorStrategySingle.init, MonitorStrategySingle.create, MonitorStrategySingle.element,
      BitSet.or_and, BitSet.ofList, h1]
  · intro calls
    exact single_run_compress_irrelevant compress calls _ (started_slots st).2.1
  · intro s
    simp [MonitorStrategySingle.release, MonitorStrategySingle.poll]

/-- C20, as stated, fails at command 5: the table holds the no-op handler
"Introspection search" there, not the bad-response handler. -/
theorem handler_table_counterexample :
    ClientResponseHandler.handleResponse 5 =
      some (ResponseHandler.NoopResponse "Introspection search") ∧
    specHandlerTable 5 = ResponseHandler.BadResponse ∧
    ClientResponseHandler.handleResponse 5 ≠ some (specHandlerTable 5) := by
  refine ⟨rfl, rfl, by decide⟩

/-- C20, amended: for every command byte `c`, `handleResponse` calls no
handler (and does not index the table) when `c < 0` or `c >= 28`; for
`0 <= c <= 27` it calls exactly the handler of the table: 0 beacon,
1 connection validation, 2 echo no-op, 3 search no-op, 4 search response,
5 introspection-search no-op, 7 create channel, 8 destroy-channel no-op,
18 message, the data-response handler for 6, 10 to 14, 16, 17 and 20, and
the bad-response handler for 9, 15, 19 and 21 to 27. -/
theorem handler_table_dispatch (c : Int) :
    ((c < 0 ∨ c ≥ 28) → ClientResponseHandler.handleResponse c = none) ∧
    (0 ≤ c → c ≤ 27 →
      ClientResponseHandler.handleResponse c = some (amendedHandlerTable c.toNat)) ∧
    (∀ n : Nat, n ≤ 27 →
      (amendedHandlerTable n = ResponseHandler.BadResponse ↔
        n ∈ [9, 15, 19, 21, 22, 23, 24, 25, 26, 27])) := by
  refine ⟨?_, ?_, ?_⟩
  · intro h
    unfold ClientResponseHandler.handleResponse
    rw [if_pos (by simpa [HANDLER_COUNT] using h)]
  · intro h0 h27
    obtain ⟨n, rfl⟩ := Int.eq_ofNat_of_zero_le h0
    have hn : n ≤ 27 := by omega
    unfold ClientResponseHandler.handleResponse
    rw [if_neg (by simp [HANDLER_COUNT]; omega)]
    simp only [Int.toNat_ofNat]
    interval_cases n <;> rfl
  · intro n hn
    interval_cases n <;> decide

/-- Witness of C20 amended (`handler_table_dispatch`): command 13 (monitor)
goes to the data-response handler. -/
theorem handler_table_dispatch_witness :
    (0 : Int) ≤ 13 ∧ (13 : Int) ≤ 27 ∧
    ClientResponseHandler.handleResponse 13 = some ResponseHandler.DataResponseHandler :=
  ⟨by decide, by decide, (handler_table_dispatch 13).2.1 (by decide) (by decide)⟩

/-- C19: for a search response with the found flag set, the handler returns
and forwards CIDs only when the 16-byte address field is ten zero bytes, then
0xFF 0xFF, then four address bytes, and makes no `searchResponse` call for any
other field. When the field is accepted, each of the `count` listed CIDs is
forwarded once, in wire order, with minor revision `version & 0x0F` and with
the server address made of the last four bytes (the sender's address when
they are all zero) and the 16-bit port that follows. -/
theorem search_response_forwarding (responseFrom : osiSockAddr) (version : Int)
    (q0 q1 q2 q3 f p0 p1 c0 c1 : Nat) (a cids rest : List Nat)
    (ha : a.length = 16) (hbytes : ∀ x ∈ a, x < 256) (hf : f < 256) (hfound : f ≠ 0)
    (hp0 : p0 < 256) (hp1 : p1 < 256) (hc0 : c0 < 128) (hc1 : c1 < 256)
    (hcount : c0 * 256 + c1 = cids.length) :
    SearchResponseHandler.handleResponse responseFrom version
        ([q0, q1, q2, q3, f] ++ a ++ [p0, p1, c0, c1] ++ cids.flatMap putInt ++ rest) =
      (if a.take 12 = [0, 0, 0, 0, 0, 0, 0, 0, 0, 0, 0xFF, 0xFF] then
        cids.map (fun cid =>
          { cid := cid % 4294967296,
            searchSequenceId := toInt32 (beValue [q0, q1, q2, q3]),
            minorRevision := and32 version 0x0F,
            serverAddress :=
              { s_addr := if a.drop 12 = [0, 0, 0, 0] then responseFrom.s_addr
                          else beValue (a.drop 12),
                sin_port := beValue [p0, p1] } })
       else [], true) := by
  obtain ⟨b0, b1, b2, b3, b4, b5, b6, b7, b8, b9, b10, b11, b12, b13, b14, b15, rfl⟩ :=
    list_length_sixteen a ha
  simp only [List.mem_cons, List.mem_singleton, forall_eq_or_imp, forall_eq, List.not_mem_nil,
    false_implies, implies_true, and_true] at hbytes
  obtain ⟨h0, h1, h2, h3, h4, h5, h6, h7, h8, h9, h10, h11, h12, h13, h14, h15⟩ := hbytes
  have hfb : (toInt8 (f : Int) != 0) = true := by
    simpa using (toInt8_eq_zero_iff f hf).not.2 hfound
  have hcnt : (toInt16 (c0 * 256 + c1)).toNat = cids.length := by
    unfold toInt16
    split <;> omega
  have hport : ((toInt16 (p0 * 256 + p1)) % 65536).toNat = p0 * 256 + p1 := by
    unfold toInt16
    split <;> omega
  have haddr : toU32 (toInt32 (b12 * 16777216 + b13 * 65536 + b14 * 256 + b15)) =
      b12 * 16777216 + b13 * 65536 + b14 * 256 + b15 := by
    rw [toU32_toInt32]; omega
  have haddr0 : (b12 * 16777216 + b13 * 65536 + b14 * 256 + b15 = 0) ↔
      (b12 = 0 ∧ b13 = 0 ∧ b14 = 0 ∧ b15 = 0) := by omega
  have hbe4 : ∀ x0 x1 x2 x3 : Nat,
      beValue [x0, x1, x2, x3] = x0 * 16777216 + x1 * 65536 + x2 * 256 + x3 := by
    intro x0 x1 x2 x3
    simp only [beValue, List.foldl]
    ring
  have hbe2 : ∀ x0 x1 : Nat, beValue [x0, x1] = x0 * 256 + x1 := by
    intro x0 x1
    simp only [beValue, List.foldl]
    ring
  have hdrop : ([b12, b13, b14, b15] = [0, 0, 0, 0]) ↔
      (b12 * 16777216 + b13 * 65536 + b14 * 256 + b15 = 0) := by
    simp only [List.cons.injEq, and_true]
    omega
  have hL := toInt64_eq_zero_iff b0 b1 b2 b3 b4 b5 b6 b7 h0 h1 h2 h3 h4 h5 h6 h7
  have hS := toInt16_eq_zero_iff b8 b9 h8 h9
  have hF := toInt16_eq_ffff_iff b10 b11 h10 h11
  have hrd := readCIDs_of_putInt
    (toInt32 (q0 * 16777216 + q1 * 65536 + q2 * 256 + q3)) (and32 version 15)
    { s_addr := if b12 * 16777216 + b13 * 65536 + b14 * 256 + b15 = 0 then responseFrom.s_addr
                else b12 * 16777216 + b13 * 65536 + b14 * 256 + b15,
      sin_port := p0 * 256 + p1 } cids rest
  simp only [SearchResponseHandler.handleResponse, List.cons_append, List.nil_append,
    List.append_assoc, getInt, getByte, getLong, getShort, ensureData, hfb, hcnt, hport, haddr,
    List.length_cons, List.take, List.drop, hbe4, hbe2, hdrop, hrd]
  by_cases hacc : b0 = 0 ∧ b1 = 0 ∧ b2 = 0 ∧ b3 = 0 ∧ b4 = 0 ∧ b5 = 0 ∧ b6 = 0 ∧ b7 = 0 ∧
      b8 = 0 ∧ b9 = 0 ∧ b10 = 255 ∧ b11 = 255
  · obtain ⟨rfl, rfl, rfl, rfl, rfl, rfl, rfl, rfl, rfl, rfl, rfl, rfl⟩ := hacc
    simp +decide
  · have hne : ¬ ([b0, b1, b2, b3, b4, b5, b6, b7, b8, b9, b10, b11] =
        [0, 0, 0, 0, 0, 0, 0, 0, 0, 0, 255, 255]) := by
      intro h
      simp only [List.cons.injEq, and_true] at h
      exact hacc h
    rw [if_neg hne]
    by_cases g1 : toInt64 (b0 * 72057594037927936 + b1 * 281474976710656 + b2 * 1099511627776
        + b3 * 4294967296 + b4 * 16777216 + b5 * 65536 + b6 * 256 + b7) = 0
    · by_cases g2 : toInt16 (b8 * 256 + b9) = 0
      · by_cases g3 : toInt16 (b10 * 256 + b11) = toInt16 0xFFFF
        · exfalso
          obtain ⟨e0, e1, e2, e3, e4, e5, e6, e7⟩ := hL.1 g1
          obtain ⟨e8, e9⟩ := hS.1 g2
          obtain ⟨e10, e11⟩ := hF.1 g3
          exact hacc ⟨e0, e1, e2, e3, e4, e5, e6, e7, e8, e9, e10, e11⟩
        · simp [g1, g2, g3]
      · simp [g1, g2]
    · simp [g1]

/-- Witness of C19 (`search_response_forwarding`): a response from
10.0.0.1:5076 with sequence id 42 that lists the CIDs 5 and 6. -/
theorem search_response_forwarding_witness :
    SearchResponseHandler.handleResponse { s_addr := 7, sin_port := 9 } 0x13
        ([0, 0, 0, 42, 1] ++ [0, 0, 0, 0, 0, 0, 0, 0, 0, 0, 0xFF, 0xFF, 10, 0, 0, 1]
          ++ [0x13, 0xD4, 0, 2] ++ [5, 6].flatMap putInt ++ []) =
      ([{ cid := 5, searchSequenceId := 42, minorRevision := 3,
          serverAddress := { s_addr := 167772161, sin_port := 5076 } },
        { cid := 6, searchSequenceId := 42, minorRevision := 3,
          serverAddress := { s_addr := 167772161, sin_port := 5076 } }], true) :=
  (search_response_forwarding { s_addr := 7, sin_port := 9 } 0x13 0 0 0 42 1 0x13 0xD4 0 2
    [0, 0, 0, 0, 0, 0, 0, 0, 0, 0, 0xFF, 0xFF, 10, 0, 0, 1] [5, 6] []
    (by decide) (by decide) (by decide) (by decide) (by decide) (by decide) (by decide)
    (by decide) (by decide)).trans (by decide)

/-- C17: with ids taken modulo 2^32, whenever some 32-bit id is not a key of
the live map, `generateIOID` (and likewise `generateCID`) terminates, after
`k <= 2^32` increments, and returns the first id after the last allocated id,
in cyclically increasing order, that is not a key; that id was not a key
before the call, is a key (mapped to the null pointer) after it, becomes the
last allocated id, and no other key is added, removed or remapped. -/
theorem generate_id_first_free (c : InternalClientContextImpl) :
    ((∃ x : Nat, x < 4294967296 ∧ RefMap.lookup c.m_pendingResponseRequests x = none) →
      ∃ k, FirstFreeAfter (fun i => RefMap.lookup c.m_pendingResponseRequests i = none)
          c.m_lastIOID k ∧
        ∀ fuel, k ≤ fuel →
          ∃ c', c.generateIOID fuel = some ((c.m_lastIOID + k) % 4294967296, c') ∧
            c'.m_lastIOID = (c.m_lastIOID + k) % 4294967296 ∧
            RefMap.lookup c'.m_pendingResponseRequests ((c.m_lastIOID + k) % 4294967296) =
              some 0 ∧
            (∀ i, i ≠ (c.m_lastIOID + k) % 4294967296 →
              RefMap.lookup c'.m_pendingResponseRequests i =
                RefMap.lookup c.m_pendingResponseRequests i) ∧
            c'.m_channelsByCID = c.m_channelsByCID ∧ c'.m_lastCID = c.m_lastCID) ∧
    ((∃ x : Nat, x < 4294967296 ∧ RefMap.lookup c.m_channelsByCID x = none) →
      ∃ k, FirstFreeAfter (fun i => RefMap.lookup c.m_channelsByCID i = none) c.m_lastCID k ∧
        ∀ fuel, k ≤ fuel →
          ∃ c', c.generateCID fuel = some ((c.m_lastCID + k) % 4294967296, c') ∧
            c'.m_lastCID = (c.m_lastCID + k) % 4294967296 ∧
            RefMap.lookup c'.m_channelsByCID ((c.m_lastCID + k) % 4294967296) = some 0 ∧
            (∀ i, i ≠ (c.m_lastCID + k) % 4294967296 →
              RefMap.lookup c'.m_channelsByCID i = RefMap.lookup c.m_channelsByCID i) ∧
            c'.m_pendingResponseRequests = c.m_pendingResponseRequests ∧
            c'.m_lastIOID = c.m_lastIOID) := by
  constructor
  · intro h
    obtain ⟨k, hk⟩ := exists_firstFreeAfter _ c.m_lastIOID h
    refine ⟨k, hk, ?_⟩
    obtain ⟨h1, _, hbusy, hfree⟩ := hk
    intro fuel hfuel
    have hloop := generateIOIDLoop_first_free (RefMap.keyList c.m_pendingResponseRequests)
      fuel c.m_lastIOID k h1 hfuel
      (by
        intro j hj1 hj2
        by_contra hn
        exact hbusy j hj1 hj2 ((RefMap.lookup_eq_none_iff _ _).2 hn))
      ((RefMap.lookup_eq_none_iff _ _).1 hfree)
    refine ⟨{ c with m_lastIOID := (c.m_lastIOID + k) % 4294967296,
                     m_pendingResponseRequests :=
                       RefMap.assign c.m_pendingResponseRequests
                         ((c.m_lastIOID + k) % 4294967296) 0 },
      by simp only [InternalClientContextImpl.generateIOID, hloop], rfl, ?_, ?_, rfl, rfl⟩
    · simp [RefMap.lookup_assign]
    · intro i hi
      simp [RefMap.lookup_assign, Ne.symm hi]
  · intro h
    obtain ⟨k, hk⟩ := exists_firstFreeAfter _ c.m_lastCID h
    refine ⟨k, hk, ?_⟩
    obtain ⟨h1, _, hbusy, hfree⟩ := hk
    intro fuel hfuel
    have hloop := generateIOIDLoop_first_free (RefMap.keyList c.m_channelsByCID)
      fuel c.m_lastCID k h1 hfuel
      (by
        intro j hj1 hj2
        by_contra hn
        exact hbusy j hj1 hj2 ((RefMap.lookup_eq_none_iff _ _).2 hn))
      ((RefMap.lookup_eq_none_iff _ _).1 hfree)
    rw [← generateCIDLoop_eq] at hloop
    refine ⟨{ c with m_lastCID := (c.m_lastCID + k) % 4294967296,
                     m_channelsByCID :=
                       RefMap.assign c.m_channelsByCID ((c.m_lastCID + k) % 4294967296) 0 },
      by simp only [InternalClientContextImpl.generateCID, hloop], rfl, ?_, ?_, rfl, rfl⟩
    · simp [RefMap.lookup_assign]
    · intro i hi
      simp [RefMap.lookup_assign, Ne.symm hi]

/-- Witness of C17 (`generate_id_first_free`): with last IOID 2^32 - 1 and the
IOIDs 0 and 1 taken, the allocator wraps and returns 2. -/
theorem generate_id_first_free_witness :
    (∃ x : Nat, x < 4294967296 ∧ RefMap.lookup sampleContext.m_pendingResponseRequests x = none) ∧
    (sampleContext.generateIOID 3).map (fun r => r.1) = some 2 ∧
    ∃ k, FirstFreeAfter (fun i => RefMap.lookup sampleContext.m_pendingResponseRequests i = none)
      sampleContext.m_lastIOID k :=
  ⟨⟨2, by decide, by decide⟩, by decide,
    match (generate_id_first_free sampleContext).1 ⟨2, by decide, by decide⟩ with
    | ⟨k, hk, _⟩ => ⟨k, hk⟩⟩

/-- C11: the `ChannelMonitorImpl` constructor chooses the strategy from the
integer extracted from the pvRequest field `record.queueSize`, with 2 when the
field is absent: -1 gives `MonitorStrategyNotify`, 0 gives
`MonitorStrategyEntire`, every value >= 1 (so also the default) gives
`MonitorStrategySingle`; when the extraction fails the requester gets
`monitorConnect` with an error status, no strategy is created, and no INIT
request is issued (no pending request, nothing enqueued). -/
theorem monitor_strategy_choice (getSubField : PVStructure → QueueSizeField)
    (extract : String → Option Int) (fuel : Nat) (e : Env) (pv : PVStructure) (w : World)
    (hw : BaseRequestImpl.create fuel e (some pv) = some w) :
    ∃ m, ChannelMonitorImpl.create getSubField extract fuel e (some pv) = some m ∧
      (getSubField pv = QueueSizeField.absent →
        m.m_monitorStrategy = some (MonitorStrategy.single MonitorStrategySingle.create)) ∧
      (∀ value n, getSubField pv = QueueSizeField.string value → extract value = some n →
        (n = -1 →
          m.m_monitorStrategy = some (MonitorStrategy.notify MonitorStrategyNotify.create)) ∧
        (n = 0 →
          m.m_monitorStrategy = some (MonitorStrategy.entire MonitorStrategyEntire.create)) ∧
        (n ≥ 1 →
          m.m_monitorStrategy = some (MonitorStrategy.single MonitorStrategySingle.create))) ∧
      (∀ value, getSubField pv = QueueSizeField.string value → extract value = none →
        m.m_monitorStrategy = none ∧
        m.world.env.callbacks = e.callbacks ++ [Callback.monitorConnect failedToConvert] ∧
        failedToConvert.type = StatusType.ERROR ∧
        m.world.env.sendQueue = e.sendQueue ∧
        m.world.op.m_pendingRequest = NULL_REQUEST) := by
  have hwe : w.env.callbacks = e.callbacks ∧ w.env.sendQueue = e.sendQueue ∧
      w.op.m_pendingRequest = NULL_REQUEST := by
    unfold BaseRequestImpl.create at hw
    cases hreg : e.contextRegisterResponseRequest fuel with
    | none => simp [hreg] at hw
    | some r =>
      obtain ⟨ioid, e1⟩ := r
      simp only [hreg, Option.some.injEq] at hw
      subst hw
      unfold Env.contextRegisterResponseRequest Env.generateIOID at hreg
      cases hl : generateIOIDLoop e.m_pendingResponseRequests fuel e.m_lastIOID with
      | none => simp [hl] at hreg
      | some i =>
        simp only [hl, Option.some.injEq, Prod.mk.injEq] at hreg
        obtain ⟨_, rfl⟩ := hreg
        simp [Env.channelRegisterResponseRequest]
  have hsome : ∃ m, ChannelMonitorImpl.create getSubField extract fuel e (some pv) = some m := by
    unfold ChannelMonitorImpl.create
    simp only [hw]
    cases hf : getSubField pv with
    | absent => cases hc : w.env.checkAndGetTransport <;> simp
    | notString => cases hc : w.env.checkAndGetTransport <;> simp
    | string value =>
      cases hx : extract value with
      | none => simp [hx]
      | some n => cases hc : w.env.checkAndGetTransport <;> simp [hx, hc]
  obtain ⟨m, hm⟩ := hsome
  refine ⟨m, hm, ?_, ?_, ?_⟩
  · intro hf
    cases hc : w.env.checkAndGetTransport <;>
      simp [ChannelMonitorImpl.create, hw, hf, hc] at hm <;> rw [← hm]
  · intro value n hf hx
    have hsel : m.m_monitorStrategy = some
        (if n = -1 then MonitorStrategy.notify MonitorStrategyNotify.create
         else if n = 0 then MonitorStrategy.entire MonitorStrategyEntire.create
         else MonitorStrategy.single MonitorStrategySingle.create) := by
      cases hc : w.env.checkAndGetTransport <;>
        simp only [ChannelMonitorImpl.create, hw, hf, hx, hc, Option.some.injEq] at hm <;>
        rw [← hm]
    refine ⟨?_, ?_, ?_⟩
    · intro hn
      rw [hsel, if_pos hn]
    · intro hn
      rw [hsel, if_neg (by omega), if_pos hn]
    · intro hn
      rw [hsel, if_neg (by omega), if_neg (by omega)]
  · intro value hf hx
    simp only [ChannelMonitorImpl.create, hw, hf, hx, Option.some.injEq] at hm
    rw [← hm]
    simp [World.callback, hwe, failedToConvert]

/-- Witness of C11 (`monitor_strategy_choice`): the queue size `"0"` selects
`MonitorStrategyEntire`. -/
theorem monitor_strategy_choice_witness :
    ∃ m, ChannelMonitorImpl.create sampleGetSubField sampleExtract 1 sampleEnv (some ⟨0⟩) =
        some m ∧
      m.m_monitorStrategy = some (MonitorStrategy.entire MonitorStrategyEntire.create) :=
  match monitor_strategy_choice sampleGetSubField sampleExtract 1 sampleEnv ⟨0⟩
      ({ sampleGetWorld with
          env := { sampleGetWorld.env with sendQueue := [] },
          op := { sampleGetWorld.op with m_pendingRequest := NULL_REQUEST } }) rfl with
  | ⟨m, hm, _, h2, _⟩ => ⟨m, hm, (h2 "0" 0 rfl (by decide)).2.1 rfl⟩

/-- C12, as stated, fails: on a monitor that is not initialized and already
destroyed, `start()` and `stop()` return `destroyedStatus`, not
`notInitializedStatus`. -/
theorem monitor_start_stop_counterexample :
    sampleDestroyedMonitor.world.op.m_initialized = false ∧
    sampleDestroyedMonitor.start = some (destroyedStatus, sampleDestroyedMonitor) ∧
    sampleDestroyedMonitor.stop = some (destroyedStatus, sampleDestroyedMonitor) ∧
    destroyedStatus ≠ notInitializedStatus := by
  refine ⟨rfl, rfl, rfl, by decide⟩

/-- C12, amended: for an initialized, non-destroyed `ChannelMonitorImpl` with
no pending request on a connected channel, `start()` sets the pending request
to PROCESS|GET (0x60), enqueues the monitor, sets the started flag and
returns OK, and `stop()` sets the pending request to PROCESS (0x20), enqueues
the monitor, clears the started flag and returns OK; on a non-destroyed
monitor that is not initialized both return `notInitializedStatus`, change
nothing, set no pending request and enqueue nothing. -/
theorem monitor_start_stop (m : ChannelMonitorImpl) (hd : m.world.op.m_destroyed = false) :
    (m.world.op.m_initialized = true → m.world.op.m_pendingRequest = NULL_REQUEST →
      m.world.env.m_connectionState = ConnectionState.CONNECTED →
      ∀ strategy, m.m_monitorStrategy = some strategy →
        (∃ m', m.start = some (Status.OK, m') ∧ m'.world.op.m_pendingRequest = 0x60 ∧
          m'.world.env.sendQueue =
            m.world.env.sendQueue ++ [TransportSender.request m.world.op.m_ioid] ∧
          m'.m_started = true) ∧
        (∃ m', m.stop = some (Status.OK, m') ∧ m'.world.op.m_pendingRequest = 0x20 ∧
          m'.world.env.sendQueue =
            m.world.env.sendQueue ++ [TransportSender.request m.world.op.m_ioid] ∧
          m'.m_started = false)) ∧
    (m.world.op.m_initialized = false →
      m.start = some (notInitializedStatus, m) ∧ m.stop = some (notInitializedStatus, m)) := by
  constructor
  · intro hi hp hc strategy hs
    have hst : ∀ q : Int, m.world.op.startRequest q =
        (true, { m.world.op with m_pendingRequest := q }) :=
      fun q => startRequest_of_null _ q hp
    constructor
    · simp +decide [ChannelMonitorImpl.start, hd, hi, hs, World.startRequest, hst,
        Env.checkAndGetTransport, hc, World.enqueueSendRequest, QOS_PROCESS, QOS_GET, or32, toU32,
        toInt32]
    · simp +decide [ChannelMonitorImpl.stop, hd, hi, hs, World.startRequest, hst,
        Env.checkAndGetTransport, hc, World.enqueueSendRequest, QOS_PROCESS]
  · intro hi
    simp [ChannelMonitorImpl.start, ChannelMonitorImpl.stop, hd, hi]

/-- Witness of C12 amended (`monitor_start_stop`): `start()` on the sample
monitor returns OK and leaves 0x60 pending. -/
theorem monitor_start_stop_witness :
    sampleMonitor.world.op.m_destroyed = false ∧
    ∃ m', sampleMonitor.start = some (Status.OK, m') ∧ m'.world.op.m_pendingRequest = 0x60 ∧
      m'.m_started = true :=
  ⟨rfl,
    match ((monitor_start_stop sampleMonitor rfl).1 rfl rfl rfl _ rfl).1 with
    | ⟨m', h1, h2, _, h4⟩ => ⟨m', h1, h2, h4⟩⟩

/-- C16 (the code departs from it): on the first search result `createChannel`
enqueues the channel and its `send()` emits the command-7 message with count
1, the CID and the name; but after `disconnect()` and `connect()`, when the
next search result makes `createChannel` enqueue the channel on transport B,
`send()` emits a command-8 message carrying the SID and the CID, because
`m_issueCreateMessage` is still false. -/
theorem create_channel_after_reconnect :
    sampleCreating.log = sampleSearching.log ++
      [Event.enqueueSendRequest (some 100) (Sender.channel 1)] ∧
    sampleCreating.channelSend sampleSerializeString 1 =
      [{ command := 7, body := putShort 1 ++ putInt 1 ++ sampleSerializeString "pv" }] ∧
    (sampleConnected.channels 1).m_connectionState = ConnectionState.CONNECTED ∧
    (sampleDisconnected.channels 1).m_connectionState = ConnectionState.DISCONNECTED ∧
    sampleReconnecting.log = sampleDisconnected.log ++ [Event.searchRegisterChannel 1] ∧
    sampleRecreating.log = sampleReconnecting.log ++
      [Event.transportRelease 100 1, Event.enqueueSendRequest (some 101) (Sender.channel 1)] ∧
    (sampleRecreating.channels 1).m_issueCreateMessage = false ∧
    sampleRecreating.channelSend sampleSerializeString 1 =
      [{ command := 8, body := putInt 55 ++ putInt 1 }] := by
  refine ⟨?_, ?_, ?_, ?_, ?_, ?_, ?_, ?_⟩ <;> rfl

/-- C14 (the code departs from it): a channel that was connected, is held by
one more reference and was then destroyed is in state DESTROYED and still
references its transport; `transportClosed()` on it sets the state to
DISCONNECTED, delivers `channelStateChange(DISCONNECTED)` and registers the
channel with the search manager, and `transportChanged()`,
`createChannelFailed()`, `timeout()` and a search response without a transport
register it with the search manager as well. -/
theorem destroyed_channel_revived :
    (sampleDestroyedChannel.channels 1).m_connectionState = ConnectionState.DESTROYED ∧
    (sampleDestroyedChannel.channels 1).m_transport = some sampleTransportA ∧
    ((sampleDestroyedChannel.transportClosed 1).channels 1).m_connectionState =
      ConnectionState.DISCONNECTED ∧
    (sampleDestroyedChannel.transportClosed 1).log = sampleDestroyedChannel.log ++
      [Event.channelStateChange 1 ConnectionState.DISCONNECTED, Event.searchRegisterChannel 1] ∧
    (sampleDestroyedChannel.transportChanged 1).log = sampleDestroyedChannel.log ++
      [Event.searchRegisterChannel 1] ∧
    (sampleDestroyedChannel.createChannelFailed 1).log = sampleDestroyedChannel.log ++
      [Event.searchRegisterChannel 1] ∧
    (sampleDestroyedChannel.channelTimeout 1).log = sampleDestroyedChannel.log ++
      [Event.searchRegisterChannel 1] ∧
    (sampleDestroyedChannel.searchResponse 1 sampleTransportA.remoteAddress none).log =
      sampleDestroyedChannel.log ++ [Event.searchRegisterChannel 1] := by
  refine ⟨?_, ?_, ?_, ?_, ?_, ?_, ?_, ?_⟩ <;> decide

/-- C15: `connectionCompleted(sid)` on a channel that is neither DESTROYED nor
CONNECTED stores `sid`, calls `resubscribeSubscription` on every registered
subscription request, in the order of the map, and only after these calls
delivers one `channelStateChange(CONNECTED)`, the last call it makes; on a
CONNECTED channel it delivers no state change; on a DESTROYED channel it
changes nothing. -/
theorem connection_completed_resubscribes (s : Sys) (c : Nat) (sid : pvAccessID) :
    ((s.channels c).m_connectionState ≠ ConnectionState.DESTROYED →
      (s.channels c).m_connectionState ≠ ConnectionState.CONNECTED →
      ((s.connectionCompleted c sid).channels c).m_serverChannelID = sid ∧
      ((s.connectionCompleted c sid).channels c).m_connectionState = ConnectionState.CONNECTED ∧
      ∃ mid, (s.connectionCompleted c sid).log =
          s.log ++ mid ++ [Event.channelStateChange c ConnectionState.CONNECTED] ∧
        resubscribesOf mid =
          (RefMap.valueList (s.channels c).m_responseRequests).filter
            (fun o => s.isSubscriptionRequest o) ∧
        stateChangesOf mid = []) ∧
    ((s.channels c).m_connectionState = ConnectionState.CONNECTED →
      stateChangesOf (s.connectionCompleted c sid).log = stateChangesOf s.log) ∧
    ((s.channels c).m_connectionState = ConnectionState.DESTROYED →
      s.connectionCompleted c sid = s) := by
  refine ⟨?_, ?_, ?_⟩
  · intro hd hn
    obtain ⟨hc, -, mid, hlog, hre, hst⟩ := Sys.resubscribeSubscriptions_spec
      (s.setChannel c (fun ch => { ch with m_serverChannelID := sid })) c
    have hstate : (((s.setChannel c (fun ch => { ch with m_serverChannelID := sid
        })).resubscribeSubscriptions c).channels c).m_connectionState ≠
        ConnectionState.CONNECTED := by
      rw [hc]; simpa using hn
    rw [Sys.connectionCompleted_of_not_destroyed s c sid hd]
    unfold Sys.setConnectionState
    rw [if_pos hstate]
    simp only [Sys.emit_channels, Sys.setChannel_channels_same, hc, Sys.emit_log,
      Sys.setChannel_log]
    refine ⟨trivial, trivial, mid, ?_, ?_, hst⟩
    · rw [hlog]; rfl
    · rw [hre]
      have hm : ((s.setChannel c (fun ch => { ch with m_serverChannelID := sid })).channels
          c).m_responseRequests = (s.channels c).m_responseRequests := by simp
      rw [hm]; rfl
  · intro hcon
    obtain ⟨hc, -, mid, hlog, -, hst⟩ := Sys.resubscribeSubscriptions_spec
      (s.setChannel c (fun ch => { ch with m_serverChannelID := sid })) c
    have hstate : ¬ (((s.setChannel c (fun ch => { ch with m_serverChannelID := sid
        })).resubscribeSubscriptions c).channels c).m_connectionState ≠
        ConnectionState.CONNECTED := by
      rw [hc]; simpa using hcon
    rw [Sys.connectionCompleted_of_not_destroyed s c sid (by rw [hcon]; decide)]
    unfold Sys.setConnectionState
    rw [if_neg hstate, hlog]
    simp [hst]
  · intro hd
    unfold Sys.connectionCompleted
    rw [if_pos hd]

/-- C15 at a channel with a channel get and a get field request registered:
the channel get alone is resubscribed, then CONNECTED is delivered. -/
theorem connection_completed_resubscribes_witness :
    (sampleRequests.channels 1).m_connectionState ≠ ConnectionState.DESTROYED ∧
    (sampleRequests.channels 1).m_connectionState ≠ ConnectionState.CONNECTED ∧
    RefMap.valueList (sampleRequests.channels 1).m_responseRequests = [2, 3] ∧
    ((sampleRequests.connectionCompleted 1 55).channels 1).m_serverChannelID = 55 ∧
    ((sampleRequests.connectionCompleted 1 55).channels 1).m_connectionState =
      ConnectionState.CONNECTED ∧
    ∃ mid, (sampleRequests.connectionCompleted 1 55).log =
        sampleRequests.log ++ mid ++ [Event.channelStateChange 1 ConnectionState.CONNECTED] ∧
      resubscribesOf mid =
        (RefMap.valueList (sampleRequests.channels 1).m_responseRequests).filter
          (fun o => sampleRequests.isSubscriptionRequest o) ∧
      stateChangesOf mid = [] :=
  ⟨by decide, by decide, by decide,
    (connection_completed_resubscribes sampleRequests 1 55).1 (by decide) (by decide)⟩

/-- C18: from a state in which the registries agree (as in the initial
context), every run of operation constructions and operation destroys ends,
while fewer than 2^32 IOIDs are in use, in a state where for every channel
`c`, IOID `i` and object `o`: `(i, o)` is in the map of `c` if and only if
`(i, o)` is in the context map and `o` is an object of `c`; and two distinct
live objects have different IOIDs. -/
theorem registries_agree (s : Sys) (steps : List RequestStep) (hs : Consistent s)
    (hlen : s.context.m_pendingResponseRequests.length + steps.length < 4294967296) :
    ∃ s1, s.requestRun 4294967296 steps = some s1 ∧
      (∀ c i o, RefMap.lookup (s1.channels c).m_responseRequests i = some o ↔
        (RefMap.lookup s1.context.m_pendingResponseRequests i = some o ∧
          ∃ r, s1.objects o = some r ∧ r.m_channel = c)) ∧
      (∀ o1 o2 r1 r2, s1.objects o1 = some r1 → s1.objects o2 = some r2 →
        r1.base.m_destroyed = false → r2.base.m_destroyed = false → o1 ≠ o2 →
        r1.base.m_ioid ≠ r2.base.m_ioid) := by
  obtain ⟨s1, hrun, ha, hb, hc, -⟩ := Consistent.requestRun steps s hs hlen
  refine ⟨s1, hrun, ?_, ?_⟩
  · intro c i o
    constructor
    · exact hb c i o
    · rintro ⟨hl, r, hr, hrc⟩
      obtain ⟨r1, hr1, -, -, hch⟩ := ha i o hl
      rw [hr] at hr1
      cases hr1
      rw [← hrc]; exact hch
  · intro o1 o2 r1 r2 h1 h2 hd1 hd2 hne heq
    have l1 := hc o1 r1 h1 hd1
    have l2 := hc o2 r2 h2 hd2
    rw [heq, l2] at l1
    cases l1
    exact hne rfl

/-- C18 at a run of five steps from the initial context. -/
theorem registries_agree_witness :
    Consistent Sys.initial ∧
    Sys.initial.context.m_pendingResponseRequests.length + sampleSteps.length < 4294967296 ∧
    ∃ s1, Sys.initial.requestRun 4294967296 sampleSteps = some s1 ∧
      (∀ c i o, RefMap.lookup (s1.channels c).m_responseRequests i = some o ↔
        (RefMap.lookup s1.context.m_pendingResponseRequests i = some o ∧
          ∃ r, s1.objects o = some r ∧ r.m_channel = c)) ∧
      (∀ o1 o2 r1 r2, s1.objects o1 = some r1 → s1.objects o2 = some r2 →
        r1.base.m_destroyed = false → r2.base.m_destroyed = false → o1 ≠ o2 →
        r1.base.m_ioid ≠ r2.base.m_ioid) :=
  ⟨consistent_initial, by decide,
    registries_agree Sys.initial sampleSteps consistent_initial (by decide)⟩

/-- C13: `destroyChannel()` on a channel that is not DESTROYED and whose map
is well formed returns; it calls `reportStatus(channelDestroyed)` once on each
registered object (these are distinct) and on nothing else; afterwards each of
them is destroyed, the map of the channel is empty, the context map has none
of their IOIDs, and the state is DESTROYED. -/
theorem destroy_channel_reports (s : Sys) (c : Nat) (force : Bool)
    (hstate : (s.channels c).m_connectionState ≠ ConnectionState.DESTROYED)
    (hvalid : RequestsValid s c) :
    ∃ s1, s.destroyChannel c force = Except.ok s1 ∧
      reportsOf s1.log = reportsOf s.log ++
        (RefMap.valueList (s.channels c).m_responseRequests).map
          (fun o => (o, channelDestroyed)) ∧
      (RefMap.valueList (s.channels c).m_responseRequests).Nodup ∧
      (∀ o ∈ RefMap.valueList (s.channels c).m_responseRequests,
        ∃ r, s1.objects o = some r ∧ r.base.m_destroyed = true) ∧
      (s1.channels c).m_responseRequests = [] ∧
      (∀ i ∈ RefMap.keyList (s.channels c).m_responseRequests,
        RefMap.lookup s1.context.m_pendingResponseRequests i = none) ∧
      (s1.channels c).m_connectionState = ConnectionState.DESTROYED := by
  obtain ⟨hnd, hv⟩ := hvalid
  -- the state in which the loop of `disconnectPendingIO(true)` starts
  have hstart : KeepsRequests c s
      (((s.emit (Event.searchUnregisterChannel c)).channelCancel c).setChannel c
        (fun ch => { ch with m_needSubscriptionUpdate := true })) :=
    KeepsRequests.emit_setChannel c s c _ _ (by intro _; rfl) (by rfl)
  obtain ⟨frep, fdest, -, fch, fctx⟩ := destroy_fold c (s.channels c).m_responseRequests
    (((s.emit (Event.searchUnregisterChannel c)).channelCancel c).setChannel c
      (fun ch => { ch with m_needSubscriptionUpdate := true })) hnd
    (by
      intro e he
      obtain ⟨r, hr, hrest⟩ := hv e he
      exact ⟨r, by rw [hstart.1]; exact hr, hrest⟩)
  have hpending : ( Sys.disconnectPendingIO ((s.emit (Event.searchUnregisterChannel c)).channelCancel c)
      c true) =
      (RefMap.valueList (s.channels c).m_responseRequests).foldl
        (fun acc o => acc.reportStatus o channelDestroyed)
        (((s.emit (Event.searchUnregisterChannel c)).channelCancel c).setChannel c
          (fun ch => { ch with m_needSubscriptionUpdate := true })) := by
    unfold Sys.disconnectPendingIO
    simp only [if_true]
    rw [hstart.2.2.1]
  rw [← hpending] at frep fdest fch fctx
  -- the map of the channel is empty after the loop
  have hempty : (( Sys.disconnectPendingIO ((s.emit (Event.searchUnregisterChannel c)).channelCancel c)
      c true).channels c).m_responseRequests = [] := by
    apply RefMap.eq_nil_of_lookup_none
    intro k
    rw [fch k]
    by_cases hk : k ∈ RefMap.keyList (s.channels c).m_responseRequests
    · rw [if_pos hk]
    · rw [if_neg hk, hstart.2.2.1]
      exact (RefMap.lookup_eq_none_iff _ _).mpr hk
  -- the rest of `destroyChannel` leaves the requests alone
  have k3 : KeepsRequests c
      ( Sys.disconnectPendingIO ((s.emit (Event.searchUnregisterChannel c)).channelCancel c) c true)
      (if (( Sys.disconnectPendingIO ((s.emit (Event.searchUnregisterChannel c)).channelCancel c)
          c true).channels c).m_connectionState = ConnectionState.CONNECTED then
        ( Sys.disconnectPendingIO ((s.emit (Event.searchUnregisterChannel c)).channelCancel c)
          c true).disconnectWith c false true
       else Sys.disconnectPendingIO ((s.emit (Event.searchUnregisterChannel c)).channelCancel c)
          c true) := by
    split
    · exact KeepsRequests.disconnectWith c _ false true hempty
    · exact KeepsRequests.refl c _
  have k4 := KeepsRequests.trans c _ _ _ k3
    (KeepsRequests.setConnectionState c _ c ConnectionState.DESTROYED)
  unfold Sys.destroyChannel
  rw [if_neg hstate]
  simp only []
  refine ⟨_, rfl, ?_, ?_, ?_, ?_, ?_, ?_⟩
  · rw [(KeepsRequests.channelRelease c _).2.2.2]
    show reportsOf (Sys.setConnectionState _ c ConnectionState.DESTROYED).log = _
    rw [k4.2.2.2, frep, hstart.2.2.2]
  · refine List.Nodup.map_on ?_ (List.Nodup.of_map _ hnd)
    intro e1 h1 e2 h2 heq
    obtain ⟨r1, hr1, hi1, -, -⟩ := hv e1 h1
    obtain ⟨r2, hr2, hi2, -, -⟩ := hv e2 h2
    rw [heq, hr2] at hr1
    cases hr1
    exact Prod.ext (hi1.symm.trans hi2) heq
  · intro o ho
    obtain ⟨e, he, heq⟩ := List.mem_map.mp ho
    obtain ⟨r, hr, hrd⟩ := fdest e he
    refine ⟨r, ?_, hrd⟩
    rw [(KeepsRequests.channelRelease c _).1]
    show (Sys.setConnectionState _ c ConnectionState.DESTROYED).objects o = _
    rw [k4.1, ← heq]
    exact hr
  · rw [(KeepsRequests.channelRelease c _).2.2.1]
    show ((Sys.setConnectionState _ c ConnectionState.DESTROYED).channels c).m_responseRequests = _
    rw [k4.2.2.1]
    exact hempty
  · intro i hi
    rw [(KeepsRequests.channelRelease c _).2.1]
    show RefMap.lookup
      (Sys.setConnectionState _ c ConnectionState.DESTROYED).context.m_pendingResponseRequests i = _
    rw [k4.2.1, fctx i, if_pos hi]
  · rw [Sys.channelRelease_state]
    exact Sys.setConnectionState_state _ c ConnectionState.DESTROYED

/-- C13 at a connected channel with a channel get and a get field request. -/
theorem destroy_channel_reports_witness :
    (sampleOperating.channels 1).m_connectionState ≠ ConnectionState.DESTROYED ∧
    RequestsValid sampleOperating 1 ∧
    RefMap.valueList (sampleOperating.channels 1).m_responseRequests = [2, 3] ∧
    ∃ s1, sampleOperating.destroyChannel 1 false = Except.ok s1 ∧
      reportsOf s1.log = reportsOf sampleOperating.log ++
        (RefMap.valueList (sampleOperating.channels 1).m_responseRequests).map
          (fun o => (o, channelDestroyed)) ∧
      (RefMap.valueList (sampleOperating.channels 1).m_responseRequests).Nodup ∧
      (∀ o ∈ RefMap.valueList (sampleOperating.channels 1).m_responseRequests,
        ∃ r, s1.objects o = some r ∧ r.base.m_destroyed = true) ∧
      (s1.channels 1).m_responseRequests = [] ∧
      (∀ i ∈ RefMap.keyList (sampleOperating.channels 1).m_responseRequests,
        RefMap.lookup s1.context.m_pendingResponseRequests i = none) ∧
      (s1.channels 1).m_connectionState = ConnectionState.DESTROYED :=
  ⟨by decide, sampleOperating_valid, by decide,
    destroy_channel_reports sampleOperating 1 false (by decide) sampleOperating_valid⟩

/-- C25: for every operation class and every pending code that is
`PURE_DESTROY_REQUEST` or a QoS code from 0 to 255, one `send()` writes one
message and leaves `m_pendingRequest = NULL_REQUEST`; the next `startRequest`
then succeeds with any code, and a further `send()` with nothing pending
writes no message and changes nothing. -/
theorem send_consumes_pending (k : OpKind) (ext : Collaborators) (w : World)
    (hp : w.op.m_pendingRequest = PURE_DESTROY_REQUEST ∨
      (0 ≤ w.op.m_pendingRequest ∧ w.op.m_pendingRequest ≤ 255)) :
    (k.send ext w).1.length = 1 ∧
    (k.send ext w).2.op.m_pendingRequest = NULL_REQUEST ∧
    (∀ q, ((k.send ext w).2.op.startRequest q).1 = true ∧
      ((k.send ext w).2.op.startRequest q).2.m_pendingRequest = q) ∧
    (k.send ext (k.send ext w).2).1 = [] ∧
    (k.send ext (k.send ext w).2).2 = (k.send ext w).2 := by
  obtain ⟨h1, h2⟩ := OpKind.send_of_pending k ext w hp
  have hnull : (k.send ext w).2.op.m_pendingRequest = NULL_REQUEST := by rw [h2]; rfl
  refine ⟨h1, hnull, ?_, ?_, ?_⟩
  · intro q
    rw [startRequest_of_null _ q hnull]
    exact ⟨rfl, rfl⟩
  · rw [OpKind.send_nothing_pending k ext _ hnull]
  · rw [OpKind.send_nothing_pending k ext _ hnull]

/-- C25 at a ChannelPut with `QOS_DESTROY` pending. -/
theorem send_consumes_pending_witness :
    (samplePendingWorld.op.m_pendingRequest = PURE_DESTROY_REQUEST ∨
      (0 ≤ samplePendingWorld.op.m_pendingRequest ∧
        samplePendingWorld.op.m_pendingRequest ≤ 255)) ∧
    (OpKind.Put.send sampleCollaborators samplePendingWorld).1.length = 1 ∧
    (OpKind.Put.send sampleCollaborators samplePendingWorld).2.op.m_pendingRequest =
      NULL_REQUEST :=
  ⟨by decide,
    (send_consumes_pending OpKind.Put sampleCollaborators samplePendingWorld (by decide)).1,
    (send_consumes_pending OpKind.Put sampleCollaborators samplePendingWorld (by decide)).2.1⟩

/-- C27, as stated, fails for an operation with a request pending: on the
ChannelPut with `QOS_DESTROY` pending `resubscribeSubscription` leaves
`QOS_DESTROY` pending (its `startRequest(QOS_INIT)` is refused and the result
ignored), enqueues the operation all the same, and the next `send()` writes
the put with QoS byte 0x10, not an INIT request. -/
theorem resubscribe_with_pending_counterexample :
    samplePendingWorld.resubscribeSubscription.op.m_pendingRequest = QOS_DESTROY ∧
    samplePendingWorld.resubscribeSubscription.op.m_pendingRequest ≠ QOS_INIT ∧
    samplePendingWorld.resubscribeSubscription.env.sendQueue =
      samplePendingWorld.env.sendQueue ++ [TransportSender.request 1] ∧
    (OpKind.Put.send sampleCollaborators samplePendingWorld.resubscribeSubscription).1 =
      [{ command := 11, body := putInt 5 ++ putInt 1 ++ [0x10] ++ [0xB0, 0xD0] }] := by
  refine ⟨?_, ?_, ?_, ?_⟩ <;> decide

/-- C27, amended: `resubscribeSubscription(transport)` always enqueues the
operation on the transport. With no request pending (as after a disconnect,
which calls `stopRequest`) the pending request becomes `QOS_INIT` and the next
`send()` writes the INIT request of the class: SID, IOID, the byte 0x08 and
the pvRequest. With another request pending the operation is unchanged and
the next `send()` writes that request. -/
theorem resubscribe_enters_init (k : OpKind) (ext : Collaborators) (w : World) :
    w.resubscribeSubscription.env.sendQueue =
      w.env.sendQueue ++ [TransportSender.request w.op.m_ioid] ∧
    (w.op.m_pendingRequest = NULL_REQUEST →
      w.resubscribeSubscription.op.m_pendingRequest = QOS_INIT ∧
      (k.send ext w.resubscribeSubscription).1 =
        [{ command := k.specCommand,
           body := putInt w.env.m_serverChannelID ++ putInt w.op.m_ioid ++ [0x08] ++
             ext.serializePVRequest w.m_pvRequest }]) ∧
    (w.op.m_pendingRequest ≠ NULL_REQUEST →
      w.resubscribeSubscription.op = w.op ∧
      (k.send ext w.resubscribeSubscription).1 = (k.send ext w).1) := by
  refine ⟨?_, ?_, ?_⟩
  · unfold World.resubscribeSubscription World.enqueueSendRequest World.startRequest
    simp
  · intro hnull
    have hop : w.resubscribeSubscription.op = { w.op with m_pendingRequest := QOS_INIT } := by
      unfold World.resubscribeSubscription World.enqueueSendRequest World.startRequest
      simp [startRequest_of_null w.op QOS_INIT hnull]
    have henv : w.resubscribeSubscription.env.m_serverChannelID = w.env.m_serverChannelID := by
      unfold World.resubscribeSubscription World.enqueueSendRequest World.startRequest
      rfl
    have hpv : w.resubscribeSubscription.m_pvRequest = w.m_pvRequest := by
      unfold World.resubscribeSubscription World.enqueueSendRequest World.startRequest
      rfl
    refine ⟨by rw [hop], ?_⟩
    have h1 : and32 QOS_INIT QOS_INIT = QOS_INIT := by decide
    have h2 : truthy QOS_INIT = true := by decide
    have h3 : toByte QOS_INIT = 8 := by decide
    have h4 : ¬ QOS_INIT < 0 := by decide
    have h5 : QOS_INIT ≠ 0 := by decide
    cases k <;>
      simp [OpKind.send, OpKind.specCommand, ChannelProcessRequestImpl.send,
        ChannelGetImpl.send, ChannelPutImpl.send, ChannelPutGetImpl.send,
        ChannelMonitorImpl.send, ChannelArrayImpl.send, ChannelRPCImpl.send,
        BaseRequestImpl.getPendingRequest, hop, henv, hpv, h1, h2, h3, h4, h5]
  · intro hpend
    have hstart : w.op.startRequest QOS_INIT = (false, w.op) := by
      unfold BaseRequestImpl.startRequest
      rw [if_pos ⟨hpend, by decide⟩]
    have hw : w.resubscribeSubscription =
        { w with env := { w.env with
            sendQueue := w.env.sendQueue ++ [TransportSender.request w.op.m_ioid] } } := by
      unfold World.resubscribeSubscription World.enqueueSendRequest World.startRequest
      simp [hstart]
    refine ⟨by rw [hw], ?_⟩
    rw [hw]
    cases k <;>
      simp only [OpKind.send, ChannelProcessRequestImpl.send,
        ChannelGetImpl.send, ChannelPutImpl.send, ChannelPutGetImpl.send,
        ChannelMonitorImpl.send, ChannelArrayImpl.send, ChannelRPCImpl.send,
        BaseRequestImpl.send, BaseRequestImpl.getPendingRequest] <;>
      split_ifs <;> rfl

/-- C27, amended, at the freshly initialized sample ChannelPut: nothing is
pending, so the INIT request is sent next. -/
theorem resubscribe_enters_init_witness :
    sampleWorld.op.m_pendingRequest = NULL_REQUEST ∧
    sampleWorld.resubscribeSubscription.op.m_pendingRequest = QOS_INIT ∧
    (OpKind.Put.send sampleCollaborators sampleWorld.resubscribeSubscription).1 =
      [{ command := OpKind.Put.specCommand,
         body := putInt sampleWorld.env.m_serverChannelID ++ putInt sampleWorld.op.m_ioid ++
           [0x08] ++ sampleCollaborators.serializePVRequest sampleWorld.m_pvRequest }] :=
  ⟨by decide,
    ((resubscribe_enters_init OpKind.Put sampleCollaborators sampleWorld).2.1 (by decide)).1,
    ((resubscribe_enters_init OpKind.Put sampleCollaborators sampleWorld).2.1 (by decide)).2⟩

/-- C26, as stated, fails after a failed re-INIT: the operation is not
initialized on construction; after a successful INIT response and then an
INIT response with an error status `m_initialized` is still true, although
the most recent response carrying the INIT or the DESTROY bit is an INIT
response without success. -/
theorem initialized_after_failed_init_counterexample :
    sampleGetWorld.op.m_initialized = false ∧
    (OpKind.Get.responses sampleResponseMethods sampleReinit sampleGetWorld).op.m_initialized =
      true ∧
    sampleReinit.getLast? = some (0x08, ⟨StatusType.ERROR, "no such channel"⟩) ∧
    carriesInit 0x08 = true ∧
    (⟨StatusType.ERROR, "no such channel"⟩ : Status).isSuccess = false := by
  refine ⟨?_, ?_, ?_, ?_, ?_⟩ <;> decide

/-- C26, amended: after any sequence of responses `m_initialized` is true
exactly when either it was true before and no response took the DESTROY
branch (DESTROY bit without INIT bit), or some response was an INIT response
with a success status and no later response took the DESTROY branch. An INIT
response with a failure status leaves the flag as it was. -/
theorem initialized_after_responses (k : OpKind) (h : ResponseMethods)
    (hk : KeepsInitialized h) (rs : List (Nat × Status)) (w : World) :
    ((k.responses h rs w).op.m_initialized = true ↔
      (w.op.m_initialized = true ∧ ∀ r ∈ rs, carriesDestroyOnly r.1 = false) ∨
      (∃ pre q st post, rs = pre ++ (q, st) :: post ∧ carriesInit q = true ∧
        st.isSuccess = true ∧ ∀ r ∈ post, carriesDestroyOnly r.1 = false)) := by
  induction rs generalizing w with
  | nil => simp [OpKind.responses]
  | cons r rest ih =>
    obtain ⟨q, st⟩ := r
    have hstep := OpKind.response_initialized k h hk q st w
    have hdo : carriesInit q = true → carriesDestroyOnly q = false := by
      intro hci; unfold carriesDestroyOnly; simp [hci]
    simp only [OpKind.responses]
    rw [ih]
    constructor
    · rintro (⟨h1, h2⟩ | ⟨pre, q1, st1, post, hsplit, hq1, hst1, hpost⟩)
      · rw [hstep] at h1
        by_cases hci : carriesInit q = true
        · rw [if_pos hci] at h1
          by_cases hs : st.isSuccess = true
          · exact Or.inr ⟨[], q, st, rest, rfl, hci, hs, h2⟩
          · rw [if_neg hs] at h1
            refine Or.inl ⟨h1, ?_⟩
            intro r hr
            rcases List.mem_cons.mp hr with rfl | hr
            · exact hdo hci
            · exact h2 r hr
        · rw [if_neg hci] at h1
          by_cases hcd : carriesDestroyOnly q = true
          · rw [if_pos hcd] at h1; cases h1
          · rw [if_neg hcd] at h1
            refine Or.inl ⟨h1, ?_⟩
            intro r hr
            rcases List.mem_cons.mp hr with rfl | hr
            · simpa using hcd
            · exact h2 r hr
      · exact Or.inr ⟨(q, st) :: pre, q1, st1, post, by rw [hsplit]; rfl, hq1, hst1, hpost⟩
    · rintro (⟨h1, h2⟩ | ⟨pre, q1, st1, post, hsplit, hq1, hst1, hpost⟩)
      · have hq : carriesDestroyOnly q = false := h2 (q, st) (List.mem_cons_self _ _)
        refine Or.inl ⟨?_, fun r hr => h2 r (List.mem_cons_of_mem _ hr)⟩
        rw [hstep]
        by_cases hci : carriesInit q = true
        · rw [if_pos hci]; split <;> simp [h1]
        · rw [if_neg hci, if_neg (by simp [hq])]; exact h1
      · cases pre with
        | nil =>
          simp only [List.nil_append, List.cons.injEq, Prod.mk.injEq] at hsplit
          obtain ⟨⟨rfl, rfl⟩, rfl⟩ := hsplit
          refine Or.inl ⟨?_, hpost⟩
          rw [hstep, if_pos hq1, if_pos hst1]
        | cons x pre1 =>
          simp only [List.cons_append, List.cons.injEq] at hsplit
          exact Or.inr ⟨pre1, q1, st1, post, hsplit.2, hq1, hst1, hpost⟩

/-- C26, amended, at the freshly constructed ChannelGet: an INIT response
with success, then a data response, leave it initialized. -/
theorem initialized_after_responses_witness :
    KeepsInitialized sampleResponseMethods ∧
    (OpKind.Get.responses sampleResponseMethods [(0x08, Status.OK), (0x40, Status.OK)]
        sampleGetWorld).op.m_initialized = true ∧
    ((OpKind.Get.responses sampleResponseMethods [(0x08, Status.OK), (0x40, Status.OK)]
        sampleGetWorld).op.m_initialized = true ↔
      (sampleGetWorld.op.m_initialized = true ∧
        ∀ r ∈ [((0x08 : Nat), Status.OK), (0x40, Status.OK)], carriesDestroyOnly r.1 = false) ∨
      (∃ pre q st post, [((0x08 : Nat), Status.OK), (0x40, Status.OK)] = pre ++ (q, st) :: post ∧
        carriesInit q = true ∧ st.isSuccess = true ∧
        ∀ r ∈ post, carriesDestroyOnly r.1 = false)) :=
  ⟨fun _ _ _ => ⟨rfl, rfl, rfl⟩, by decide,
    initialized_after_responses OpKind.Get sampleResponseMethods (fun _ _ _ => ⟨rfl, rfl, rfl⟩)
      [(0x08, Status.OK), (0x40, Status.OK)] sampleGetWorld⟩

/-- C29 (the code departs from it): the response that echoes the QoS byte of
`putArray` or of `setLength` with `lastRequest` set takes `response` into
`destroyResponse`, which returns without a callback unless the GET bit is
set: neither `putArrayDone` nor `setLengthDone` is delivered. The other four
requests get their completion callback once, with the status of the
response. The first two lines give the codes that the two failing requests
start. -/
theorem array_last_request_completion (status : Status) (w : World) :
    (ChannelArrayImpl.putArray true 0 1 sampleWorld).op.m_pendingRequest = QOS_DESTROY ∧
    (ChannelArrayImpl.setLength true 1 1 sampleWorld).op.m_pendingRequest =
      or32 QOS_DESTROY QOS_GET_PUT ∧
    (BaseRequestImpl.response ChannelArrayImpl.responseMethods (toByte QOS_DESTROY) status
      w).2.env.callbacks = w.env.callbacks ∧
    (BaseRequestImpl.response ChannelArrayImpl.responseMethods
      (toByte (or32 QOS_DESTROY QOS_GET_PUT)) status w).2.env.callbacks = w.env.callbacks ∧
    (BaseRequestImpl.response ChannelArrayImpl.responseMethods (toByte QOS_DEFAULT) status
      w).2.env.callbacks = w.env.callbacks ++ [Callback.putArrayDone status] ∧
    (BaseRequestImpl.response ChannelArrayImpl.responseMethods (toByte QOS_GET_PUT) status
      w).2.env.callbacks = w.env.callbacks ++ [Callback.setLengthDone status] ∧
    (BaseRequestImpl.response ChannelArrayImpl.responseMethods (toByte QOS_GET) status
      w).2.env.callbacks = w.env.callbacks ++ [Callback.getArrayDone status] ∧
    (BaseRequestImpl.response ChannelArrayImpl.responseMethods
      (toByte (or32 QOS_DESTROY QOS_GET)) status w).2.env.callbacks =
        w.env.callbacks ++ [Callback.getArrayDone status] := by
  have b1 : toByte QOS_DESTROY = 0x10 := by decide
  have b2 : toByte (or32 QOS_DESTROY QOS_GET_PUT) = 0x90 := by decide
  have b3 : toByte QOS_DEFAULT = 0 := by decide
  have b4 : toByte QOS_GET_PUT = 0x80 := by decide
  have b5 : toByte QOS_GET = 0x40 := by decide
  have b6 : toByte (or32 QOS_DESTROY QOS_GET) = 0x50 := by decide
  have t (b : Int) (q : Int) (v : Bool) (h : truthy (and32 (toInt8 b) q) = v) :
      truthy (and32 (toInt8 b) q) = v := h
  have i1 := t 0x10 QOS_INIT false (by decide)
  have i2 := t 0x90 QOS_INIT false (by decide)
  have i3 := t 0 QOS_INIT false (by decide)
  have i4 := t 0x80 QOS_INIT false (by decide)
  have i5 := t 0x40 QOS_INIT false (by decide)
  have i6 := t 0x50 QOS_INIT false (by decide)
  have d1 := t 0x10 QOS_DESTROY true (by decide)
  have d2 := t 0x90 QOS_DESTROY true (by decide)
  have d3 := t 0 QOS_DESTROY false (by decide)
  have d4 := t 0x80 QOS_DESTROY false (by decide)
  have d5 := t 0x40 QOS_DESTROY false (by decide)
  have d6 := t 0x50 QOS_DESTROY true (by decide)
  have g1 := t 0x10 QOS_GET false (by decide)
  have g2 := t 0x90 QOS_GET false (by decide)
  have g3 := t 0 QOS_GET false (by decide)
  have g4 := t 0x80 QOS_GET false (by decide)
  have g5 := t 0x40 QOS_GET true (by decide)
  have g6 := t 0x50 QOS_GET true (by decide)
  have p3 := t 0 QOS_GET_PUT false (by decide)
  have p4 := t 0x80 QOS_GET_PUT true (by decide)
  refine ⟨by decide, by decide, ?_, ?_, ?_, ?_, ?_, ?_⟩
  · rw [b1]
    simp [BaseRequestImpl.response, ChannelArrayImpl.responseMethods,
      ChannelArrayImpl.destroyResponse, i1, d1, g1]
  · rw [b2]
    simp [BaseRequestImpl.response, ChannelArrayImpl.responseMethods,
      ChannelArrayImpl.destroyResponse, i2, d2, g2]
  · rw [b3]
    simp [BaseRequestImpl.response, ChannelArrayImpl.responseMethods,
      ChannelArrayImpl.normalResponse, World.callback, i3, d3, g3, p3]
  · rw [b4]
    simp [BaseRequestImpl.response, ChannelArrayImpl.responseMethods,
      ChannelArrayImpl.normalResponse, World.callback, i4, d4, g4, p4]
  · rw [b5]
    simp [BaseRequestImpl.response, ChannelArrayImpl.responseMethods,
      ChannelArrayImpl.normalResponse, World.callback, i5, d5, g5]
  · rw [b6]
    simp [BaseRequestImpl.response, ChannelArrayImpl.responseMethods,
      ChannelArrayImpl.destroyResponse, ChannelArrayImpl.normalResponse, World.callback,
      i6, d6, g6]

/-- C30 (the code departs from it): on a started monitor that holds an
unpolled update with changed set `{1}` and has a request pending, `start()`
returns `otherRequestPendingStatus`, yet it has already called `start()` on
the strategy: the buffered-element flag is false and the changed set empty
afterwards, so `poll()` returns no element. The started flag and the
pending request are as before. -/
theorem monitor_start_refused_clears (compress : BitSet → Structure → BitSet) :
    (sampleBufferedStrategy.poll compress).1 =
      some { changed := some (BitSet.ofList [1]), overrun := some 0 } ∧
    sampleBufferedMonitor.start =
      some (otherRequestPendingStatus,
        { sampleBufferedMonitor with
          m_monitorStrategy := some (MonitorStrategy.single
            { sampleBufferedStrategy with
              m_gotMonitor := false,
              slots := some { m_monitorElementStructure := ⟨0⟩,
                              m_monitorElementChangeBitSet := 0,
                              m_monitorElementOverrunBitSet := 0,
                              m_dataChangeBitSet := 0, m_dataOverrunBitSet := 0 } }) }) ∧
    (∀ r ∈ sampleBufferedMonitor.start,
      r.2.m_started = sampleBufferedMonitor.m_started ∧
      r.2.world = sampleBufferedMonitor.world ∧
      r.2.m_monitorStrategy ≠ sampleBufferedMonitor.m_monitorStrategy ∧
      ∀ s, r.2.m_monitorStrategy = some (MonitorStrategy.single s) →
        (s.poll compress).1 = none) := by
  have hstart : sampleBufferedMonitor.start =
      some (otherRequestPendingStatus,
        { sampleBufferedMonitor with
          m_monitorStrategy := some (MonitorStrategy.single
            { sampleBufferedStrategy with
              m_gotMonitor := false,
              slots := some { m_monitorElementStructure := ⟨0⟩,
                              m_monitorElementChangeBitSet := 0,
                              m_monitorElementOverrunBitSet := 0,
                              m_dataChangeBitSet := 0, m_dataOverrunBitSet := 0 } }) }) := by
    decide
  refine ⟨?_, hstart, ?_⟩
  · simp [MonitorStrategySingle.poll, sampleBufferedStrategy, MonitorStrategySingle.element]
  · intro r hr
    rw [hstart] at hr
    cases hr
    refine ⟨rfl, rfl, by decide, ?_⟩
    intro s hs
    cases hs
    simp [MonitorStrategySingle.poll]

/-- C23 (the code departs from it for Monitor): the constructors of Get, Put,
PutGet, RPC and Array, given a null pvRequest, register the operation, report
`pvRequestNull` to the connect callback of the class and return: nothing is
pending and nothing is enqueued. The constructor of Monitor has this check
commented out and calls `getSubField` through the null pointer: it has no
defined result and reports nothing, while with a pvRequest it returns. -/
theorem null_pvRequest_reported (fuel : Nat) (e : Env) :
    ChannelGetImpl.create fuel e none =
      (BaseRequestImpl.create fuel e none).map
        (fun w => w.callback (Callback.channelGetConnect pvRequestNull)) ∧
    ChannelPutImpl.create fuel e none =
      (BaseRequestImpl.create fuel e none).map
        (fun w => w.callback (Callback.channelPutConnect pvRequestNull)) ∧
    ChannelPutGetImpl.create fuel e none =
      (BaseRequestImpl.create fuel e none).map
        (fun w => w.callback (Callback.channelPutGetConnect pvRequestNull)) ∧
    ChannelRPCImpl.create fuel e none =
      (BaseRequestImpl.create fuel e none).map
        (fun w => w.callback (Callback.channelRPCConnect pvRequestNull)) ∧
    ChannelArrayImpl.create fuel e none =
      (BaseRequestImpl.create fuel e none).map
        (fun w => w.callback (Callback.channelArrayConnect pvRequestNull)) ∧
    (∀ w ∈ BaseRequestImpl.create fuel e none,
      w.op.m_pendingRequest = NULL_REQUEST ∧ w.env.sendQueue = e.sendQueue ∧
      w.env.callbacks = e.callbacks) ∧
    (ChannelGetImpl.create 4 sampleEnv none).map
        (fun w => (w.env.callbacks, w.env.sendQueue, w.op.m_pendingRequest)) =
      some ([Callback.channelGetConnect pvRequestNull], [], NULL_REQUEST) ∧
    (∀ getSubField extract,
      ChannelMonitorImpl.create getSubField extract fuel e none = none) ∧
    (ChannelMonitorImpl.create sampleGetSubField sampleExtract 4 sampleEnv (some ⟨2⟩)).isSome =
      true := by
  refine ⟨?_, ?_, ?_, ?_, ?_, ?_, by decide, ?_, by decide⟩
  · unfold ChannelGetImpl.create
    cases BaseRequestImpl.create fuel e none <;> simp
  · unfold ChannelPutImpl.create
    cases BaseRequestImpl.create fuel e none <;> simp
  · unfold ChannelPutGetImpl.create
    cases BaseRequestImpl.create fuel e none <;> simp
  · unfold ChannelRPCImpl.create
    cases BaseRequestImpl.create fuel e none <;> simp
  · unfold ChannelArrayImpl.create
    cases BaseRequestImpl.create fuel e none <;> simp
  · intro w hw
    unfold BaseRequestImpl.create at hw
    cases h1 : e.contextRegisterResponseRequest fuel with
    | none => rw [h1] at hw; cases hw
    | some p =>
      obtain ⟨ioid, e1⟩ := p
      rw [h1] at hw
      cases hw
      unfold Env.contextRegisterResponseRequest Env.generateIOID at h1
      cases h2 : generateIOIDLoop e.m_pendingResponseRequests fuel e.m_lastIOID with
      | none => rw [h2] at h1; cases h1
      | some i =>
        rw [h2] at h1
        cases h1
        exact ⟨rfl, rfl, rfl⟩
  · intro getSubField extract
    unfold ChannelMonitorImpl.create
    cases BaseRequestImpl.create fuel e none <;> rfl

/-- C28 (the code departs from it): the handler demands 140 bytes up front,
not 32: the 128 bits of the address are added to byte counts. A beacon of
exactly its 32 fixed bytes is therefore not decoded, nor is any payload
shorter than 140 bytes; padded to 140 bytes the same beacon is decoded, and
the reads before the extra data have then consumed 32 bytes (108 are left). -/
theorem beacon_ensure_size (responseFrom : osiSockAddr) (version : Int) (known : Bool)
    (extra : List Nat → Option Nat) :
    BeaconResponseHandler.ensureSize = 140 ∧
    sampleBeacon.length = 32 ∧
    BeaconResponseHandler.handleResponse responseFrom version known extra sampleBeacon =
      ([], false) ∧
    (∀ payload : List Nat,
      BeaconResponseHandler.handleResponse responseFrom version known extra
        (payload.take 139) = ([], false)) ∧
    BeaconResponseHandler.handleResponse ⟨167772161, 5075⟩ 1 true sampleExtra
        (sampleBeacon ++ List.replicate 108 0) =
      ([{ responseFrom := ⟨167772161, 5075⟩, version := 1, secondsPastEpoch := 7,
          nanoSeconds := 9, sequentalID := 1, data := some 108 }], true) := by
  have hsize : BeaconResponseHandler.ensureSize = 140 := by decide
  have hshort : ∀ payload : List Nat, payload.length < 140 →
      BeaconResponseHandler.handleResponse responseFrom version known extra payload =
        ([], false) := by
    intro payload hlen
    unfold BeaconResponseHandler.handleResponse
    have : ensureData BeaconResponseHandler.ensureSize payload = false := by
      unfold ensureData; rw [hsize]; simp; omega
    rw [this]; rfl
  refine ⟨hsize, by decide, hshort _ (by decide), ?_, sampleBeacon_padded⟩
  intro payload
  apply hshort
  have := List.length_take_le 139 payload
  omega

/-- C24 (the code departs from it): when `epicsSocketCreate` fails, or the
connect of the broadcast or of the search transport returns null,
`initializeUDPTransport()` returns false, `internalInitialize()` does not
look at that, and `initialize()` returns normally with the state
CONTEXT_INITIALIZED and the failed transport null. When a connect throws,
the exception reaches the caller and the state stays
CONTEXT_NOT_INITIALIZED. In no case is the state CONTEXT_DESTROYED. When all
three succeed the state is CONTEXT_INITIALIZED and both transports are
started. -/
theorem initialize_ignores_failure (b s : Except String (Option Nat)) (t u : Nat)
    (msg : String) :
    ( InternalClientContextImpl.initialize ⟨false, b, s⟩ ContextParts.create).1 = none ∧
    ( InternalClientContextImpl.initialize ⟨false, b, s⟩ ContextParts.create).2.m_contextState =
      ContextState.CONTEXT_INITIALIZED ∧
    ( InternalClientContextImpl.initialize ⟨false, b, s⟩
      ContextParts.create).2.m_broadcastTransport = none ∧
    ( InternalClientContextImpl.initialize ⟨true, Except.ok none, s⟩ ContextParts.create).1 =
      none ∧
    ( InternalClientContextImpl.initialize ⟨true, Except.ok none, s⟩
      ContextParts.create).2.m_contextState = ContextState.CONTEXT_INITIALIZED ∧
    ( InternalClientContextImpl.initialize ⟨true, Except.ok (some t), Except.ok none⟩
      ContextParts.create).1 = none ∧
    ( InternalClientContextImpl.initialize ⟨true, Except.ok (some t), Except.ok none⟩
      ContextParts.create).2.m_contextState = ContextState.CONTEXT_INITIALIZED ∧
    ( InternalClientContextImpl.initialize ⟨true, Except.ok (some t), Except.ok none⟩
      ContextParts.create).2.started = [] ∧
    InternalClientContextImpl.initialize ⟨true, Except.error msg, s⟩ ContextParts.create =
      (some msg,
        { ContextParts.create with m_timer := true, m_connector := true,
                                   m_transportRegistry := true, m_namedLocker := true }) ∧
    ( InternalClientContextImpl.initialize ⟨true, Except.ok (some t), Except.error msg⟩
      ContextParts.create).1 = some msg ∧
    ( InternalClientContextImpl.initialize ⟨true, Except.ok (some t), Except.error msg⟩
      ContextParts.create).2.m_contextState = ContextState.CONTEXT_NOT_INITIALIZED ∧
    InternalClientContextImpl.initialize ⟨true, Except.ok (some t), Except.ok (some u)⟩
        ContextParts.create =
      (none,
        { m_contextState := ContextState.CONTEXT_INITIALIZED, m_timer := true,
          m_connector := true, m_transportRegistry := true, m_namedLocker := true,
          m_broadcastTransport := some t, m_searchTransport := some u,
          m_channelSearchManager := true, started := [t, u] }) := by
  refine ⟨?_, ?_, ?_, ?_, ?_, ?_, ?_, ?_, ?_, ?_, ?_, ?_⟩ <;>
    simp [ InternalClientContextImpl.initialize, internalInitialize, initializeUDPTransport,
      ContextParts.create]

/-- C21: on a Getter built with a user callback, every sequence of
`channelGetConnect`, `getDone`, `channelDisconnect` and `cancel()` calls
delivers at most one `GetCallback::getDone`; and when `cancel()` comes while
nothing has been delivered yet, exactly one event is delivered in the whole
sequence, it is the one of this `cancel()` and its kind is Cancel, whatever
calls follow. -/
theorem getter_done_once (g : GetterCommon) (hcb : g.cb ≠ none) (hd : g.delivered = [])
    (calls : List GetterCall) :
    (g.run calls).delivered.length ≤ 1 ∧
    ∀ pre post, calls = pre ++ GetterCall.cancel :: post → (g.run pre).delivered = [] →
      (g.run calls).delivered = [{ (g.run pre).event with event := GetEvent.event_t.Cancel }] ∧
      (g.run (pre ++ [GetterCall.cancel])).delivered = (g.run calls).delivered := by
  refine ⟨?_, ?_⟩
  · rcases GetterCommon.run_inv calls g hcb hd with ⟨-, h2⟩ | ⟨-, h2⟩
    · rw [h2]; exact Nat.zero_le _
    · rw [h2]
  · intro pre post hsplit hpre
    have hprecb : (g.run pre).cb ≠ none := by
      rcases GetterCommon.run_inv pre g hcb hd with ⟨h1, -⟩ | ⟨-, h2⟩
      · exact h1
      · rw [hpre] at h2; cases h2
    obtain ⟨c1, c2⟩ := GetterCommon.cancel_of_some (g.run pre) hprecb
    have hone : (g.run (pre ++ [GetterCall.cancel])) = (g.run pre).cancel := by
      rw [GetterCommon.run_append]; rfl
    have hall : g.run calls = ((g.run pre).cancel).run post := by
      rw [hsplit, GetterCommon.run_append]; rfl
    obtain ⟨-, r2⟩ := GetterCommon.run_of_none post (g.run pre).cancel c1
    rw [hall, r2, hone, c2, hpre]
    exact ⟨rfl, rfl⟩

/-- C21 at a Getter that is cancelled after the connect and before the data:
the later `getDone`, `channelDisconnect` and second `cancel()` deliver
nothing. -/
theorem getter_done_once_witness :
    sampleGetter.cb ≠ none ∧ sampleGetter.delivered = [] ∧
    (sampleGetter.run [GetterCall.channelGetConnect Status.OK 7, GetterCall.cancel,
      GetterCall.getDone Status.OK (some 3) (some 4), GetterCall.channelDisconnect false,
      GetterCall.cancel]).delivered.length ≤ 1 ∧
    (sampleGetter.run [GetterCall.channelGetConnect Status.OK 7, GetterCall.cancel,
      GetterCall.getDone Status.OK (some 3) (some 4), GetterCall.channelDisconnect false,
      GetterCall.cancel]).delivered = [⟨GetEvent.event_t.Cancel, "", none, none⟩] :=
  ⟨by decide, by decide,
    (getter_done_once sampleGetter (by decide) (by decide)
      [GetterCall.channelGetConnect Status.OK 7, GetterCall.cancel,
       GetterCall.getDone Status.OK (some 3) (some 4), GetterCall.channelDisconnect false,
       GetterCall.cancel]).1,
    by decide⟩

/-- C22: on a started monitor that is valid and not done, `channelDisconnect`
delivers one Disconnect event (followed only by a Fail event if the user's
callback throws) and clears `started`; a following `monitorConnect` with a
successful status whose `operation->start()` succeeds sets `started` and
delivers nothing; and after any number `n` of `monitorEvent` calls the
callbacks are still the same and the next `monitorEvent` delivers a Data
event. -/
theorem monitor_reconnect_resumes (user : MonitorEvent → Option String) (m : Monitor.Impl)
    (destroy : Bool) (status sts : Status) (operation n : Nat)
    (hv : m.valid = true) (hd : m.done = false) (_hst : m.started = true)
    (hs : status.isSuccess = true) (hsts : sts.isSuccess = true) :
    (∃ extra, (m.channelDisconnect user destroy).delivered =
        m.delivered ++ ⟨MonitorEvent.event_t.Disconnect, "Disconnect"⟩ :: extra ∧
      (∀ e ∈ extra, e.event = MonitorEvent.event_t.Fail) ∧
      (user ⟨MonitorEvent.event_t.Disconnect, "Disconnect"⟩ = none → extra = [])) ∧
    (m.channelDisconnect user destroy).started = false ∧
    ((m.channelDisconnect user destroy).monitorConnect user status operation sts).started =
      true ∧
    ((m.channelDisconnect user destroy).monitorConnect user status operation sts).delivered =
      (m.channelDisconnect user destroy).delivered ∧
    ((fun x => Monitor.Impl.monitorEvent user x)^[n]
      ((m.channelDisconnect user destroy).monitorConnect user status operation sts)).cb =
        m.cb ∧
    ((fun x => Monitor.Impl.monitorEvent user x)^[n]
      ((m.channelDisconnect user destroy).monitorConnect user status operation sts)).cb11 =
        m.cb11 ∧
    (∃ extra,
      (Monitor.Impl.monitorEvent user ((fun x => Monitor.Impl.monitorEvent user x)^[n]
        ((m.channelDisconnect user destroy).monitorConnect user status operation
          sts))).delivered =
        ((fun x => Monitor.Impl.monitorEvent user x)^[n]
          ((m.channelDisconnect user destroy).monitorConnect user status operation
            sts)).delivered ++ ⟨MonitorEvent.event_t.Data, ""⟩ :: extra ∧
      (∀ e ∈ extra, e.event = MonitorEvent.event_t.Fail) ∧
      (user ⟨MonitorEvent.event_t.Data, ""⟩ = none → extra = [])) := by
  obtain ⟨hdel, c1, c2, c3, c4⟩ := Monitor.Impl.channelDisconnect_going user m destroy hv hd
  have hv1 : (m.channelDisconnect user destroy).valid = true := by
    unfold Monitor.Impl.valid at hv ⊢
    rw [c1, c2]; exact hv
  have hconn := Monitor.Impl.monitorConnect_started user (m.channelDisconnect user destroy)
    status sts operation hv1 c3 c4 hs hsts
  have hv2 : ((m.channelDisconnect user destroy).monitorConnect user status operation
      sts).valid = true := by
    rw [hconn]; exact hv1
  have hd2 : ((m.channelDisconnect user destroy).monitorConnect user status operation
      sts).done = false := by
    rw [hconn]; exact c3
  obtain ⟨i1, i2, i3, i4, -⟩ := Monitor.Impl.monitorEvent_iterate user n _ hv2 hd2
  obtain ⟨hdata, -⟩ := Monitor.Impl.monitorEvent_going user _ i1 i2
  refine ⟨hdel, c4, by rw [hconn], by rw [hconn], ?_, ?_, hdata⟩
  · rw [i3, hconn]; exact c1
  · rw [i4, hconn]; exact c2

/-- C22 at the sample monitor with a callback that returns: one Disconnect
event, then after the reconnect two Data events. -/
theorem monitor_reconnect_resumes_witness :
    sampleStartedMonitor.valid = true ∧ sampleStartedMonitor.done = false ∧
    sampleStartedMonitor.started = true ∧ Status.OK.isSuccess = true ∧
    (sampleStartedMonitor.channelDisconnect sampleUser false).started = false ∧
    ((sampleStartedMonitor.channelDisconnect sampleUser false).monitorConnect sampleUser
      Status.OK 7 Status.OK).started = true ∧
    ((fun x => Monitor.Impl.monitorEvent sampleUser x)^[2]
      ((sampleStartedMonitor.channelDisconnect sampleUser false).monitorConnect sampleUser
        Status.OK 7 Status.OK)).delivered =
      [⟨MonitorEvent.event_t.Disconnect, "Disconnect"⟩, ⟨MonitorEvent.event_t.Data, ""⟩,
       ⟨MonitorEvent.event_t.Data, ""⟩] :=
  ⟨by decide, by decide, by decide, by decide,
    (monitor_reconnect_resumes sampleUser sampleStartedMonitor false Status.OK Status.OK 7 2
      (by decide) (by decide) (by decide) (by decide) (by decide)).2.1,
    (monitor_reconnect_resumes sampleUser sampleStartedMonitor false Status.OK Status.OK 7 2
      (by decide) (by decide) (by decide) (by decide) (by decide)).2.2.1,
    by decide⟩

end PvAccess
